import Mathlib

/-!
Vk-Template: capability negotiation and resource lifecycle.

A shallow embedding of the decision logic of `Helpers.cpp` and of the
teardown sequence of `main.cpp`.

Conventions of the embedding.

* Vulkan handles, enum values and flag masks are natural numbers; the
  bitwise tests of the source are `&&&` on `Nat`.
* What the driver answers to a query (`vkGetPhysicalDevice...`) is an
  argument of the embedded function: the answer is data, the function is
  pure in it.
* A call that does not return to its caller yields `Except.error` with
  the way it ended (`Fatal`); `assert` is taken as compiled in, as the
  source relies on it in `VK_CHECK` and in `get_heap_idx`.
* Counts and indices are `uint32_t` in the source. The only arithmetic on
  them is the increment of a loop index below a `uint32_t` bound, which
  cannot wrap, so they are `Nat` without reduction modulo `2 ^ 32`; the one
  value that depends on the width, `(uint32_t)-1`, is `UINT32_MAX`.
* A function that calls into the driver to create, change or destroy
  objects is embedded as the list of calls it makes, in order (`VkCall` for
  the shutdown, `DeviceOp` for buffers, memory and the upload), with a
  handle the driver writes given as an argument. What the calls of the
  upload do to memory is described by `AbstractDevice`.
* Line numbers refer to `Helpers.cpp` unless `main.cpp` is named.
-/

namespace VkTemplate

/-! ## Outcomes -/

/-- Ways in which a call ends without handing a value back to its caller. -/
inductive Fatal where
  /-- The process left through `exit(EXIT_FAILURE)` (also through `EXIT`). -/
  | exit_failure
  /-- An `assert` did not hold. -/
  | assertion
  /-- A read outside a vector or array, or a shift by the type width or more:
  the source has no defined result. -/
  | undefined_behaviour
  deriving DecidableEq, Repr

/-- Equality of outcomes is decidable, so that closed evaluations of the
embedded functions can be checked by computation. -/
instance decEqOutcome {ε α : Type} [DecidableEq ε] [DecidableEq α] :
    DecidableEq (Except ε α)
  | .ok a, .ok b =>
    if h : a = b then isTrue (congrArg Except.ok h)
    else isFalse (fun h2 => h (Except.ok.inj h2))
  | .error a, .error b =>
    if h : a = b then isTrue (congrArg Except.error h)
    else isFalse (fun h2 => h (Except.error.inj h2))
  | .ok _, .error _ => isFalse (fun h => Except.noConfusion h)
  | .error _, .ok _ => isFalse (fun h => Except.noConfusion h)

/-! ## Constants of `vulkan_core.h` used by the source -/

def VK_QUEUE_GRAPHICS_BIT : Nat := 0x00000001
def VK_QUEUE_COMPUTE_BIT : Nat := 0x00000002
def VK_QUEUE_TRANSFER_BIT : Nat := 0x00000004

/-! ## Queue family selection (`select_q_family_indices`) -/

/-- The fields of `VkQueueFamilyProperties` the selection reads or that later
calls depend on. -/
structure VkQueueFamilyProperties where
  queueFlags : Nat
  queueCount : Nat
  deriving DecidableEq, Repr

/-- The loop shape shared by the three searches of `get_q_family_idx`:
`for (uint32_t i = i0; i < size; i++) if (test(i, props[i])) return i;`
with `none` when the loop runs to its end. The second argument is the index
of the head of the remaining list. -/
def first_family (test : Nat → VkQueueFamilyProperties → Bool) :
    Nat → List VkQueueFamilyProperties → Option Nat
  | _, [] => none
  | i, p :: ps => if test i p then some i else first_family test (i + 1) ps

/-- Condition of the first loop (lines 76-82): the family shares a bit with
`q_flag` and has no graphics bit. -/
def dedicated_compute_test (q_flag : Nat) (_i : Nat) (p : VkQueueFamilyProperties) : Bool :=
  (p.queueFlags &&& q_flag != 0) && (p.queueFlags &&& VK_QUEUE_GRAPHICS_BIT == 0)

/-- Condition of the second loop (lines 89-95): the family shares a bit with
`q_flag` and has neither the graphics nor the compute bit. -/
def dedicated_transfer_test (q_flag : Nat) (_i : Nat) (p : VkQueueFamilyProperties) : Bool :=
  (p.queueFlags &&& q_flag != 0) && (p.queueFlags &&& VK_QUEUE_GRAPHICS_BIT == 0)
    && (p.queueFlags &&& VK_QUEUE_COMPUTE_BIT == 0)

/-- Condition of the last loop (lines 99-115): the family shares a bit with
`q_flag` and, when `present` is set, `vkGetPhysicalDeviceSurfaceSupportKHR`
answered true for its index. -/
def general_test (surface_support : Nat → Bool) (q_flag : Nat) (present : Bool)
    (i : Nat) (p : VkQueueFamilyProperties) : Bool :=
  (p.queueFlags &&& q_flag != 0) && (if present then surface_support i else true)

/-- The lambda `get_q_family_idx` of `select_q_family_indices`.
`q_family_props` is the answer of `vkGetPhysicalDeviceQueueFamilyProperties`,
`surface_support i` the answer of `vkGetPhysicalDeviceSurfaceSupportKHR` for
family `i` on the bound surface. -/
def get_q_family_idx (q_family_props : List VkQueueFamilyProperties)
    (surface_support : Nat → Bool) (q_flag : Nat) (present : Bool) : Except Fatal Nat :=
  let compute_found : Option Nat :=
    if q_flag &&& VK_QUEUE_COMPUTE_BIT ≠ 0 then
      first_family (dedicated_compute_test q_flag) 0 q_family_props
    else none
  match compute_found with
  | some i => .ok i
  | none =>
    let transfer_found : Option Nat :=
      if q_flag &&& VK_QUEUE_TRANSFER_BIT ≠ 0 then
        first_family (dedicated_transfer_test q_flag) 0 q_family_props
      else none
    match transfer_found with
    | some i => .ok i
    | none =>
      match first_family (general_test surface_support q_flag present) 0 q_family_props with
      | some i => .ok i
      | none => .error Fatal.exit_failure

/-- The flag handed to `get_q_family_idx` as `present` (line 124):
`(q_flags[i] & VK_QUEUE_GRAPHICS_BIT) ? true : false`. -/
def requires_present (q_flag : Nat) : Bool :=
  q_flag &&& VK_QUEUE_GRAPHICS_BIT != 0

/-- Model of `select_q_family_indices`: the entries of `q_flags` are resolved
in order, the first one without a family ends the process. -/
def select_q_family_indices (q_family_props : List VkQueueFamilyProperties)
    (surface_support : Nat → Bool) : List Nat → Except Fatal (List Nat)
  | [] => .ok []
  | q :: qs =>
    match get_q_family_idx q_family_props surface_support q (requires_present q) with
    | .error e => .error e
    | .ok i =>
      match select_q_family_indices q_family_props surface_support qs with
      | .error e => .error e
      | .ok rest => .ok (i :: rest)

/-! ## Swapchain negotiation (`populate_swapchain_create_info`) -/

def VK_SURFACE_TRANSFORM_IDENTITY_BIT_KHR : Nat := 0x00000001
def VK_COMPOSITE_ALPHA_OPAQUE_BIT_KHR : Nat := 0x00000001
def VK_COMPOSITE_ALPHA_PRE_MULTIPLIED_BIT_KHR : Nat := 0x00000002
def VK_COMPOSITE_ALPHA_POST_MULTIPLIED_BIT_KHR : Nat := 0x00000004
def VK_COMPOSITE_ALPHA_INHERIT_BIT_KHR : Nat := 0x00000008
def VK_PRESENT_MODE_IMMEDIATE_KHR : Nat := 0
def VK_PRESENT_MODE_MAILBOX_KHR : Nat := 1
def VK_PRESENT_MODE_FIFO_KHR : Nat := 2
def VK_PRESENT_MODE_FIFO_RELAXED_KHR : Nat := 3
def VK_IMAGE_USAGE_COLOR_ATTACHMENT_BIT : Nat := 0x00000010
def VK_SHARING_MODE_EXCLUSIVE : Nat := 0
def VK_TRUE : Nat := 1
def VK_NULL_HANDLE : Nat := 0
def VK_FORMAT_R8G8B8A8_SRGB : Nat := 43
def VK_FORMAT_B8G8R8A8_SRGB : Nat := 50
def VK_COLOR_SPACE_SRGB_NONLINEAR_KHR : Nat := 0
def VK_COLOR_SPACE_DISPLAY_P3_NONLINEAR_EXT : Nat := 1000104001

/-- The value of `(uint32_t)-1`. -/
def UINT32_MAX : Nat := 2 ^ 32 - 1

structure VkExtent2D where
  width : Nat
  height : Nat
  deriving DecidableEq, Repr

structure VkSurfaceFormatKHR where
  format : Nat
  colorSpace : Nat
  deriving DecidableEq, Repr

/-- The fields of `VkSurfaceCapabilitiesKHR` that the negotiation reads. -/
structure VkSurfaceCapabilitiesKHR where
  minImageCount : Nat
  maxImageCount : Nat
  currentExtent : VkExtent2D
  supportedTransforms : Nat
  currentTransform : Nat
  supportedCompositeAlpha : Nat
  deriving DecidableEq, Repr

/-- What the three surface queries of `populate_swapchain_create_info`
answer for the physical device and surface at hand, each taken to have
reported `VK_SUCCESS`. -/
structure SurfaceReport where
  surface_capabilities : VkSurfaceCapabilitiesKHR
  supported_surface_formats : List VkSurfaceFormatKHR
  supported_present_modes : List Nat
  deriving DecidableEq, Repr

/-- The fields of `VkSwapchainCreateInfoKHR` written by the function; the
ones it leaves alone keep the zero of the aggregate initialisation. -/
structure VkSwapchainCreateInfoKHR where
  surface : Nat
  minImageCount : Nat
  imageFormat : Nat
  imageColorSpace : Nat
  imageExtent : VkExtent2D
  imageArrayLayers : Nat
  imageUsage : Nat
  imageSharingMode : Nat
  queueFamilyIndexCount : Nat
  preTransform : Nat
  compositeAlpha : Nat
  presentMode : Nat
  clipped : Nat
  oldSwapchain : Nat
  deriving DecidableEq, Repr

/-- Block `Image Count` (lines 212-240): the assertion on the request, then
the comparison with the reported bounds. -/
def negotiate_image_count (caps : VkSurfaceCapabilitiesKHR) (image_count : Nat) :
    Except Fatal Nat :=
  if image_count > 0 then
    if caps.maxImageCount = 0 then
      if image_count ≥ caps.minImageCount then .ok image_count
      else .error Fatal.exit_failure
    else if image_count ≥ caps.minImageCount ∧ image_count ≤ caps.maxImageCount then
      .ok image_count
    else .error Fatal.exit_failure
  else .error Fatal.assertion

/-- Block `Image Format` (lines 242-267): the first supported entry whose
`format` equals the request, else entry 0 of the vector (no defined result
when the vector is empty). Only `format` is compared, the request has no
colour space. -/
def negotiate_image_format (supported_surface_formats : List VkSurfaceFormatKHR)
    (format : Nat) : Except Fatal VkSurfaceFormatKHR :=
  match supported_surface_formats.find? (fun sf => sf.format == format) with
  | some sf => .ok sf
  | none =>
    match supported_surface_formats with
    | sf0 :: _ => .ok sf0
    | [] => .error Fatal.undefined_behaviour

/-- Block `Extent` (lines 269-281), with the comparison as the source has it. -/
def negotiate_extent (caps : VkSurfaceCapabilitiesKHR) (extent : VkExtent2D) : VkExtent2D :=
  if caps.currentExtent.width ≠ UINT32_MAX then extent else caps.currentExtent

/-- Block `Pre Transform` (lines 289-300). -/
def negotiate_pre_transform (caps : VkSurfaceCapabilitiesKHR) : Nat :=
  if caps.supportedTransforms &&& VK_SURFACE_TRANSFORM_IDENTITY_BIT_KHR ≠ 0 then
    VK_SURFACE_TRANSFORM_IDENTITY_BIT_KHR
  else caps.currentTransform

/-- The array `composite_alpha_flags` of the source. -/
def composite_alpha_flags : List Nat :=
  [VK_COMPOSITE_ALPHA_OPAQUE_BIT_KHR, VK_COMPOSITE_ALPHA_PRE_MULTIPLIED_BIT_KHR,
   VK_COMPOSITE_ALPHA_POST_MULTIPLIED_BIT_KHR, VK_COMPOSITE_ALPHA_INHERIT_BIT_KHR]

/-- Block `Composite Alpha` (lines 302-323): the first flag of the array with
a bit in the supported mask; the field keeps its initial zero when the loop
ends without a match. -/
def negotiate_composite_alpha (caps : VkSurfaceCapabilitiesKHR) : Nat :=
  match composite_alpha_flags.find? (fun a => caps.supportedCompositeAlpha &&& a != 0) with
  | some a => a
  | none => 0

/-- Block `Present Mode` (lines 325-344): FIFO, replaced by the request when a
supported mode equals it. -/
def negotiate_present_mode (supported_present_modes : List Nat) (present_mode : Nat) : Nat :=
  if supported_present_modes.any (fun m => m == present_mode) then present_mode
  else VK_PRESENT_MODE_FIFO_KHR

/-- Model of `populate_swapchain_create_info`. -/
def populate_swapchain_create_info (report : SurfaceReport) (surface : Nat)
    (image_count : Nat) (format : Nat) (extent : VkExtent2D) (present_mode : Nat) :
    Except Fatal VkSwapchainCreateInfoKHR :=
  match negotiate_image_count report.surface_capabilities image_count with
  | .error e => .error e
  | .ok count =>
    match negotiate_image_format report.supported_surface_formats format with
    | .error e => .error e
    | .ok sf =>
      .ok {
        surface := surface
        minImageCount := count
        imageFormat := sf.format
        imageColorSpace := sf.colorSpace
        imageExtent := negotiate_extent report.surface_capabilities extent
        imageArrayLayers := 1
        imageUsage := VK_IMAGE_USAGE_COLOR_ATTACHMENT_BIT
        imageSharingMode := VK_SHARING_MODE_EXCLUSIVE
        queueFamilyIndexCount := 0
        preTransform := negotiate_pre_transform report.surface_capabilities
        compositeAlpha := negotiate_composite_alpha report.surface_capabilities
        presentMode := negotiate_present_mode report.supported_present_modes present_mode
        clipped := VK_TRUE
        oldSwapchain := VK_NULL_HANDLE }

/-! ## Memory type resolution (`get_heap_idx`) -/

def VK_MAX_MEMORY_TYPES : Nat := 32
def VK_MEMORY_PROPERTY_DEVICE_LOCAL_BIT : Nat := 0x00000001
def VK_MEMORY_PROPERTY_HOST_VISIBLE_BIT : Nat := 0x00000002
def VK_MEMORY_PROPERTY_HOST_COHERENT_BIT : Nat := 0x00000004

structure VkMemoryType where
  propertyFlags : Nat
  heapIndex : Nat
  deriving DecidableEq, Repr

/-- The part of `VkPhysicalDeviceMemoryProperties` that `get_heap_idx` reads:
the count and the array `memoryTypes[VK_MAX_MEMORY_TYPES]`. -/
structure VkPhysicalDeviceMemoryProperties where
  memoryTypeCount : Nat
  memoryTypes : Fin 32 → VkMemoryType

/-- The condition of line 399 at an index inside the array:
`memory_type_indices & (1 << i) && (propertyFlags & flags) == flags`.
For `i <= 31` the shifted `int`, converted to `uint32_t` for the `&`, is the
mask with bit `i` alone. -/
def memory_type_matches (memory_type_indices memory_property_flags : Nat)
    (memory_properties : VkPhysicalDeviceMemoryProperties) (i : Fin 32) : Bool :=
  (memory_type_indices &&& (1 <<< i.val) != 0) &&
    ((memory_properties.memoryTypes i).propertyFlags &&& memory_property_flags
      == memory_property_flags)

/-- The loop of `get_heap_idx` with `remaining` iterations left at index `i`.
Past index 31 the shift and the array read have no defined result; when the
loop ends the assertion of line 405 fails. -/
def get_heap_idx_loop (memory_type_indices memory_property_flags : Nat)
    (memory_properties : VkPhysicalDeviceMemoryProperties) : Nat → Nat → Except Fatal Nat
  | 0, _ => .error Fatal.assertion
  | remaining + 1, i =>
    if h : i < 32 then
      if memory_type_matches memory_type_indices memory_property_flags memory_properties ⟨i, h⟩
      then .ok i
      else get_heap_idx_loop memory_type_indices memory_property_flags memory_properties
        remaining (i + 1)
    else .error Fatal.undefined_behaviour

/-- Model of `get_heap_idx`. -/
def get_heap_idx (memory_type_indices memory_property_flags : Nat)
    (memory_properties : VkPhysicalDeviceMemoryProperties) : Except Fatal Nat :=
  get_heap_idx_loop memory_type_indices memory_property_flags memory_properties
    memory_properties.memoryTypeCount 0

/-! ## Teardown (`release` of `main.cpp`, `vulkan_release`) -/

abbrev RENDERPASS_COUNT : Nat := 1
abbrev PIPELINE_COUNT : Nat := 1
abbrev COMMAND_POOL_COUNT : Nat := 1
abbrev COMMAND_BUFFER_COUNT : Nat := 1
abbrev SEMAPHORE_COUNT : Nat := 0
abbrev FENCE_COUNT : Nat := 1
abbrev BUFFER_COUNT : Nat := 3

/-- The handles held by `VulkanManager` (struct of `Helpers.hpp`). -/
structure VulkanManager where
  «instance» : Nat
  surface : Nat
  physical_device : Nat
  device : Nat
  swapchain : Nat
  queue_family_indices : List Nat
  queues : List Nat
  swapchain_format : Nat
  swapchain_extent : VkExtent2D
  swapchain_images : List Nat
  swapchain_image_views : List Nat
  physical_device_memory_properties : VkPhysicalDeviceMemoryProperties

/-- The handles held by `VulkanApp` (struct of `main.cpp`); a fixed array of
`N` slots is a function on `Fin N`. -/
structure VulkanApp where
  renderpass : Fin RENDERPASS_COUNT → Nat
  framebuffers : List Nat
  pipeline : Fin PIPELINE_COUNT → Nat
  pipeline_layout : Fin PIPELINE_COUNT → Nat
  command_pool : Fin COMMAND_POOL_COUNT → Nat
  command_buffer : Fin COMMAND_BUFFER_COUNT → Nat
  semaphore : Fin SEMAPHORE_COUNT → Nat
  fence : Fin FENCE_COUNT → Nat
  buffer : Fin BUFFER_COUNT → Nat
  buffer_memory : Fin BUFFER_COUNT → Nat

/-- The destroy and free calls of the shutdown path, with their handle
arguments (the allocator argument is `nullptr` throughout). -/
inductive VkCall where
  | vkFreeMemory (device memory : Nat)
  | vkDestroyBuffer (device buffer : Nat)
  | vkDestroyCommandPool (device pool : Nat)
  | vkDestroySemaphore (device semaphore : Nat)
  | vkDestroyFence (device fence : Nat)
  | vkDestroyPipelineLayout (device layout : Nat)
  | vkDestroyPipeline (device pipeline : Nat)
  | vkDestroyFramebuffer (device framebuffer : Nat)
  | vkDestroyRenderPass (device renderpass : Nat)
  | vkDestroyImageView (device view : Nat)
  | vkDestroySwapchainKHR (device swapchain : Nat)
  | vkDestroyDevice (device : Nat)
  | vkDestroySurfaceKHR (inst surface : Nat)
  | vkDestroyInstance (inst : Nat)
  deriving DecidableEq, Repr

/-- The first loop of `vulkan_release` (lines 451-452) with `remaining`
iterations left at index `i`: the bound is `swapchain_images.size()`, the
read is `swapchain_image_views[i]`. -/
def destroy_image_views (device : Nat) (swapchain_image_views : List Nat) :
    Nat → Nat → Except Fatal (List VkCall)
  | 0, _ => .ok []
  | remaining + 1, i =>
    match swapchain_image_views[i]? with
    | none => .error Fatal.undefined_behaviour
    | some view =>
      match destroy_image_views device swapchain_image_views remaining (i + 1) with
      | .error e => .error e
      | .ok calls => .ok (VkCall.vkDestroyImageView device view :: calls)

/-- Model of `vulkan_release`: the calls it makes, in order. -/
def vulkan_release (vulkan_manager : VulkanManager) : Except Fatal (List VkCall) :=
  match destroy_image_views vulkan_manager.device vulkan_manager.swapchain_image_views
      vulkan_manager.swapchain_images.length 0 with
  | .error e => .error e
  | .ok views =>
    .ok (views ++
      [VkCall.vkDestroySwapchainKHR vulkan_manager.device vulkan_manager.swapchain,
       VkCall.vkDestroyDevice vulkan_manager.device,
       VkCall.vkDestroySurfaceKHR vulkan_manager.«instance» vulkan_manager.surface,
       VkCall.vkDestroyInstance vulkan_manager.«instance»])

/-- The calls of `release` (lines 467-492 of `main.cpp`) that precede the
call of `vulkan_release`, loop by loop. -/
def release_app_calls (g_vk : VulkanManager) (g_vk_app : VulkanApp) : List VkCall :=
  (List.finRange BUFFER_COUNT).flatMap (fun i =>
      [VkCall.vkFreeMemory g_vk.device (g_vk_app.buffer_memory i),
       VkCall.vkDestroyBuffer g_vk.device (g_vk_app.buffer i)])
  ++ (List.finRange COMMAND_POOL_COUNT).map (fun i =>
      VkCall.vkDestroyCommandPool g_vk.device (g_vk_app.command_pool i))
  ++ (List.finRange SEMAPHORE_COUNT).map (fun i =>
      VkCall.vkDestroySemaphore g_vk.device (g_vk_app.semaphore i))
  ++ (List.finRange FENCE_COUNT).map (fun i =>
      VkCall.vkDestroyFence g_vk.device (g_vk_app.fence i))
  ++ (List.finRange PIPELINE_COUNT).flatMap (fun i =>
      [VkCall.vkDestroyPipelineLayout g_vk.device (g_vk_app.pipeline_layout i),
       VkCall.vkDestroyPipeline g_vk.device (g_vk_app.pipeline i)])
  ++ g_vk_app.framebuffers.map (fun fb => VkCall.vkDestroyFramebuffer g_vk.device fb)
  ++ (List.finRange RENDERPASS_COUNT).map (fun i =>
      VkCall.vkDestroyRenderPass g_vk.device (g_vk_app.renderpass i))

/-- Model of `release`: its own calls, then those of `vulkan_release(g_vk)`. -/
def release (g_vk : VulkanManager) (g_vk_app : VulkanApp) : Except Fatal (List VkCall) :=
  match vulkan_release g_vk with
  | .error e => .error e
  | .ok calls => .ok (release_app_calls g_vk g_vk_app ++ calls)

/-- A call that frees a memory block or destroys a buffer. -/
def VkCall.releases_buffer_or_memory : VkCall → Bool
  | .vkFreeMemory _ _ => true
  | .vkDestroyBuffer _ _ => true
  | _ => false

/-- A call that destroys a swapchain image view or the swapchain. -/
def VkCall.destroys_view_or_swapchain : VkCall → Bool
  | .vkDestroyImageView _ _ => true
  | .vkDestroySwapchainKHR _ _ => true
  | _ => false

/-- The call that destroys the logical device. -/
def VkCall.destroys_device : VkCall → Bool
  | .vkDestroyDevice _ => true
  | _ => false

/-! ## Device creation and queues (`create_device`, `get_queues`) -/

abbrev DEVICE_EXT_SWAPCHAIN : Nat := 0
abbrev DEVICE_EXT_SYNC_2 : Nat := 1
abbrev DEVICE_EXT_COUNT : Nat := 2

/-- The value of the header constant of the same name. -/
def VK_KHR_SWAPCHAIN_EXTENSION_NAME : String := "VK_KHR_swapchain"

/-- The fields of `VkDeviceQueueCreateInfo` set on lines 138-142; the priority
pointer refers to the one local `q_priority` in every entry. -/
structure VkDeviceQueueCreateInfo where
  queueFamilyIndex : Nat
  queueCount : Nat
  deriving DecidableEq, Repr

/-- The feature blocks that `create_device` can link into the chain of
`VkDeviceCreateInfo::pNext`. The file-scope object `sync_2_features` is the
only one. -/
inductive FeatureBlock where
  | sync_2_features
  deriving DecidableEq, Repr

/-- The variables of the extension loop (lines 147-175). A `void*` is `none`
for `nullptr` and `some b` for the address of block `b`; `next_p_next`, a
`void**`, is `none` for `nullptr` and `some b` for the address of the `pNext`
field of block `b`. `sync_2_features_pNext` is the `pNext` field of the
file-scope object, `nullptr` after static initialisation. -/
structure ExtensionLoopState where
  device_extensions : List String
  p_next_chain : Option FeatureBlock
  next_p_next : Option FeatureBlock
  sync_2_features_pNext : Option FeatureBlock
  deriving DecidableEq, Repr

/-- One iteration of the loop: the `switch` on `ext_id`. The store
`*next_p_next = &sync_2_features` writes the `pNext` field that `next_p_next`
points at; through a null `next_p_next` it has no defined result. -/
def extension_step (st : ExtensionLoopState) (ext_id : Nat) :
    Except Fatal ExtensionLoopState :=
  if ext_id = DEVICE_EXT_SYNC_2 then
    match st.p_next_chain with
    | none =>
      .ok { st with p_next_chain := some FeatureBlock.sync_2_features
                    next_p_next := some FeatureBlock.sync_2_features }
    | some _ =>
      match st.next_p_next with
      | some FeatureBlock.sync_2_features =>
        .ok { st with sync_2_features_pNext := some FeatureBlock.sync_2_features }
      | none => .error Fatal.undefined_behaviour
  else if ext_id = DEVICE_EXT_SWAPCHAIN then
    .ok { st with device_extensions :=
            st.device_extensions ++ [VK_KHR_SWAPCHAIN_EXTENSION_NAME] }
  else .error Fatal.exit_failure

/-- The loop over `device_extension_ids`. -/
def extension_loop : ExtensionLoopState → List Nat → Except Fatal ExtensionLoopState
  | st, [] => .ok st
  | st, ext_id :: rest =>
    match extension_step st ext_id with
    | .error e => .error e
    | .ok st2 => extension_loop st2 rest

/-- What `create_device` hands to `vkCreateDevice`: the fields of
`VkDeviceCreateInfo` it sets, and the `pNext` field of `sync_2_features` as
the chain is read from `pNext` on. -/
structure VkDeviceCreateInfo where
  pNext : Option FeatureBlock
  sync_2_features_pNext : Option FeatureBlock
  queueCreateInfos : List VkDeviceQueueCreateInfo
  enabledLayerCount : Nat
  enabledExtensionNames : List String
  deriving DecidableEq, Repr

/-- Model of `create_device` up to the call of `vkCreateDevice` (taken to
report `VK_SUCCESS`): the create-info the call receives. -/
def create_device (q_family_indices : List Nat) (device_extension_ids : List Nat) :
    Except Fatal VkDeviceCreateInfo :=
  let q_create_infos : List VkDeviceQueueCreateInfo :=
    q_family_indices.map (fun idx => { queueFamilyIndex := idx, queueCount := 1 })
  match extension_loop
      { device_extensions := [], p_next_chain := none, next_p_next := none,
        sync_2_features_pNext := none } device_extension_ids with
  | .error e => .error e
  | .ok st =>
    .ok { pNext := st.p_next_chain
          sync_2_features_pNext := st.sync_2_features_pNext
          queueCreateInfos := q_create_infos
          enabledLayerCount := 0
          enabledExtensionNames := st.device_extensions }

/-- Model of `get_queues`: entry `i` is what `vkGetDeviceQueue` writes for
family `q_family_indices[i]` and queue index 0. `device_queue family index`
is the handle the driver holds for that queue. -/
def get_queues (device_queue : Nat → Nat → Nat) (q_family_indices : List Nat) : List Nat :=
  q_family_indices.map (fun family => device_queue family 0)

/-! ## Buffers, memory and the upload (`create_buffer`, `allocate_buffer_memory`,
`upload_data`, the scene block of `init`) -/

/-- The value of `VK_WHOLE_SIZE`, that is `~0ULL`. -/
def VK_WHOLE_SIZE : Nat := 2 ^ 64 - 1
def VK_COMMAND_BUFFER_USAGE_ONE_TIME_SUBMIT_BIT : Nat := 0x00000001
def VK_BUFFER_USAGE_TRANSFER_SRC_BIT : Nat := 0x00000001
def VK_BUFFER_USAGE_TRANSFER_DST_BIT : Nat := 0x00000002
def VK_BUFFER_USAGE_INDEX_BUFFER_BIT : Nat := 0x00000040
def VK_BUFFER_USAGE_VERTEX_BUFFER_BIT : Nat := 0x00000080

structure VkMemoryRequirements where
  size : Nat
  alignment : Nat
  memoryTypeBits : Nat
  deriving DecidableEq, Repr

structure VkBufferCopy where
  srcOffset : Nat
  dstOffset : Nat
  size : Nat
  deriving DecidableEq, Repr

structure VkMappedMemoryRange where
  memory : Nat
  offset : Nat
  size : Nat
  deriving DecidableEq, Repr

/-- The fields of `VkSubmitInfo` as lists; the counts are their lengths. -/
structure VkSubmitInfo where
  waitSemaphores : List Nat
  commandBuffers : List Nat
  signalSemaphores : List Nat
  deriving DecidableEq, Repr

/-- The calls on buffers, memory, command buffers and queues that the
allocator and the upload make, with their arguments. A handle the driver
writes through an out-pointer is the last argument of its call; `memcpy` is
the host copy of `n` bytes from `src` to the pointer `vkMapMemory` returned. -/
inductive DeviceOp where
  | vkCreateBuffer (device size usage sharingMode buffer : Nat)
  | vkGetBufferMemoryRequirements (device buffer : Nat)
  | vkAllocateMemory (device allocationSize memoryTypeIndex memory : Nat)
  | vkBindBufferMemory (device buffer memory memoryOffset : Nat)
  | vkMapMemory (device memory offset size flags : Nat)
  | memcpy (src : List Nat) (n : Nat)
  | vkFlushMappedMemoryRanges (device : Nat) (ranges : List VkMappedMemoryRange)
  | vkUnmapMemory (device memory : Nat)
  | vkBeginCommandBuffer (commandBuffer flags : Nat)
  | vkCmdCopyBuffer (commandBuffer srcBuffer dstBuffer : Nat) (regions : List VkBufferCopy)
  | vkEndCommandBuffer (commandBuffer : Nat)
  | vkQueueSubmit (queue : Nat) (submits : List VkSubmitInfo) (fence : Nat)
  | vkQueueWaitIdle (queue : Nat)
  | vkResetCommandPool (device commandPool flags : Nat)
  deriving DecidableEq, Repr

/-- Model of `create_buffer`: the one call it makes and the handle it returns
(`buffer`, as written by the driver). -/
def create_buffer (buffer : Nat) (device size usage : Nat) : List DeviceOp × Nat :=
  ([DeviceOp.vkCreateBuffer device size usage VK_SHARING_MODE_EXCLUSIVE buffer], buffer)

/-- Model of `allocate_buffer_memory`: the calls it makes and its outcome.
`memReqs` is what `vkGetBufferMemoryRequirements` answers for the buffer and
`memory` the handle `vkAllocateMemory` writes. The type index of the
allocate-info is computed by `get_heap_idx` before `vkAllocateMemory` is
called; the function makes no other call. -/
def allocate_buffer_memory (memReqs : VkMemoryRequirements) (memory : Nat)
    (device buffer memory_property_flags : Nat)
    (physical_device_memory_properties : VkPhysicalDeviceMemoryProperties) :
    List DeviceOp × Except Fatal Nat :=
  match get_heap_idx memReqs.memoryTypeBits memory_property_flags
      physical_device_memory_properties with
  | .error e => ([DeviceOp.vkGetBufferMemoryRequirements device buffer], .error e)
  | .ok memoryTypeIndex =>
    ([DeviceOp.vkGetBufferMemoryRequirements device buffer,
      DeviceOp.vkAllocateMemory device memReqs.size memoryTypeIndex memory], .ok memory)

/-- Model of `upload_data`: the calls it makes, in order. `data` is the byte
sequence the pointer `data` refers to. The parameter `dst_memory` is not
used by the source. -/
def upload_data (device command_pool queue command_buffer src_buffer dst_buffer
    src_memory _dst_memory size : Nat) (data : List Nat) : List DeviceOp :=
  [DeviceOp.vkMapMemory device src_memory 0 VK_WHOLE_SIZE 0,
   DeviceOp.memcpy data size,
   DeviceOp.vkFlushMappedMemoryRanges device [⟨src_memory, 0, VK_WHOLE_SIZE⟩],
   DeviceOp.vkUnmapMemory device src_memory,
   DeviceOp.vkBeginCommandBuffer command_buffer VK_COMMAND_BUFFER_USAGE_ONE_TIME_SUBMIT_BIT,
   DeviceOp.vkCmdCopyBuffer command_buffer src_buffer dst_buffer [⟨0, 0, size⟩],
   DeviceOp.vkEndCommandBuffer command_buffer,
   DeviceOp.vkQueueSubmit queue [⟨[], [command_buffer], []⟩] VK_NULL_HANDLE,
   DeviceOp.vkQueueWaitIdle queue,
   DeviceOp.vkResetCommandPool device command_pool 0]

/-- Sequencing of two steps that make calls: the second runs when the first
returned, and the calls made are those of both. -/
def and_then {α β : Type} (first : List DeviceOp × Except Fatal α)
    (next : α → List DeviceOp × Except Fatal β) : List DeviceOp × Except Fatal β :=
  match first with
  | (ops, .error e) => (ops, .error e)
  | (ops, .ok a) => (ops ++ (next a).1, (next a).2)

/-- The array `vertices` of `init` as the 36 bytes it occupies: nine `float`
values, IEEE-754 binary32, least significant byte first. -/
def triangle_vertices : List Nat :=
  [0, 0, 0, 0xBF,  0, 0, 0, 0x3F,  0, 0, 0, 0,
   0, 0, 0, 0x3F,  0, 0, 0, 0x3F,  0, 0, 0, 0,
   0, 0, 0, 0,     0, 0, 0, 0xBF,  0, 0, 0, 0]

/-- The array `indices` of `init` as the 12 bytes it occupies: three
`uint32_t` values, least significant byte first. -/
def triangle_indices : List Nat :=
  [0, 0, 0, 0,  1, 0, 0, 0,  2, 0, 0, 0]

/-- The value of `sizeof(float) * vertices.size()`. -/
def vertex_buffer_size : Nat := 4 * 9
/-- The value of `sizeof(uint32_t) * indices.size()`. -/
def index_buffer_size : Nat := 4 * 3
/-- The value of `std::max(vertex_buffer_size, index_buffer_size)`. -/
def staging_buffer_size : Nat := max vertex_buffer_size index_buffer_size

/-- The block `create scene` of `init` (lines 346-384 of `main.cpp`): the
calls it makes and whether it runs to its end. `g_vk_app` holds the handles
as the driver wrote them (`buffer`, `buffer_memory`, the command pool and
command buffer created before), `memReqs i` is the memory requirement the
driver reports for buffer `i`. The queue is `g_vk.queues[QUEUE_GRAPHICS]`. -/
def init_create_scene (g_vk : VulkanManager) (g_vk_app : VulkanApp)
    (memReqs : Fin BUFFER_COUNT → VkMemoryRequirements) :
    List DeviceOp × Except Fatal Unit :=
  let device := g_vk.device
  and_then ((create_buffer (g_vk_app.buffer 0) device vertex_buffer_size
      (VK_BUFFER_USAGE_VERTEX_BUFFER_BIT ||| VK_BUFFER_USAGE_TRANSFER_DST_BIT)).1, .ok ())
  fun _ => and_then (allocate_buffer_memory (memReqs 0) (g_vk_app.buffer_memory 0) device
      (g_vk_app.buffer 0) VK_MEMORY_PROPERTY_DEVICE_LOCAL_BIT
      g_vk.physical_device_memory_properties)
  fun _ => and_then ((create_buffer (g_vk_app.buffer 1) device index_buffer_size
      (VK_BUFFER_USAGE_INDEX_BUFFER_BIT ||| VK_BUFFER_USAGE_TRANSFER_DST_BIT)).1, .ok ())
  fun _ => and_then (allocate_buffer_memory (memReqs 1) (g_vk_app.buffer_memory 1) device
      (g_vk_app.buffer 1) VK_MEMORY_PROPERTY_DEVICE_LOCAL_BIT
      g_vk.physical_device_memory_properties)
  fun _ => and_then ((create_buffer (g_vk_app.buffer 2) device staging_buffer_size
      VK_BUFFER_USAGE_TRANSFER_SRC_BIT).1, .ok ())
  fun _ => and_then (allocate_buffer_memory (memReqs 2) (g_vk_app.buffer_memory 2) device
      (g_vk_app.buffer 2) VK_MEMORY_PROPERTY_HOST_VISIBLE_BIT
      g_vk.physical_device_memory_properties)
  fun _ => and_then
    ([DeviceOp.vkBindBufferMemory device (g_vk_app.buffer 0) (g_vk_app.buffer_memory 0) 0,
      DeviceOp.vkBindBufferMemory device (g_vk_app.buffer 1) (g_vk_app.buffer_memory 1) 0,
      DeviceOp.vkBindBufferMemory device (g_vk_app.buffer 2) (g_vk_app.buffer_memory 2) 0],
     .ok ())
  fun _ =>
    match g_vk.queues[0]? with
    | none => ([], .error Fatal.undefined_behaviour)
    | some queue =>
      (upload_data device (g_vk_app.command_pool 0) queue (g_vk_app.command_buffer 0)
          (g_vk_app.buffer 2) (g_vk_app.buffer 0)
          (g_vk_app.buffer_memory 2) (g_vk_app.buffer_memory 0)
          vertex_buffer_size triangle_vertices
        ++ upload_data device (g_vk_app.command_pool 0) queue (g_vk_app.command_buffer 0)
          (g_vk_app.buffer 2) (g_vk_app.buffer 1)
          (g_vk_app.buffer_memory 2) (g_vk_app.buffer_memory 1)
          index_buffer_size triangle_indices,
       .ok ())

/-! ## An abstract device: the effect of the calls on buffer contents

The source hands the calls above to the Vulkan driver. What they do to the
contents of memory is described here by an abstract device, in the terms of
the Vulkan specification: a buffer reads and writes the memory block it is
bound to; a host mapping is a host view of a block that reaches the device
when it is flushed; a command buffer holds the copies recorded into it; a
submitted copy has taken effect once the queue is idle. A call outside its
valid usage has no result (`none`). The device has one queue, and a reset of
the command pool resets every command buffer. -/

/-- A buffer: its size and, once bound, its memory block and offset. -/
structure BufferObject where
  size : Nat
  bound : Option (Nat × Nat)
  deriving DecidableEq, Repr

/-- A recorded copy of one region between two buffers. -/
structure CopyCommand where
  srcBuffer : Nat
  dstBuffer : Nat
  region : VkBufferCopy
  deriving DecidableEq, Repr

/-- State of the abstract device, by handle: the buffers, the bytes of each
memory block as the device sees them, the host mapping (block and host
view) if any, the commands of each command buffer in the recording or
executable state, and the submitted copies that have not completed. -/
structure AbstractDevice where
  buffers : Nat → Option BufferObject
  memories : Nat → Option (List Nat)
  mapping : Option (Nat × List Nat)
  recorded : Nat → Option (List CopyCommand)
  pending : List CopyCommand

/-- The device before any call. -/
def AbstractDevice.initial : AbstractDevice :=
  { buffers := fun _ => none, memories := fun _ => none, mapping := none,
    recorded := fun _ => none, pending := [] }

/-- A map with the entry of one handle replaced. -/
def set_entry {α : Type} (m : Nat → Option α) (handle : Nat) (a : α) : Nat → Option α :=
  fun h => if h = handle then some a else m h

/-- The bytes `[offset, offset + n)` of a block. -/
def read_bytes (block : List Nat) (offset n : Nat) : List Nat :=
  (block.drop offset).take n

/-- A block with `data` written at `offset`. -/
def write_bytes (block : List Nat) (offset : Nat) (data : List Nat) : List Nat :=
  block.take offset ++ data ++ block.drop (offset + data.length)

/-- Execution of one copy: both buffers are bound, the region lies inside
both, and the bytes of the source range replace those of the destination
range. -/
def AbstractDevice.exec_copy (dev : AbstractDevice) (cmd : CopyCommand) :
    Option AbstractDevice :=
  match dev.buffers cmd.srcBuffer, dev.buffers cmd.dstBuffer with
  | some ⟨src_size, some (src_memory, src_offset)⟩,
    some ⟨dst_size, some (dst_memory, dst_offset)⟩ =>
    if cmd.region.srcOffset + cmd.region.size ≤ src_size ∧
        cmd.region.dstOffset + cmd.region.size ≤ dst_size then
      match dev.memories src_memory, dev.memories dst_memory with
      | some src_block, some dst_block =>
        if src_offset + src_size ≤ src_block.length ∧
            dst_offset + dst_size ≤ dst_block.length then
          some { dev with
            memories := set_entry dev.memories dst_memory
              (write_bytes dst_block (dst_offset + cmd.region.dstOffset)
                (read_bytes src_block (src_offset + cmd.region.srcOffset)
                  cmd.region.size)) }
        else none
      | _, _ => none
    else none
  | _, _ => none

/-- Execution of the pending copies in submission order. -/
def AbstractDevice.exec_copies : AbstractDevice → List CopyCommand → Option AbstractDevice
  | dev, [] => some dev
  | dev, cmd :: rest =>
    match dev.exec_copy cmd with
    | none => none
    | some dev2 => dev2.exec_copies rest

/-- The commands of a list of command buffers, each of which must have been
recorded. -/
def AbstractDevice.commands_of (dev : AbstractDevice) : List Nat → Option (List CopyCommand)
  | [] => some []
  | cb :: rest =>
    match dev.recorded cb, dev.commands_of rest with
    | some cmds, some more => some (cmds ++ more)
    | _, _ => none

/-- Effect of one call on the abstract device. -/
def AbstractDevice.step (dev : AbstractDevice) : DeviceOp → Option AbstractDevice
  | .vkCreateBuffer _ size _ _ buffer =>
    some { dev with buffers := set_entry dev.buffers buffer ⟨size, none⟩ }
  | .vkGetBufferMemoryRequirements _ buffer =>
    match dev.buffers buffer with
    | some _ => some dev
    | none => none
  | .vkAllocateMemory _ allocationSize _ memory =>
    some { dev with memories := set_entry dev.memories memory (List.replicate allocationSize 0) }
  | .vkBindBufferMemory _ buffer memory memoryOffset =>
    match dev.buffers buffer, dev.memories memory with
    | some ⟨size, none⟩, some block =>
      if memoryOffset + size ≤ block.length then
        some { dev with buffers := set_entry dev.buffers buffer ⟨size, some (memory, memoryOffset)⟩ }
      else none
    | _, _ => none
  | .vkMapMemory _ memory offset size _ =>
    match dev.mapping, dev.memories memory with
    | none, some block =>
      if offset = 0 ∧ size = VK_WHOLE_SIZE then some { dev with mapping := some (memory, block) }
      else none
    | _, _ => none
  | .memcpy src n =>
    match dev.mapping with
    | some (memory, view) =>
      if n ≤ src.length ∧ n ≤ view.length then
        some { dev with mapping := some (memory, write_bytes view 0 (src.take n)) }
      else none
    | none => none
  | .vkFlushMappedMemoryRanges _ ranges =>
    match dev.mapping, ranges with
    | some (memory, view), [range] =>
      if range.memory = memory ∧ range.offset = 0 ∧ range.size = VK_WHOLE_SIZE then
        some { dev with memories := set_entry dev.memories memory view }
      else none
    | _, _ => none
  | .vkUnmapMemory _ memory =>
    match dev.mapping with
    | some (mapped, _) => if mapped = memory then some { dev with mapping := none } else none
    | none => none
  | .vkBeginCommandBuffer commandBuffer _ =>
    some { dev with recorded := set_entry dev.recorded commandBuffer [] }
  | .vkCmdCopyBuffer commandBuffer srcBuffer dstBuffer regions =>
    match dev.recorded commandBuffer with
    | some cmds =>
      some { dev with
        recorded := set_entry dev.recorded commandBuffer
          (cmds ++ regions.map (fun region => ⟨srcBuffer, dstBuffer, region⟩)) }
    | none => none
  | .vkEndCommandBuffer commandBuffer =>
    match dev.recorded commandBuffer with
    | some _ => some dev
    | none => none
  | .vkQueueSubmit _ submits _ =>
    match dev.commands_of (submits.flatMap (fun submit => submit.commandBuffers)) with
    | some cmds => some { dev with pending := dev.pending ++ cmds }
    | none => none
  | .vkQueueWaitIdle _ =>
    match dev.exec_copies dev.pending with
    | some dev2 => some { dev2 with pending := [] }
    | none => none
  | .vkResetCommandPool _ _ _ =>
    some { dev with recorded := fun _ => none }

/-- Effect of a sequence of calls. -/
def AbstractDevice.run : AbstractDevice → List DeviceOp → Option AbstractDevice
  | dev, [] => some dev
  | dev, op :: rest =>
    match dev.step op with
    | none => none
    | some dev2 => dev2.run rest

/-- The read-back path: the first `n` bytes of a buffer, read from the block
it is bound to. -/
def AbstractDevice.read_buffer (dev : AbstractDevice) (buffer n : Nat) : Option (List Nat) :=
  match dev.buffers buffer with
  | some ⟨size, some (memory, offset)⟩ =>
    match dev.memories memory with
    | some block =>
      if n ≤ size ∧ offset + size ≤ block.length then some (read_bytes block offset n)
      else none
    | none => none
  | _ => none

/-- The memory block and offset a buffer is bound to, if any. -/
def AbstractDevice.binding (dev : AbstractDevice) (buffer : Nat) : Option (Nat × Nat) :=
  match dev.buffers buffer with
  | some b => b.bound
  | none => none

/-- A call that records a buffer copy. -/
def DeviceOp.is_copy : DeviceOp → Bool
  | .vkCmdCopyBuffer _ _ _ _ => true
  | _ => false

/-- A queue submission. -/
def DeviceOp.is_submit : DeviceOp → Bool
  | .vkQueueSubmit _ _ _ => true
  | _ => false

/-- A wait for the queue to be idle. -/
def DeviceOp.is_wait_idle : DeviceOp → Bool
  | .vkQueueWaitIdle _ => true
  | _ => false

/-- A reset of the command pool. -/
def DeviceOp.is_pool_reset : DeviceOp → Bool
  | .vkResetCommandPool _ _ _ => true
  | _ => false

/-- A call that binds a memory block to a buffer. -/
def DeviceOp.is_bind : DeviceOp → Bool
  | .vkBindBufferMemory _ _ _ _ => true
  | _ => false

/-- A memory allocation. -/
def DeviceOp.is_allocate : DeviceOp → Bool
  | .vkAllocateMemory _ _ _ _ => true
  | _ => false

/-- The pointer reached from `VkDeviceCreateInfo::pNext` after `hops` steps
along the `pNext` fields of the chained blocks, as a reader of the chain
follows it; `none` is `nullptr`, and a chain is null-terminated when some
number of hops reaches `none`. -/
def chain_walk (create_info : VkDeviceCreateInfo) : Nat → Option FeatureBlock
  | 0 => create_info.pNext
  | hops + 1 =>
    match chain_walk create_info hops with
    | none => none
    | some FeatureBlock.sync_2_features => create_info.sync_2_features_pNext

/-! ## Concrete devices used to evaluate the definitions -/

/-- Two families: one with graphics, compute and transfer, one with compute
and transfer only. -/
def families_universal_then_async : List VkQueueFamilyProperties :=
  [⟨VK_QUEUE_GRAPHICS_BIT ||| VK_QUEUE_COMPUTE_BIT ||| VK_QUEUE_TRANSFER_BIT, 1⟩,
   ⟨VK_QUEUE_COMPUTE_BIT ||| VK_QUEUE_TRANSFER_BIT, 1⟩]

/-- Three families: universal, compute with transfer, transfer alone. -/
def families_with_copy_engine : List VkQueueFamilyProperties :=
  [⟨VK_QUEUE_GRAPHICS_BIT ||| VK_QUEUE_COMPUTE_BIT ||| VK_QUEUE_TRANSFER_BIT, 16⟩,
   ⟨VK_QUEUE_COMPUTE_BIT ||| VK_QUEUE_TRANSFER_BIT, 8⟩,
   ⟨VK_QUEUE_TRANSFER_BIT, 2⟩]

/-- Surface support answered true for family 0 only. -/
def present_on_family_zero (i : Nat) : Bool := i == 0

/-- Surface support answered false for every family. -/
def present_nowhere (_i : Nat) : Bool := false

/-- Surface support answered true for family 1 only. -/
def present_on_family_one (i : Nat) : Bool := i == 1

/-- Two families with graphics, of which only the second can present. -/
def families_two_graphics : List VkQueueFamilyProperties :=
  [⟨VK_QUEUE_GRAPHICS_BIT, 1⟩, ⟨VK_QUEUE_GRAPHICS_BIT ||| VK_QUEUE_COMPUTE_BIT, 1⟩]

/-- A surface whose size is fixed by the window system at 800 x 600: bounds
2 to 8 images, one format, FIFO and mailbox. -/
def report_fixed_extent : SurfaceReport :=
  { surface_capabilities :=
      { minImageCount := 2, maxImageCount := 8, currentExtent := ⟨800, 600⟩,
        supportedTransforms := 1, currentTransform := 1, supportedCompositeAlpha := 1 }
    supported_surface_formats := [⟨VK_FORMAT_B8G8R8A8_SRGB, VK_COLOR_SPACE_SRGB_NONLINEAR_KHR⟩]
    supported_present_modes := [VK_PRESENT_MODE_FIFO_KHR, VK_PRESENT_MODE_MAILBOX_KHR] }

/-- A surface that leaves its size to the swapchain: the current extent is
the sentinel `0xFFFFFFFF` in both dimensions. -/
def report_undefined_extent : SurfaceReport :=
  { surface_capabilities :=
      { minImageCount := 2, maxImageCount := 8,
        currentExtent := ⟨UINT32_MAX, UINT32_MAX⟩,
        supportedTransforms := 1, currentTransform := 1, supportedCompositeAlpha := 1 }
    supported_surface_formats := [⟨VK_FORMAT_B8G8R8A8_SRGB, VK_COLOR_SPACE_SRGB_NONLINEAR_KHR⟩]
    supported_present_modes := [VK_PRESENT_MODE_FIFO_KHR, VK_PRESENT_MODE_MAILBOX_KHR] }

/-- A report with no lower and no upper bound on the image count. -/
def report_unbounded_count : SurfaceReport :=
  { surface_capabilities :=
      { minImageCount := 0, maxImageCount := 0, currentExtent := ⟨800, 600⟩,
        supportedTransforms := 1, currentTransform := 1, supportedCompositeAlpha := 1 }
    supported_surface_formats := [⟨VK_FORMAT_B8G8R8A8_SRGB, VK_COLOR_SPACE_SRGB_NONLINEAR_KHR⟩]
    supported_present_modes := [VK_PRESENT_MODE_FIFO_KHR] }

/-- A report listing one format under two colour spaces, the wide-gamut one
first. -/
def report_two_colour_spaces : SurfaceReport :=
  { surface_capabilities :=
      { minImageCount := 2, maxImageCount := 8, currentExtent := ⟨800, 600⟩,
        supportedTransforms := 1, currentTransform := 1, supportedCompositeAlpha := 1 }
    supported_surface_formats :=
      [⟨VK_FORMAT_R8G8B8A8_SRGB, VK_COLOR_SPACE_DISPLAY_P3_NONLINEAR_EXT⟩,
       ⟨VK_FORMAT_R8G8B8A8_SRGB, VK_COLOR_SPACE_SRGB_NONLINEAR_KHR⟩]
    supported_present_modes := [VK_PRESENT_MODE_FIFO_KHR] }

/-- Memory types of a small discrete GPU: device-local, host-visible and
coherent, device-local and host-visible. Entries past the count are zero. -/
def sample_memory_properties : VkPhysicalDeviceMemoryProperties :=
  { memoryTypeCount := 3
    memoryTypes := fun i =>
      [(⟨VK_MEMORY_PROPERTY_DEVICE_LOCAL_BIT, 0⟩ : VkMemoryType),
       ⟨VK_MEMORY_PROPERTY_HOST_VISIBLE_BIT ||| VK_MEMORY_PROPERTY_HOST_COHERENT_BIT, 1⟩,
       ⟨VK_MEMORY_PROPERTY_DEVICE_LOCAL_BIT ||| VK_MEMORY_PROPERTY_HOST_VISIBLE_BIT, 0⟩].getD
        i.val ⟨0, 0⟩ }

/-- A context with two swapchain images and their two views. -/
def sample_vulkan_manager : VulkanManager :=
  { «instance» := 1, surface := 2, physical_device := 3, device := 4, swapchain := 5
    queue_family_indices := [0], queues := [6]
    swapchain_format := VK_FORMAT_B8G8R8A8_SRGB, swapchain_extent := ⟨800, 600⟩
    swapchain_images := [10, 11], swapchain_image_views := [20, 21]
    physical_device_memory_properties := sample_memory_properties }

/-- The application handles of `main.cpp` after `init`, one framebuffer per
swapchain image. -/
def sample_vulkan_app : VulkanApp :=
  { renderpass := fun _ => 30
    framebuffers := [40, 41]
    pipeline := fun _ => 50
    pipeline_layout := fun _ => 51
    command_pool := fun _ => 60
    command_buffer := fun _ => 61
    semaphore := fun i => i.elim0
    fence := fun _ => 62
    buffer := fun i => 70 + i.val
    buffer_memory := fun i => 80 + i.val }

/-- The device of the fallback scenario: a family with graphics and compute,
and a transfer-only family. -/
def families_combined_and_transfer : List VkQueueFamilyProperties :=
  [⟨VK_QUEUE_GRAPHICS_BIT ||| VK_QUEUE_COMPUTE_BIT, 1⟩, ⟨VK_QUEUE_TRANSFER_BIT, 1⟩]

/-- Queue handles as a driver could hand them out: one handle per pair of
family and queue index. -/
def sample_device_queue (family index : Nat) : Nat := 1000 + 16 * family + index

/-- A report whose present-mode list is mailbox alone and whose composite
alpha mask has none of the four bits. -/
def report_without_fifo_and_alpha : SurfaceReport :=
  { surface_capabilities :=
      { minImageCount := 2, maxImageCount := 8, currentExtent := ⟨800, 600⟩,
        supportedTransforms := 1, currentTransform := 1, supportedCompositeAlpha := 0 }
    supported_surface_formats := [⟨VK_FORMAT_B8G8R8A8_SRGB, VK_COLOR_SPACE_SRGB_NONLINEAR_KHR⟩]
    supported_present_modes := [VK_PRESENT_MODE_MAILBOX_KHR] }

/-- A rotated surface without the identity transform (current transform
`ROTATE_90`), whose composite alpha mask has the pre-multiplied and inherit
bits. -/
def report_rotated_surface : SurfaceReport :=
  { surface_capabilities :=
      { minImageCount := 2, maxImageCount := 8, currentExtent := ⟨600, 800⟩,
        supportedTransforms := 2, currentTransform := 2, supportedCompositeAlpha := 10 }
    supported_surface_formats := [⟨VK_FORMAT_B8G8R8A8_SRGB, VK_COLOR_SPACE_SRGB_NONLINEAR_KHR⟩]
    supported_present_modes := [VK_PRESENT_MODE_FIFO_KHR] }

/-- The create-info the request of `main.cpp` (2 images, R8G8B8A8_SRGB,
500 x 500, FIFO) obtains on `report_fixed_extent` for surface handle 7. -/
def create_info_on_fixed_extent : VkSwapchainCreateInfoKHR :=
  { surface := 7, minImageCount := 2
    imageFormat := VK_FORMAT_B8G8R8A8_SRGB
    imageColorSpace := VK_COLOR_SPACE_SRGB_NONLINEAR_KHR
    imageExtent := ⟨500, 500⟩, imageArrayLayers := 1
    imageUsage := VK_IMAGE_USAGE_COLOR_ATTACHMENT_BIT
    imageSharingMode := VK_SHARING_MODE_EXCLUSIVE, queueFamilyIndexCount := 0
    preTransform := VK_SURFACE_TRANSFORM_IDENTITY_BIT_KHR
    compositeAlpha := VK_COMPOSITE_ALPHA_OPAQUE_BIT_KHR
    presentMode := VK_PRESENT_MODE_FIFO_KHR, clipped := VK_TRUE
    oldSwapchain := VK_NULL_HANDLE }

/-- Memory requirements as a driver could report them for the three buffers
of the scene: sizes rounded up to 64 bytes, every type allowed for the two
device buffers, the two host-visible types for the staging buffer. -/
def sample_memory_requirements : Fin BUFFER_COUNT → VkMemoryRequirements :=
  fun i => [(⟨64, 64, 7⟩ : VkMemoryRequirements), ⟨64, 64, 7⟩, ⟨64, 64, 6⟩].getD i.val ⟨0, 0, 0⟩

/-- The abstract device after `create_buffer` has created the vertex buffer
(handle 70, 36 bytes) and before anything else. -/
def sample_device_with_vertex_buffer : AbstractDevice :=
  { AbstractDevice.initial with
    buffers := set_entry AbstractDevice.initial.buffers 70 ⟨36, none⟩ }

/-- The abstract device after the three buffers of the scene have been
created, given blocks of 64 zero bytes and bound at offset 0: vertex buffer
70 on block 80, index buffer 71 on block 81, staging buffer 72 on block 82. -/
def sample_device_after_bind : AbstractDevice :=
  { buffers := fun h =>
      if h = 70 then some ⟨36, some (80, 0)⟩
      else if h = 71 then some ⟨12, some (81, 0)⟩
      else if h = 72 then some ⟨36, some (82, 0)⟩
      else none
    memories := fun h =>
      if h = 80 ∨ h = 81 ∨ h = 82 then some (List.replicate 64 0) else none
    mapping := none
    recorded := fun _ => none
    pending := [] }

/-! ## Lemmas on the family search -/

theorem first_family_eq_some (test : Nat → VkQueueFamilyProperties → Bool)
    (ps : List VkQueueFamilyProperties) (i k : Nat) :
    first_family test i ps = some k ↔
      ∃ j p, k = i + j ∧ ps[j]? = some p ∧ test (i + j) p = true ∧
        ∀ j2 q, j2 < j → ps[j2]? = some q → test (i + j2) q = false := by
  induction ps generalizing i with
  | nil => simp [first_family]
  | cons p ps ih =>
    unfold first_family
    by_cases ht : test i p = true
    · rw [if_pos ht]
      simp only [Option.some.injEq]
      constructor
      · intro hk
        refine ⟨0, p, by omega, by simp, by simpa using ht, ?_⟩
        intro j2 q hj2
        omega
      · rintro ⟨j, p2, hk, hget, htest, hmin⟩
        cases j with
        | zero => omega
        | succ j =>
          have := hmin 0 p (by omega) (by simp)
          simp [ht] at this
    · rw [if_neg ht]
      rw [ih (i + 1)]
      constructor
      · rintro ⟨j, p2, hk, hget, htest, hmin⟩
        refine ⟨j + 1, p2, by omega, by simpa using hget, ?_, ?_⟩
        · have e : i + (j + 1) = i + 1 + j := by omega
          rw [e]; exact htest
        · intro j2 q hj2 hq
          cases j2 with
          | zero =>
            simp at hq
            subst hq
            simpa using ht
          | succ j2 =>
            have e : i + (j2 + 1) = i + 1 + j2 := by omega
            rw [e]
            exact hmin j2 q (by omega) (by simpa using hq)
      · rintro ⟨j, p2, hk, hget, htest, hmin⟩
        cases j with
        | zero =>
          simp at hget
          subst hget
          simp at htest
          exact absurd htest ht
        | succ j =>
          refine ⟨j, p2, by omega, by simpa using hget, ?_, ?_⟩
          · have e : i + 1 + j = i + (j + 1) := by omega
            rw [e]; exact htest
          · intro j2 q hj2 hq
            have e : i + 1 + j2 = i + (j2 + 1) := by omega
            rw [e]
            exact hmin (j2 + 1) q (by omega) (by simpa using hq)

theorem first_family_eq_none (test : Nat → VkQueueFamilyProperties → Bool)
    (ps : List VkQueueFamilyProperties) (i : Nat) :
    first_family test i ps = none ↔ ∀ j p, ps[j]? = some p → test (i + j) p = false := by
  induction ps generalizing i with
  | nil => simp [first_family]
  | cons p ps ih =>
    unfold first_family
    by_cases ht : test i p = true
    · rw [if_pos ht]
      constructor
      · intro h; cases h
      · intro h
        have := h 0 p (by simp)
        simp [ht] at this
    · rw [if_neg ht]
      rw [ih (i + 1)]
      constructor
      · intro h j q hq
        cases j with
        | zero =>
          simp at hq
          subst hq
          simpa using ht
        | succ j =>
          have e : i + (j + 1) = i + 1 + j := by omega
          rw [e]
          exact h j q (by simpa using hq)
      · intro h j q hq
        have e : i + 1 + j = i + (j + 1) := by omega
        rw [e]
        exact h (j + 1) q (by simpa using hq)

/-- The search from index 0 finds the lowest index passing the test. -/
theorem first_family_zero_some (test : Nat → VkQueueFamilyProperties → Bool)
    (ps : List VkQueueFamilyProperties) (k : Nat) :
    first_family test 0 ps = some k ↔
      ∃ p, ps[k]? = some p ∧ test k p = true ∧
        ∀ j q, j < k → ps[j]? = some q → test j q = false := by
  rw [first_family_eq_some]
  constructor
  · rintro ⟨j, p, hk, hget, htest, hmin⟩
    have hkj : k = j := by omega
    subst hkj
    refine ⟨p, hget, by simpa using htest, ?_⟩
    intro j2 q hj2 hq
    simpa using hmin j2 q hj2 hq
  · rintro ⟨p, hget, htest, hmin⟩
    refine ⟨k, p, by omega, hget, by simpa using htest, ?_⟩
    intro j2 q hj2 hq
    simpa using hmin j2 q hj2 hq

theorem first_family_zero_none (test : Nat → VkQueueFamilyProperties → Bool)
    (ps : List VkQueueFamilyProperties) :
    first_family test 0 ps = none ↔ ∀ j p, ps[j]? = some p → test j p = false := by
  rw [first_family_eq_none]
  constructor
  · intro h j p hp
    simpa using h j p hp
  · intro h j p hp
    simpa using h j p hp

/-- When some family passes the test, the search from index 0 succeeds. -/
theorem first_family_zero_exists (test : Nat → VkQueueFamilyProperties → Bool)
    (ps : List VkQueueFamilyProperties) (i : Nat) (p : VkQueueFamilyProperties)
    (hget : ps[i]? = some p) (htest : test i p = true) :
    ∃ k, first_family test 0 ps = some k := by
  cases hff : first_family test 0 ps with
  | some k => exact ⟨k, rfl⟩
  | none =>
    have := (first_family_zero_none test ps).1 hff i p hget
    rw [htest] at this
    cases this

/-! ## Lemmas on `get_q_family_idx` and `select_q_family_indices` -/

theorem dedicated_compute_test_iff (q_flag i : Nat) (p : VkQueueFamilyProperties) :
    dedicated_compute_test q_flag i p = true ↔
      p.queueFlags &&& q_flag ≠ 0 ∧ p.queueFlags &&& VK_QUEUE_GRAPHICS_BIT = 0 := by
  simp [dedicated_compute_test]

theorem dedicated_transfer_test_iff (q_flag i : Nat) (p : VkQueueFamilyProperties) :
    dedicated_transfer_test q_flag i p = true ↔
      p.queueFlags &&& q_flag ≠ 0 ∧ p.queueFlags &&& VK_QUEUE_GRAPHICS_BIT = 0 ∧
        p.queueFlags &&& VK_QUEUE_COMPUTE_BIT = 0 := by
  simp [dedicated_transfer_test, and_assoc]

theorem general_test_iff (surface_support : Nat → Bool) (q_flag : Nat) (present : Bool)
    (i : Nat) (p : VkQueueFamilyProperties) :
    general_test surface_support q_flag present i p = true ↔
      p.queueFlags &&& q_flag ≠ 0 ∧ (present = true → surface_support i = true) := by
  cases present <;> simp [general_test]

/-- The first loop decides the call when it finds a family. -/
theorem get_q_family_idx_of_compute (q_family_props : List VkQueueFamilyProperties)
    (surface_support : Nat → Bool) (q_flag : Nat) (present : Bool) (k : Nat)
    (hq : q_flag &&& VK_QUEUE_COMPUTE_BIT ≠ 0)
    (hff : first_family (dedicated_compute_test q_flag) 0 q_family_props = some k) :
    get_q_family_idx q_family_props surface_support q_flag present = .ok k := by
  simp only [get_q_family_idx, if_pos hq, hff]

/-- The second loop decides the call when the first is skipped and it finds a
family. -/
theorem get_q_family_idx_of_transfer (q_family_props : List VkQueueFamilyProperties)
    (surface_support : Nat → Bool) (q_flag : Nat) (present : Bool) (k : Nat)
    (hc : q_flag &&& VK_QUEUE_COMPUTE_BIT = 0)
    (hq : q_flag &&& VK_QUEUE_TRANSFER_BIT ≠ 0)
    (hff : first_family (dedicated_transfer_test q_flag) 0 q_family_props = some k) :
    get_q_family_idx q_family_props surface_support q_flag present = .ok k := by
  have hc2 : ¬ (q_flag &&& VK_QUEUE_COMPUTE_BIT ≠ 0) := by simp [hc]
  simp only [get_q_family_idx, if_neg hc2, if_pos hq, hff]

/-- With both dedicated loops skipped the call is the last loop alone. -/
theorem get_q_family_idx_of_general (q_family_props : List VkQueueFamilyProperties)
    (surface_support : Nat → Bool) (q_flag : Nat) (present : Bool)
    (hc : q_flag &&& VK_QUEUE_COMPUTE_BIT = 0)
    (ht : q_flag &&& VK_QUEUE_TRANSFER_BIT = 0) :
    get_q_family_idx q_family_props surface_support q_flag present =
      match first_family (general_test surface_support q_flag present) 0 q_family_props with
      | some i => .ok i
      | none => .error Fatal.exit_failure := by
  have hc2 : ¬ (q_flag &&& VK_QUEUE_COMPUTE_BIT ≠ 0) := by simp [hc]
  have ht2 : ¬ (q_flag &&& VK_QUEUE_TRANSFER_BIT ≠ 0) := by simp [ht]
  simp only [get_q_family_idx, if_neg hc2, if_neg ht2]

/-- Whatever loop returns, the returned family shares a bit with the request,
and came out of one of the three searches. -/
theorem get_q_family_idx_ok_cases (q_family_props : List VkQueueFamilyProperties)
    (surface_support : Nat → Bool) (q_flag : Nat) (present : Bool) (k : Nat)
    (h : get_q_family_idx q_family_props surface_support q_flag present = .ok k) :
    (q_flag &&& VK_QUEUE_COMPUTE_BIT ≠ 0 ∧
        first_family (dedicated_compute_test q_flag) 0 q_family_props = some k) ∨
    (q_flag &&& VK_QUEUE_TRANSFER_BIT ≠ 0 ∧
        first_family (dedicated_transfer_test q_flag) 0 q_family_props = some k) ∨
    first_family (general_test surface_support q_flag present) 0 q_family_props = some k := by
  unfold get_q_family_idx at h
  by_cases hc : q_flag &&& VK_QUEUE_COMPUTE_BIT ≠ 0
  · rw [if_pos hc] at h
    cases h1 : first_family (dedicated_compute_test q_flag) 0 q_family_props with
    | some i =>
      rw [h1] at h
      simp only [Except.ok.injEq] at h
      subst h
      exact Or.inl ⟨hc, rfl⟩
    | none =>
      rw [h1] at h
      by_cases ht : q_flag &&& VK_QUEUE_TRANSFER_BIT ≠ 0
      · rw [if_pos ht] at h
        cases h2 : first_family (dedicated_transfer_test q_flag) 0 q_family_props with
        | some i =>
          rw [h2] at h
          simp only [Except.ok.injEq] at h
          subst h
          exact Or.inr (Or.inl ⟨ht, rfl⟩)
        | none =>
          rw [h2] at h
          cases h3 : first_family (general_test surface_support q_flag present) 0
              q_family_props with
          | some i =>
            rw [h3] at h
            simp only [Except.ok.injEq] at h
            subst h
            exact Or.inr (Or.inr rfl)
          | none => rw [h3] at h; cases h
      · rw [if_neg ht] at h
        cases h3 : first_family (general_test surface_support q_flag present) 0
            q_family_props with
        | some i =>
          rw [h3] at h
          simp only [Except.ok.injEq] at h
          subst h
          exact Or.inr (Or.inr rfl)
        | none => rw [h3] at h; cases h
  · rw [if_neg hc] at h
    by_cases ht : q_flag &&& VK_QUEUE_TRANSFER_BIT ≠ 0
    · rw [if_pos ht] at h
      cases h2 : first_family (dedicated_transfer_test q_flag) 0 q_family_props with
      | some i =>
        rw [h2] at h
        simp only [Except.ok.injEq] at h
        subst h
        exact Or.inr (Or.inl ⟨ht, rfl⟩)
      | none =>
        rw [h2] at h
        cases h3 : first_family (general_test surface_support q_flag present) 0
            q_family_props with
        | some i =>
          rw [h3] at h
          simp only [Except.ok.injEq] at h
          subst h
          exact Or.inr (Or.inr rfl)
        | none => rw [h3] at h; cases h
    · rw [if_neg ht] at h
      cases h3 : first_family (general_test surface_support q_flag present) 0
          q_family_props with
      | some i =>
        rw [h3] at h
        simp only [Except.ok.injEq] at h
        subst h
        exact Or.inr (Or.inr rfl)
      | none => rw [h3] at h; cases h

/-- The only way `get_q_family_idx` fails is the `EXIT` after the last loop,
and then the last loop found nothing. -/
theorem get_q_family_idx_error (q_family_props : List VkQueueFamilyProperties)
    (surface_support : Nat → Bool) (q_flag : Nat) (present : Bool) (e : Fatal)
    (h : get_q_family_idx q_family_props surface_support q_flag present = .error e) :
    e = Fatal.exit_failure ∧
      first_family (general_test surface_support q_flag present) 0 q_family_props = none ∧
      (q_flag &&& VK_QUEUE_COMPUTE_BIT ≠ 0 →
        first_family (dedicated_compute_test q_flag) 0 q_family_props = none) ∧
      (q_flag &&& VK_QUEUE_TRANSFER_BIT ≠ 0 →
        first_family (dedicated_transfer_test q_flag) 0 q_family_props = none) := by
  unfold get_q_family_idx at h
  by_cases hc : q_flag &&& VK_QUEUE_COMPUTE_BIT ≠ 0 <;>
  by_cases ht : q_flag &&& VK_QUEUE_TRANSFER_BIT ≠ 0 <;>
  simp only [hc, ht, if_true, if_false, not_true_eq_false, not_false_eq_true] at h <;>
  cases h1 : first_family (dedicated_compute_test q_flag) 0 q_family_props <;>
  cases h2 : first_family (dedicated_transfer_test q_flag) 0 q_family_props <;>
  cases h3 : first_family (general_test surface_support q_flag present) 0 q_family_props <;>
  simp_all

/-- A successful selection has one entry per request, and entry `n` is what
`get_q_family_idx` returns for request `n` on its own. -/
theorem select_q_family_indices_ok (q_family_props : List VkQueueFamilyProperties)
    (surface_support : Nat → Bool) (q_flags r : List Nat)
    (h : select_q_family_indices q_family_props surface_support q_flags = .ok r) :
    r.length = q_flags.length ∧
      ∀ (n q i : Nat), q_flags[n]? = some q → r[n]? = some i →
        get_q_family_idx q_family_props surface_support q (requires_present q) = .ok i := by
  induction q_flags generalizing r with
  | nil =>
    simp only [select_q_family_indices, Except.ok.injEq] at h
    subst h
    simp
  | cons q qs ih =>
    unfold select_q_family_indices at h
    cases hg : get_q_family_idx q_family_props surface_support q (requires_present q) with
    | error e => rw [hg] at h; cases h
    | ok i =>
      rw [hg] at h
      cases hs : select_q_family_indices q_family_props surface_support qs with
      | error e => rw [hs] at h; cases h
      | ok rest =>
        rw [hs] at h
        simp only [Except.ok.injEq] at h
        subst h
        obtain ⟨hlen, hidx⟩ := ih rest hs
        refine ⟨by simp [hlen], ?_⟩
        intro n q2 i2 hq hi
        cases n with
        | zero =>
          simp at hq hi
          subst hq hi
          exact hg
        | succ n =>
          exact hidx n q2 i2 (by simpa using hq) (by simpa using hi)

/-- The selection fails exactly when `get_q_family_idx` fails on some request. -/
theorem select_q_family_indices_error_iff (q_family_props : List VkQueueFamilyProperties)
    (surface_support : Nat → Bool) (q_flags : List Nat) :
    (∃ e, select_q_family_indices q_family_props surface_support q_flags = .error e) ↔
      ∃ q ∈ q_flags, ∃ e,
        get_q_family_idx q_family_props surface_support q (requires_present q) = .error e := by
  induction q_flags with
  | nil => simp [select_q_family_indices]
  | cons q qs ih =>
    unfold select_q_family_indices
    cases hg : get_q_family_idx q_family_props surface_support q (requires_present q) with
    | error e =>
      simp only [List.mem_cons, exists_eq_or_imp]
      constructor
      · intro _
        exact Or.inl ⟨e, hg⟩
      · intro _
        exact ⟨e, rfl⟩
    | ok i =>
      simp only [List.mem_cons, exists_eq_or_imp]
      cases hs : select_q_family_indices q_family_props surface_support qs with
      | error e =>
        have := ih.1 (by rw [hs]; exact ⟨e, rfl⟩)
        constructor
        · intro _
          exact Or.inr this
        · intro _
          exact ⟨e, rfl⟩
      | ok rest =>
        constructor
        · rintro ⟨e, he⟩
          cases he
        · rintro (⟨e, he⟩ | hex)
          · rw [hg] at he; cases he
          · have := ih.2 hex
            rw [hs] at this
            obtain ⟨e, he⟩ := this
            cases he

/-- The selection fails only through the `EXIT` of `get_q_family_idx`. -/
theorem select_q_family_indices_error_kind (q_family_props : List VkQueueFamilyProperties)
    (surface_support : Nat → Bool) (q_flags : List Nat) (e : Fatal)
    (h : select_q_family_indices q_family_props surface_support q_flags = .error e) :
    e = Fatal.exit_failure := by
  induction q_flags with
  | nil => simp [select_q_family_indices] at h
  | cons q qs ih =>
    unfold select_q_family_indices at h
    cases hg : get_q_family_idx q_family_props surface_support q (requires_present q) with
    | error e2 =>
      rw [hg] at h
      simp only [Except.error.injEq] at h
      subst h
      exact (get_q_family_idx_error _ _ _ _ _ hg).1
    | ok i =>
      rw [hg] at h
      cases hs : select_q_family_indices q_family_props surface_support qs with
      | error e2 =>
        rw [hs] at h
        simp only [Except.error.injEq] at h
        subst h
        exact ih hs
      | ok rest => rw [hs] at h; cases h

theorem requires_present_iff (q_flag : Nat) :
    requires_present q_flag = true ↔ q_flag &&& VK_QUEUE_GRAPHICS_BIT ≠ 0 := by
  simp [requires_present]

/-! ## Queue family selection: the claims -/

/-- C2. When some reported family has the compute bit and lacks the graphics
bit, a compute request is answered with the lowest index of such a family:
the family at the returned index has compute and no graphics, no lower index
has, a one-entry request list yields exactly that index, and so does every
compute entry of any request list on which the selection returns. Families
with graphics and compute listed earlier are passed over. -/
theorem compute_request_selects_dedicated_family
    (q_family_props : List VkQueueFamilyProperties) (surface_support : Nat → Bool)
    (h : ∃ (i : Nat) (p : VkQueueFamilyProperties), q_family_props[i]? = some p ∧
      p.queueFlags &&& VK_QUEUE_COMPUTE_BIT ≠ 0 ∧ p.queueFlags &&& VK_QUEUE_GRAPHICS_BIT = 0) :
    ∃ (k : Nat) (p : VkQueueFamilyProperties), q_family_props[k]? = some p ∧
      p.queueFlags &&& VK_QUEUE_COMPUTE_BIT ≠ 0 ∧ p.queueFlags &&& VK_QUEUE_GRAPHICS_BIT = 0 ∧
      (∀ (j : Nat) (q : VkQueueFamilyProperties), j < k → q_family_props[j]? = some q →
        ¬ (q.queueFlags &&& VK_QUEUE_COMPUTE_BIT ≠ 0 ∧
            q.queueFlags &&& VK_QUEUE_GRAPHICS_BIT = 0)) ∧
      select_q_family_indices q_family_props surface_support [VK_QUEUE_COMPUTE_BIT] = .ok [k] ∧
      ∀ (q_flags r : List Nat) (n : Nat),
        select_q_family_indices q_family_props surface_support q_flags = .ok r →
        q_flags[n]? = some VK_QUEUE_COMPUTE_BIT → r[n]? = some k := by
  obtain ⟨i, p, hget, hc, hg⟩ := h
  obtain ⟨k, hk⟩ := first_family_zero_exists (dedicated_compute_test VK_QUEUE_COMPUTE_BIT)
    q_family_props i p hget ((dedicated_compute_test_iff _ _ _).2 ⟨hc, hg⟩)
  obtain ⟨pk, hgetk, htestk, hmin⟩ := (first_family_zero_some _ _ _).1 hk
  have hq : VK_QUEUE_COMPUTE_BIT &&& VK_QUEUE_COMPUTE_BIT ≠ 0 := by decide
  have hidx : ∀ present, get_q_family_idx q_family_props surface_support
      VK_QUEUE_COMPUTE_BIT present = .ok k :=
    fun present => get_q_family_idx_of_compute _ _ _ present k hq hk
  have htk := (dedicated_compute_test_iff _ _ _).1 htestk
  refine ⟨k, pk, hgetk, htk.1, htk.2, ?_, ?_, ?_⟩
  · intro j q hj hq2 hboth
    have hf := hmin j q hj hq2
    rw [(dedicated_compute_test_iff _ _ _).2 hboth] at hf
    cases hf
  · simp only [select_q_family_indices, hidx]
  · intro q_flags r n hsel hqn
    obtain ⟨hlen, hall⟩ := select_q_family_indices_ok _ _ _ _ hsel
    have hn : n < r.length := by
      rw [hlen]
      exact (List.getElem?_eq_some.1 hqn).1
    have hr : r[n]? = some r[n] := List.getElem?_eq_getElem hn
    have := hall n _ _ hqn hr
    rw [hidx] at this
    simp only [Except.ok.injEq] at this
    rw [hr, this]

/-- C2 at a device whose first family has graphics, compute and transfer and
whose second has compute and transfer: the compute request yields index 1. -/
theorem compute_request_selects_dedicated_family_witness :
    (∃ (i : Nat) (p : VkQueueFamilyProperties), families_universal_then_async[i]? = some p ∧
      p.queueFlags &&& VK_QUEUE_COMPUTE_BIT ≠ 0 ∧ p.queueFlags &&& VK_QUEUE_GRAPHICS_BIT = 0) ∧
    ∃ (k : Nat) (p : VkQueueFamilyProperties), families_universal_then_async[k]? = some p ∧
      p.queueFlags &&& VK_QUEUE_COMPUTE_BIT ≠ 0 ∧ p.queueFlags &&& VK_QUEUE_GRAPHICS_BIT = 0 ∧
      (∀ (j : Nat) (q : VkQueueFamilyProperties), j < k →
        families_universal_then_async[j]? = some q →
        ¬ (q.queueFlags &&& VK_QUEUE_COMPUTE_BIT ≠ 0 ∧
            q.queueFlags &&& VK_QUEUE_GRAPHICS_BIT = 0)) ∧
      select_q_family_indices families_universal_then_async present_on_family_zero
        [VK_QUEUE_COMPUTE_BIT] = .ok [k] ∧
      ∀ (q_flags r : List Nat) (n : Nat),
        select_q_family_indices families_universal_then_async present_on_family_zero
          q_flags = .ok r →
        q_flags[n]? = some VK_QUEUE_COMPUTE_BIT → r[n]? = some k :=
  ⟨⟨1, ⟨VK_QUEUE_COMPUTE_BIT ||| VK_QUEUE_TRANSFER_BIT, 1⟩, rfl, by decide, by decide⟩,
   compute_request_selects_dedicated_family families_universal_then_async
     present_on_family_zero
     ⟨1, ⟨VK_QUEUE_COMPUTE_BIT ||| VK_QUEUE_TRANSFER_BIT, 1⟩, rfl, by decide, by decide⟩⟩

/-- C9. When some reported family has the transfer bit and lacks both the
graphics and the compute bit, a transfer request is answered with the lowest
index of such a family: the family at the returned index is a dedicated one,
no lower index is, a one-entry request list yields exactly that index, and
so does every transfer entry of any request list on which the selection
returns. Earlier families exposing transfer next to graphics or compute are
passed over. -/
theorem transfer_request_selects_dedicated_family
    (q_family_props : List VkQueueFamilyProperties) (surface_support : Nat → Bool)
    (h : ∃ (i : Nat) (p : VkQueueFamilyProperties), q_family_props[i]? = some p ∧
      p.queueFlags &&& VK_QUEUE_TRANSFER_BIT ≠ 0 ∧ p.queueFlags &&& VK_QUEUE_GRAPHICS_BIT = 0 ∧
      p.queueFlags &&& VK_QUEUE_COMPUTE_BIT = 0) :
    ∃ (k : Nat) (p : VkQueueFamilyProperties), q_family_props[k]? = some p ∧
      p.queueFlags &&& VK_QUEUE_TRANSFER_BIT ≠ 0 ∧ p.queueFlags &&& VK_QUEUE_GRAPHICS_BIT = 0 ∧
      p.queueFlags &&& VK_QUEUE_COMPUTE_BIT = 0 ∧
      (∀ (j : Nat) (q : VkQueueFamilyProperties), j < k → q_family_props[j]? = some q →
        ¬ (q.queueFlags &&& VK_QUEUE_TRANSFER_BIT ≠ 0 ∧
            q.queueFlags &&& VK_QUEUE_GRAPHICS_BIT = 0 ∧
            q.queueFlags &&& VK_QUEUE_COMPUTE_BIT = 0)) ∧
      select_q_family_indices q_family_props surface_support [VK_QUEUE_TRANSFER_BIT] = .ok [k] ∧
      ∀ (q_flags r : List Nat) (n : Nat),
        select_q_family_indices q_family_props surface_support q_flags = .ok r →
        q_flags[n]? = some VK_QUEUE_TRANSFER_BIT → r[n]? = some k := by
  obtain ⟨i, p, hget, ht, hg, hc⟩ := h
  obtain ⟨k, hk⟩ := first_family_zero_exists (dedicated_transfer_test VK_QUEUE_TRANSFER_BIT)
    q_family_props i p hget ((dedicated_transfer_test_iff _ _ _).2 ⟨ht, hg, hc⟩)
  obtain ⟨pk, hgetk, htestk, hmin⟩ := (first_family_zero_some _ _ _).1 hk
  have hq0 : VK_QUEUE_TRANSFER_BIT &&& VK_QUEUE_COMPUTE_BIT = 0 := by decide
  have hq : VK_QUEUE_TRANSFER_BIT &&& VK_QUEUE_TRANSFER_BIT ≠ 0 := by decide
  have hidx : ∀ present, get_q_family_idx q_family_props surface_support
      VK_QUEUE_TRANSFER_BIT present = .ok k :=
    fun present => get_q_family_idx_of_transfer _ _ _ present k hq0 hq hk
  have htk := (dedicated_transfer_test_iff _ _ _).1 htestk
  refine ⟨k, pk, hgetk, htk.1, htk.2.1, htk.2.2, ?_, ?_, ?_⟩
  · intro j q hj hq2 hboth
    have hf := hmin j q hj hq2
    rw [(dedicated_transfer_test_iff _ _ _).2 hboth] at hf
    cases hf
  · simp only [select_q_family_indices, hidx]
  · intro q_flags r n hsel hqn
    obtain ⟨hlen, hall⟩ := select_q_family_indices_ok _ _ _ _ hsel
    have hn : n < r.length := by
      rw [hlen]
      exact (List.getElem?_eq_some.1 hqn).1
    have hr : r[n]? = some r[n] := List.getElem?_eq_getElem hn
    have := hall n _ _ hqn hr
    rw [hidx] at this
    simp only [Except.ok.injEq] at this
    rw [hr, this]

/-- C9 at a device with a universal family, a compute and transfer family and
a transfer-only family: the transfer request yields index 2. -/
theorem transfer_request_selects_dedicated_family_witness :
    (∃ (i : Nat) (p : VkQueueFamilyProperties), families_with_copy_engine[i]? = some p ∧
      p.queueFlags &&& VK_QUEUE_TRANSFER_BIT ≠ 0 ∧ p.queueFlags &&& VK_QUEUE_GRAPHICS_BIT = 0 ∧
      p.queueFlags &&& VK_QUEUE_COMPUTE_BIT = 0) ∧
    ∃ (k : Nat) (p : VkQueueFamilyProperties), families_with_copy_engine[k]? = some p ∧
      p.queueFlags &&& VK_QUEUE_TRANSFER_BIT ≠ 0 ∧ p.queueFlags &&& VK_QUEUE_GRAPHICS_BIT = 0 ∧
      p.queueFlags &&& VK_QUEUE_COMPUTE_BIT = 0 ∧
      (∀ (j : Nat) (q : VkQueueFamilyProperties), j < k →
        families_with_copy_engine[j]? = some q →
        ¬ (q.queueFlags &&& VK_QUEUE_TRANSFER_BIT ≠ 0 ∧
            q.queueFlags &&& VK_QUEUE_GRAPHICS_BIT = 0 ∧
            q.queueFlags &&& VK_QUEUE_COMPUTE_BIT = 0)) ∧
      select_q_family_indices families_with_copy_engine present_on_family_zero
        [VK_QUEUE_TRANSFER_BIT] = .ok [k] ∧
      ∀ (q_flags r : List Nat) (n : Nat),
        select_q_family_indices families_with_copy_engine present_on_family_zero
          q_flags = .ok r →
        q_flags[n]? = some VK_QUEUE_TRANSFER_BIT → r[n]? = some k :=
  ⟨⟨2, ⟨VK_QUEUE_TRANSFER_BIT, 2⟩, rfl, by decide, by decide, by decide⟩,
   transfer_request_selects_dedicated_family families_with_copy_engine
     present_on_family_zero
     ⟨2, ⟨VK_QUEUE_TRANSFER_BIT, 2⟩, rfl, by decide, by decide, by decide⟩⟩

/-- C7 as stated fails. On a device whose universal family can present and
whose compute and transfer family cannot, the request value graphics with
compute carries the graphics bit, yet the selection returns family 1, for
which the surface-support query answered false: the first loop of
`get_q_family_idx` returns without the query. -/
theorem present_query_skipped_for_graphics_with_compute :
    ¬ (∀ (q_family_props : List VkQueueFamilyProperties) (surface_support : Nat → Bool)
        (q_flags r : List Nat) (n q i : Nat),
        select_q_family_indices q_family_props surface_support q_flags = .ok r →
        q_flags[n]? = some q → r[n]? = some i →
        q &&& VK_QUEUE_GRAPHICS_BIT ≠ 0 → surface_support i = true) := by
  intro h
  have := h families_universal_then_async present_on_family_zero
    [VK_QUEUE_GRAPHICS_BIT ||| VK_QUEUE_COMPUTE_BIT] [1] 0
    (VK_QUEUE_GRAPHICS_BIT ||| VK_QUEUE_COMPUTE_BIT) 1 (by decide) rfl rfl (by decide)
  revert this
  decide

/-- C7, amended. For every request list and family list on which the
selection returns, every index returned for a request value that carries the
graphics bit and neither the compute nor the transfer bit (the plain
graphics request among them) is a family for which the surface-support query
answered true, and that family shares a bit with the request. -/
theorem graphics_request_family_supports_present
    (q_family_props : List VkQueueFamilyProperties) (surface_support : Nat → Bool)
    (q_flags r : List Nat) (n q i : Nat)
    (hsel : select_q_family_indices q_family_props surface_support q_flags = .ok r)
    (hq : q_flags[n]? = some q) (hi : r[n]? = some i)
    (hg : q &&& VK_QUEUE_GRAPHICS_BIT ≠ 0)
    (hc : q &&& VK_QUEUE_COMPUTE_BIT = 0) (ht : q &&& VK_QUEUE_TRANSFER_BIT = 0) :
    surface_support i = true ∧
      ∃ p, q_family_props[i]? = some p ∧ p.queueFlags &&& q ≠ 0 := by
  have hget := (select_q_family_indices_ok _ _ _ _ hsel).2 n q i hq hi
  rw [get_q_family_idx_of_general _ _ _ _ hc ht] at hget
  cases hff : first_family (general_test surface_support q (requires_present q)) 0
      q_family_props with
  | none => rw [hff] at hget; cases hget
  | some k =>
    rw [hff] at hget
    simp only [Except.ok.injEq] at hget
    subst hget
    obtain ⟨p, hp, htest, -⟩ := (first_family_zero_some _ _ _).1 hff
    have hgt := (general_test_iff _ _ _ _ _).1 htest
    exact ⟨hgt.2 ((requires_present_iff q).2 hg), p, hp, hgt.1⟩

/-- C7, amended, at a device with two graphics families of which only the
second can present: the graphics request yields index 1. -/
theorem graphics_request_family_supports_present_witness :
    select_q_family_indices families_two_graphics present_on_family_one
        [VK_QUEUE_GRAPHICS_BIT] = .ok [1] ∧
      (present_on_family_one 1 = true ∧
        ∃ p, families_two_graphics[1]? = some p ∧
          p.queueFlags &&& VK_QUEUE_GRAPHICS_BIT ≠ 0) :=
  ⟨by decide,
   graphics_request_family_supports_present families_two_graphics present_on_family_one
     [VK_QUEUE_GRAPHICS_BIT] [1] 0 VK_QUEUE_GRAPHICS_BIT 1 (by decide) rfl rfl
     (by decide) (by decide) (by decide)⟩

/-- A family matches a request value when it shares a bit with it and, for a
value carrying the graphics bit, the surface-support query answered true for
its index. -/
theorem get_q_family_idx_ok_matches (q_family_props : List VkQueueFamilyProperties)
    (surface_support : Nat → Bool) (q k : Nat)
    (hq : q &&& VK_QUEUE_GRAPHICS_BIT ≠ 0 →
      q &&& VK_QUEUE_COMPUTE_BIT = 0 ∧ q &&& VK_QUEUE_TRANSFER_BIT = 0)
    (h : get_q_family_idx q_family_props surface_support q (requires_present q) = .ok k) :
    ∃ p, q_family_props[k]? = some p ∧ p.queueFlags &&& q ≠ 0 ∧
      (q &&& VK_QUEUE_GRAPHICS_BIT ≠ 0 → surface_support k = true) := by
  rcases get_q_family_idx_ok_cases _ _ _ _ _ h with ⟨hc, hff⟩ | ⟨ht, hff⟩ | hff
  · obtain ⟨p, hp, htest, -⟩ := (first_family_zero_some _ _ _).1 hff
    refine ⟨p, hp, ((dedicated_compute_test_iff _ _ _).1 htest).1, ?_⟩
    intro hg
    exact absurd (hq hg).1 hc
  · obtain ⟨p, hp, htest, -⟩ := (first_family_zero_some _ _ _).1 hff
    refine ⟨p, hp, ((dedicated_transfer_test_iff _ _ _).1 htest).1, ?_⟩
    intro hg
    exact absurd (hq hg).2 ht
  · obtain ⟨p, hp, htest, -⟩ := (first_family_zero_some _ _ _).1 hff
    have hgt := (general_test_iff _ _ _ _ _).1 htest
    exact ⟨p, hp, hgt.1, fun hg => hgt.2 ((requires_present_iff q).2 hg)⟩

/-- C10 as stated fails. On a device whose surface no family can present to,
the request value graphics with compute has no family that shares a bit with
it and passes the surface-support query, yet the selection does not end the
process: it returns family 1 from the first loop of `get_q_family_idx`. -/
theorem selection_returns_without_presentable_family :
    ¬ ((∃ e, select_q_family_indices families_universal_then_async present_nowhere
          [VK_QUEUE_GRAPHICS_BIT ||| VK_QUEUE_COMPUTE_BIT] = .error e) ↔
        ∃ q ∈ [VK_QUEUE_GRAPHICS_BIT ||| VK_QUEUE_COMPUTE_BIT],
          ¬ ∃ (i : Nat) (p : VkQueueFamilyProperties),
            families_universal_then_async[i]? = some p ∧ p.queueFlags &&& q ≠ 0 ∧
            (q &&& VK_QUEUE_GRAPHICS_BIT ≠ 0 → present_nowhere i = true)) := by
  intro h
  have hno : ∃ q ∈ [VK_QUEUE_GRAPHICS_BIT ||| VK_QUEUE_COMPUTE_BIT],
      ¬ ∃ (i : Nat) (p : VkQueueFamilyProperties),
        families_universal_then_async[i]? = some p ∧ p.queueFlags &&& q ≠ 0 ∧
        (q &&& VK_QUEUE_GRAPHICS_BIT ≠ 0 → present_nowhere i = true) := by
    refine ⟨_, List.mem_singleton.2 rfl, ?_⟩
    rintro ⟨i, p, -, -, hs⟩
    have := hs (by decide)
    simp [present_nowhere] at this
  obtain ⟨e, he⟩ := h.2 hno
  have hok : select_q_family_indices families_universal_then_async present_nowhere
      [VK_QUEUE_GRAPHICS_BIT ||| VK_QUEUE_COMPUTE_BIT] = .ok [1] := by decide
  rw [hok] at he
  cases he

/-- C10, amended. For request lists in which a value carrying the graphics
bit carries neither the compute nor the transfer bit (every single-bit
request list is one): the selection ends the process, through
`exit(EXIT_FAILURE)` and with no index list, exactly when some requested
value has no matching family, that is, no reported family shares a bit with
it and, for a value with the graphics bit, also passes the surface-support
query; otherwise it returns a list with one index per request. -/
theorem selection_fatal_iff_unmatched_request
    (q_family_props : List VkQueueFamilyProperties) (surface_support : Nat → Bool)
    (q_flags : List Nat)
    (hq : ∀ q ∈ q_flags, q &&& VK_QUEUE_GRAPHICS_BIT ≠ 0 →
      q &&& VK_QUEUE_COMPUTE_BIT = 0 ∧ q &&& VK_QUEUE_TRANSFER_BIT = 0) :
    ((select_q_family_indices q_family_props surface_support q_flags
          = .error Fatal.exit_failure) ↔
        ∃ q ∈ q_flags, ¬ ∃ (i : Nat) (p : VkQueueFamilyProperties),
          q_family_props[i]? = some p ∧ p.queueFlags &&& q ≠ 0 ∧
          (q &&& VK_QUEUE_GRAPHICS_BIT ≠ 0 → surface_support i = true)) ∧
    ((¬ ∃ q ∈ q_flags, ¬ ∃ (i : Nat) (p : VkQueueFamilyProperties),
          q_family_props[i]? = some p ∧ p.queueFlags &&& q ≠ 0 ∧
          (q &&& VK_QUEUE_GRAPHICS_BIT ≠ 0 → surface_support i = true)) ↔
        ∃ r, select_q_family_indices q_family_props surface_support q_flags = .ok r ∧
          r.length = q_flags.length) := by
  have key : (∃ e, select_q_family_indices q_family_props surface_support q_flags
        = .error e) ↔
      ∃ q ∈ q_flags, ¬ ∃ (i : Nat) (p : VkQueueFamilyProperties),
        q_family_props[i]? = some p ∧ p.queueFlags &&& q ≠ 0 ∧
        (q &&& VK_QUEUE_GRAPHICS_BIT ≠ 0 → surface_support i = true) := by
    rw [select_q_family_indices_error_iff]
    constructor
    · rintro ⟨q, hmem, e, he⟩
      refine ⟨q, hmem, ?_⟩
      rintro ⟨i, p, hp, hbit, hsup⟩
      have hnone := (get_q_family_idx_error _ _ _ _ _ he).2.1
      have hf := (first_family_zero_none _ _).1 hnone i p hp
      have ht : general_test surface_support q (requires_present q) i p = true :=
        (general_test_iff _ _ _ _ _).2
          ⟨hbit, fun hpres => hsup ((requires_present_iff q).1 hpres)⟩
      rw [ht] at hf
      cases hf
    · rintro ⟨q, hmem, hno⟩
      refine ⟨q, hmem, ?_⟩
      cases hget : get_q_family_idx q_family_props surface_support q (requires_present q) with
      | error e => exact ⟨e, rfl⟩
      | ok k =>
        obtain ⟨p, hp, hbit, hsup⟩ :=
          get_q_family_idx_ok_matches _ _ _ _ (hq q hmem) hget
        exact absurd ⟨k, p, hp, hbit, hsup⟩ hno
  constructor
  · rw [← key]
    constructor
    · intro h
      exact ⟨_, h⟩
    · rintro ⟨e, he⟩
      have := select_q_family_indices_error_kind _ _ _ _ he
      subst this
      exact he
  · rw [← key]
    constructor
    · intro hne
      cases hsel : select_q_family_indices q_family_props surface_support q_flags with
      | error e => exact absurd ⟨e, hsel⟩ hne
      | ok r => exact ⟨r, rfl, (select_q_family_indices_ok _ _ _ _ hsel).1⟩
    · rintro ⟨r, hr, -⟩ ⟨e, he⟩
      rw [hr] at he
      cases he

/-- C10, amended, at the request list graphics, compute, transfer on a device
with a universal family that can present and a compute and transfer family:
every request has a matching family and three indices are returned. -/
theorem selection_fatal_iff_unmatched_request_witness :
    (∀ q ∈ [VK_QUEUE_GRAPHICS_BIT, VK_QUEUE_COMPUTE_BIT, VK_QUEUE_TRANSFER_BIT],
      q &&& VK_QUEUE_GRAPHICS_BIT ≠ 0 →
        q &&& VK_QUEUE_COMPUTE_BIT = 0 ∧ q &&& VK_QUEUE_TRANSFER_BIT = 0) ∧
    (((select_q_family_indices families_universal_then_async present_on_family_zero
          [VK_QUEUE_GRAPHICS_BIT, VK_QUEUE_COMPUTE_BIT, VK_QUEUE_TRANSFER_BIT]
          = .error Fatal.exit_failure) ↔
        ∃ q ∈ [VK_QUEUE_GRAPHICS_BIT, VK_QUEUE_COMPUTE_BIT, VK_QUEUE_TRANSFER_BIT],
          ¬ ∃ (i : Nat) (p : VkQueueFamilyProperties),
            families_universal_then_async[i]? = some p ∧ p.queueFlags &&& q ≠ 0 ∧
            (q &&& VK_QUEUE_GRAPHICS_BIT ≠ 0 → present_on_family_zero i = true)) ∧
    ((¬ ∃ q ∈ [VK_QUEUE_GRAPHICS_BIT, VK_QUEUE_COMPUTE_BIT, VK_QUEUE_TRANSFER_BIT],
          ¬ ∃ (i : Nat) (p : VkQueueFamilyProperties),
            families_universal_then_async[i]? = some p ∧ p.queueFlags &&& q ≠ 0 ∧
            (q &&& VK_QUEUE_GRAPHICS_BIT ≠ 0 → present_on_family_zero i = true)) ↔
        ∃ r, select_q_family_indices families_universal_then_async present_on_family_zero
            [VK_QUEUE_GRAPHICS_BIT, VK_QUEUE_COMPUTE_BIT, VK_QUEUE_TRANSFER_BIT] = .ok r ∧
          r.length = [VK_QUEUE_GRAPHICS_BIT, VK_QUEUE_COMPUTE_BIT,
            VK_QUEUE_TRANSFER_BIT].length)) :=
  ⟨by decide,
   selection_fatal_iff_unmatched_request families_universal_then_async
     present_on_family_zero
     [VK_QUEUE_GRAPHICS_BIT, VK_QUEUE_COMPUTE_BIT, VK_QUEUE_TRANSFER_BIT] (by decide)⟩

/-! ## Lemmas on `populate_swapchain_create_info` -/

/-- The image-count block in terms of the request and the two bounds. -/
theorem negotiate_image_count_eq (caps : VkSurfaceCapabilitiesKHR) (image_count : Nat) :
    negotiate_image_count caps image_count =
      if image_count = 0 then .error Fatal.assertion
      else if caps.minImageCount ≤ image_count ∧
          (caps.maxImageCount = 0 ∨ image_count ≤ caps.maxImageCount) then .ok image_count
      else .error Fatal.exit_failure := by
  unfold negotiate_image_count
  by_cases h0 : image_count = 0
  · simp [h0]
  · have hpos : image_count > 0 := Nat.pos_of_ne_zero h0
    rw [if_pos hpos, if_neg h0]
    by_cases hmax : caps.maxImageCount = 0
    · rw [if_pos hmax]
      by_cases hmin : caps.minImageCount ≤ image_count
      · rw [if_pos hmin, if_pos ⟨hmin, Or.inl hmax⟩]
      · rw [if_neg hmin, if_neg (fun h => hmin h.1)]
    · rw [if_neg hmax]
      by_cases hb : image_count ≥ caps.minImageCount ∧ image_count ≤ caps.maxImageCount
      · rw [if_pos hb, if_pos ⟨hb.1, Or.inr hb.2⟩]
      · rw [if_neg hb, if_neg]
        rintro ⟨h1, h2 | h2⟩
        · exact hmax h2
        · exact hb ⟨h1, h2⟩

/-- The format block on a non-empty vector returns an entry of the vector:
the first one whose format equals the request, or entry 0 when none does. -/
theorem negotiate_image_format_spec (supported_surface_formats : List VkSurfaceFormatKHR)
    (format : Nat) (hf : supported_surface_formats ≠ []) :
    ∃ sf, negotiate_image_format supported_surface_formats format = .ok sf ∧
      ((sf.format = format ∧ ∃ (k : Nat), supported_surface_formats[k]? = some sf ∧
          ∀ (j : Nat) (e : VkSurfaceFormatKHR), j < k →
            supported_surface_formats[j]? = some e → e.format ≠ format) ∨
       ((∀ e ∈ supported_surface_formats, e.format ≠ format) ∧
          supported_surface_formats[0]? = some sf)) := by
  unfold negotiate_image_format
  cases hfind : supported_surface_formats.find? (fun sf => sf.format == format) with
  | some sf =>
    refine ⟨sf, rfl, Or.inl ?_⟩
    obtain ⟨hp, pre, post, hsplit, hpre⟩ := List.find?_eq_some.1 hfind
    refine ⟨by simpa using hp, pre.length, ?_, ?_⟩
    · rw [hsplit, List.getElem?_append_right (Nat.le_refl _)]
      simp
    · intro j e hj he
      rw [hsplit, List.getElem?_append_left hj] at he
      have hmem : e ∈ pre := List.mem_iff_getElem?.2 ⟨j, he⟩
      simpa using hpre e hmem
  | none =>
    have hnone := List.find?_eq_none.1 hfind
    cases hl : supported_surface_formats with
    | nil => exact absurd hl hf
    | cons sf0 rest =>
      refine ⟨sf0, rfl, Or.inr ⟨?_, by simp⟩⟩
      intro e he
      rw [← hl] at he
      simpa using hnone e he

/-- The result of the whole function once the two fallible blocks returned. -/
theorem populate_swapchain_create_info_eq (report : SurfaceReport)
    (surface image_count format : Nat) (extent : VkExtent2D) (present_mode : Nat)
    (count : Nat) (sf : VkSurfaceFormatKHR)
    (h1 : negotiate_image_count report.surface_capabilities image_count = .ok count)
    (h2 : negotiate_image_format report.supported_surface_formats format = .ok sf) :
    populate_swapchain_create_info report surface image_count format extent present_mode =
      .ok {
        surface := surface
        minImageCount := count
        imageFormat := sf.format
        imageColorSpace := sf.colorSpace
        imageExtent := negotiate_extent report.surface_capabilities extent
        imageArrayLayers := 1
        imageUsage := VK_IMAGE_USAGE_COLOR_ATTACHMENT_BIT
        imageSharingMode := VK_SHARING_MODE_EXCLUSIVE
        queueFamilyIndexCount := 0
        preTransform := negotiate_pre_transform report.surface_capabilities
        compositeAlpha := negotiate_composite_alpha report.surface_capabilities
        presentMode := negotiate_present_mode report.supported_present_modes present_mode
        clipped := VK_TRUE
        oldSwapchain := VK_NULL_HANDLE } := by
  simp only [populate_swapchain_create_info, h1, h2]

/-- A request inside the reported bounds passes the image-count block. -/
theorem negotiate_image_count_ok (caps : VkSurfaceCapabilitiesKHR) (image_count : Nat)
    (hc : 0 < image_count) (hmin : caps.minImageCount ≤ image_count)
    (hmax : caps.maxImageCount = 0 ∨ image_count ≤ caps.maxImageCount) :
    negotiate_image_count caps image_count = .ok image_count := by
  rw [negotiate_image_count_eq, if_neg (by omega), if_pos ⟨hmin, hmax⟩]

/-- On a report with at least one surface format, the image count of the
result, or the failure, is that of the image-count block. -/
theorem populate_swapchain_create_info_count (report : SurfaceReport)
    (surface image_count format : Nat) (extent : VkExtent2D) (present_mode : Nat)
    (hf : report.supported_surface_formats ≠ []) :
    Except.map VkSwapchainCreateInfoKHR.minImageCount
        (populate_swapchain_create_info report surface image_count format extent present_mode)
      = negotiate_image_count report.surface_capabilities image_count := by
  obtain ⟨sf, hsf, -⟩ := negotiate_image_format_spec _ format hf
  cases hcnt : negotiate_image_count report.surface_capabilities image_count with
  | error e => simp [populate_swapchain_create_info, hcnt, Except.map]
  | ok n => rw [populate_swapchain_create_info_eq _ _ _ _ _ _ n sf hcnt hsf]; rfl

/-! ## Swapchain negotiation: the claims -/

/-- C1. The extent block at two inputs. On a surface that reports the extent
800 x 600 a request for 500 x 500 gets `imageExtent` 500 x 500, not the
reported extent; on a surface that reports the sentinel `0xFFFFFFFF` the
same request gets the sentinel itself as `imageExtent`, not 500 x 500. The
test of line 273 is the opposite of what the comment above it describes. -/
theorem extent_branches_are_swapped :
    Except.map VkSwapchainCreateInfoKHR.imageExtent
        (populate_swapchain_create_info report_fixed_extent 7 2 VK_FORMAT_B8G8R8A8_SRGB
          ⟨500, 500⟩ VK_PRESENT_MODE_FIFO_KHR) = .ok ⟨500, 500⟩ ∧
      report_fixed_extent.surface_capabilities.currentExtent = ⟨800, 600⟩ ∧
    Except.map VkSwapchainCreateInfoKHR.imageExtent
        (populate_swapchain_create_info report_undefined_extent 7 2 VK_FORMAT_B8G8R8A8_SRGB
          ⟨500, 500⟩ VK_PRESENT_MODE_FIFO_KHR) = .ok ⟨4294967295, 4294967295⟩ ∧
      report_undefined_extent.surface_capabilities.currentExtent
        = ⟨4294967295, 4294967295⟩ := by
  decide

/-- C3 as stated fails. With no upper bound reported, lower bound 0 and at
least one surface format, the request for 0 images satisfies `c >= min`, yet
the call does not return a create-info: the assertion of line 214 fails. -/
theorem zero_image_count_is_rejected :
    ¬ (∀ (report : SurfaceReport) (surface image_count format : Nat) (extent : VkExtent2D)
        (present_mode : Nat), report.supported_surface_formats ≠ [] →
        report.surface_capabilities.maxImageCount = 0 →
        image_count ≥ report.surface_capabilities.minImageCount →
        ∃ r, populate_swapchain_create_info report surface image_count format extent
            present_mode = .ok r ∧ r.minImageCount = image_count) := by
  intro h
  obtain ⟨r, hr, -⟩ := h report_unbounded_count 7 0 VK_FORMAT_B8G8R8A8_SRGB ⟨500, 500⟩
    VK_PRESENT_MODE_FIFO_KHR (by decide) (by decide) (by decide)
  have herr : populate_swapchain_create_info report_unbounded_count 7 0
      VK_FORMAT_B8G8R8A8_SRGB ⟨500, 500⟩ VK_PRESENT_MODE_FIFO_KHR
      = .error Fatal.assertion := by decide
  rw [herr] at hr
  cases hr

/-- C3, amended. On a report with at least one surface format, for every
requested image count `c` and reported `(min, max)`:
a request of 0 ends in the failed assertion; for `c > 0`, when `max` is 0 and
`c >= min` the call returns with `minImageCount = c`; when `max > 0` it
returns (with `minImageCount = c`) if and only if `min <= c <= max`; in every
other case it ends through `exit(EXIT_FAILURE)`. Every returned create-info
has `minImageCount = c` inside the reported bounds, and the image count or
failure is the same for any two reports that agree on `(min, max)`. -/
theorem image_count_negotiation (report : SurfaceReport)
    (surface image_count format : Nat) (extent : VkExtent2D) (present_mode : Nat)
    (hf : report.supported_surface_formats ≠ []) :
    (image_count = 0 →
      populate_swapchain_create_info report surface image_count format extent present_mode
        = .error Fatal.assertion) ∧
    (0 < image_count → report.surface_capabilities.maxImageCount = 0 →
      report.surface_capabilities.minImageCount ≤ image_count →
      ∃ r, populate_swapchain_create_info report surface image_count format extent
          present_mode = .ok r ∧ r.minImageCount = image_count) ∧
    (0 < image_count → 0 < report.surface_capabilities.maxImageCount →
      ((∃ r, populate_swapchain_create_info report surface image_count format extent
          present_mode = .ok r ∧ r.minImageCount = image_count) ↔
        (report.surface_capabilities.minImageCount ≤ image_count ∧
          image_count ≤ report.surface_capabilities.maxImageCount))) ∧
    (0 < image_count →
      ¬ (report.surface_capabilities.minImageCount ≤ image_count ∧
          (report.surface_capabilities.maxImageCount = 0 ∨
            image_count ≤ report.surface_capabilities.maxImageCount)) →
      populate_swapchain_create_info report surface image_count format extent present_mode
        = .error Fatal.exit_failure) ∧
    (∀ r, populate_swapchain_create_info report surface image_count format extent
        present_mode = .ok r →
      r.minImageCount = image_count ∧
        report.surface_capabilities.minImageCount ≤ r.minImageCount ∧
        (report.surface_capabilities.maxImageCount = 0 ∨
          r.minImageCount ≤ report.surface_capabilities.maxImageCount)) ∧
    (∀ (report2 : SurfaceReport) (surface2 format2 : Nat) (extent2 : VkExtent2D)
        (present_mode2 : Nat), report2.supported_surface_formats ≠ [] →
      report2.surface_capabilities.minImageCount
        = report.surface_capabilities.minImageCount →
      report2.surface_capabilities.maxImageCount
        = report.surface_capabilities.maxImageCount →
      Except.map VkSwapchainCreateInfoKHR.minImageCount
          (populate_swapchain_create_info report2 surface2 image_count format2 extent2
            present_mode2)
        = Except.map VkSwapchainCreateInfoKHR.minImageCount
          (populate_swapchain_create_info report surface image_count format extent
            present_mode)) := by
  obtain ⟨sf, hsf, -⟩ := negotiate_image_format_spec _ format hf
  have hok : ∀ r, populate_swapchain_create_info report surface image_count format extent
        present_mode = .ok r →
      r.minImageCount = image_count ∧ 0 < image_count ∧
        report.surface_capabilities.minImageCount ≤ image_count ∧
        (report.surface_capabilities.maxImageCount = 0 ∨
          image_count ≤ report.surface_capabilities.maxImageCount) := by
    intro r hr
    have hmap := populate_swapchain_create_info_count report surface image_count format
      extent present_mode hf
    rw [hr, negotiate_image_count_eq] at hmap
    by_cases h0 : image_count = 0
    · rw [if_pos h0] at hmap
      cases hmap
    · rw [if_neg h0] at hmap
      by_cases hb : report.surface_capabilities.minImageCount ≤ image_count ∧
          (report.surface_capabilities.maxImageCount = 0 ∨
            image_count ≤ report.surface_capabilities.maxImageCount)
      · rw [if_pos hb] at hmap
        simp only [Except.map, Except.ok.injEq] at hmap
        exact ⟨hmap, Nat.pos_of_ne_zero h0, hb.1, hb.2⟩
      · rw [if_neg hb] at hmap
        cases hmap
  have hret : 0 < image_count → report.surface_capabilities.minImageCount ≤ image_count →
      (report.surface_capabilities.maxImageCount = 0 ∨
        image_count ≤ report.surface_capabilities.maxImageCount) →
      ∃ r, populate_swapchain_create_info report surface image_count format extent
          present_mode = .ok r ∧ r.minImageCount = image_count := by
    intro hc hmin hmax
    exact ⟨_, populate_swapchain_create_info_eq _ _ _ _ _ _ _ sf
      (negotiate_image_count_ok _ _ hc hmin hmax) hsf, rfl⟩
  refine ⟨?_, ?_, ?_, ?_, ?_, ?_⟩
  · intro h0
    simp [populate_swapchain_create_info, negotiate_image_count, h0]
  · intro hc hmax hmin
    exact hret hc hmin (Or.inl hmax)
  · intro hc hmax
    constructor
    · rintro ⟨r, hr, -⟩
      obtain ⟨-, -, h1, h2⟩ := hok r hr
      rcases h2 with h2 | h2
      · omega
      · exact ⟨h1, h2⟩
    · rintro ⟨h1, h2⟩
      exact hret hc h1 (Or.inr h2)
  · intro hc hb
    have h0 : image_count ≠ 0 := by omega
    simp only [populate_swapchain_create_info, negotiate_image_count_eq, if_neg h0, if_neg hb]
  · intro r hr
    obtain ⟨h1, -, h2, h3⟩ := hok r hr
    rw [h1]
    exact ⟨rfl, h2, h3⟩
  · intro report2 surface2 format2 extent2 present_mode2 hf2 hmin2 hmax2
    rw [populate_swapchain_create_info_count _ _ _ _ _ _ hf2,
      populate_swapchain_create_info_count _ _ _ _ _ _ hf,
      negotiate_image_count_eq, negotiate_image_count_eq, hmin2, hmax2]

/-- C3, amended, at the request of `main.cpp` (2 images) on a surface with
bounds 2 to 8. -/
theorem image_count_negotiation_witness :
    report_fixed_extent.supported_surface_formats ≠ [] ∧
    ∃ r, populate_swapchain_create_info report_fixed_extent 7 2 VK_FORMAT_R8G8B8A8_SRGB
        ⟨500, 500⟩ VK_PRESENT_MODE_FIFO_KHR = .ok r ∧ r.minImageCount = 2 :=
  ⟨by decide,
   ((image_count_negotiation report_fixed_extent 7 2 VK_FORMAT_R8G8B8A8_SRGB ⟨500, 500⟩
      VK_PRESENT_MODE_FIFO_KHR (by decide)).2.2.1 (by decide) (by decide)).2
      ⟨by decide, by decide⟩⟩

/-- C5. For every requested present mode and every supported present-mode
list, on inputs that pass the image-count and format blocks (a positive
image count inside the reported bounds, at least one surface format), the
call returns a create-info whose `presentMode` is the requested mode when
that mode occurs in the supported list, and FIFO when it does not. -/
theorem present_mode_negotiation (report : SurfaceReport)
    (surface image_count format : Nat) (extent : VkExtent2D) (present_mode : Nat)
    (hc : 0 < image_count)
    (hmin : report.surface_capabilities.minImageCount ≤ image_count)
    (hmax : report.surface_capabilities.maxImageCount = 0 ∨
      image_count ≤ report.surface_capabilities.maxImageCount)
    (hf : report.supported_surface_formats ≠ []) :
    ∃ r, populate_swapchain_create_info report surface image_count format extent
        present_mode = .ok r ∧
      (present_mode ∈ report.supported_present_modes → r.presentMode = present_mode) ∧
      (present_mode ∉ report.supported_present_modes →
        r.presentMode = VK_PRESENT_MODE_FIFO_KHR) := by
  obtain ⟨sf, hsf, -⟩ := negotiate_image_format_spec _ format hf
  refine ⟨_, populate_swapchain_create_info_eq _ _ _ _ _ _ _ sf
    (negotiate_image_count_ok _ _ hc hmin hmax) hsf, ?_, ?_⟩
  · intro hmem
    have hany : report.supported_present_modes.any (fun m => m == present_mode) = true :=
      List.any_eq_true.2 ⟨present_mode, hmem, by simp⟩
    simp only [negotiate_present_mode, hany, if_true]
  · intro hmem
    have hany : ¬ (report.supported_present_modes.any (fun m => m == present_mode) = true) := by
      intro h
      obtain ⟨m, hm, heq⟩ := List.any_eq_true.1 h
      have : m = present_mode := by simpa using heq
      exact hmem (this ▸ hm)
    simp only [negotiate_present_mode, if_neg hany]

/-- C5 on a surface that lists FIFO and mailbox: the mailbox request is
granted, the immediate-mode request falls back to FIFO. -/
theorem present_mode_negotiation_witness :
    (∃ r, populate_swapchain_create_info report_fixed_extent 7 2 VK_FORMAT_R8G8B8A8_SRGB
        ⟨500, 500⟩ VK_PRESENT_MODE_MAILBOX_KHR = .ok r ∧
      (VK_PRESENT_MODE_MAILBOX_KHR ∈ report_fixed_extent.supported_present_modes →
        r.presentMode = VK_PRESENT_MODE_MAILBOX_KHR) ∧
      (VK_PRESENT_MODE_MAILBOX_KHR ∉ report_fixed_extent.supported_present_modes →
        r.presentMode = VK_PRESENT_MODE_FIFO_KHR)) ∧
    (∃ r, populate_swapchain_create_info report_fixed_extent 7 2 VK_FORMAT_R8G8B8A8_SRGB
        ⟨500, 500⟩ VK_PRESENT_MODE_IMMEDIATE_KHR = .ok r ∧
      (VK_PRESENT_MODE_IMMEDIATE_KHR ∈ report_fixed_extent.supported_present_modes →
        r.presentMode = VK_PRESENT_MODE_IMMEDIATE_KHR) ∧
      (VK_PRESENT_MODE_IMMEDIATE_KHR ∉ report_fixed_extent.supported_present_modes →
        r.presentMode = VK_PRESENT_MODE_FIFO_KHR)) :=
  ⟨present_mode_negotiation report_fixed_extent 7 2 VK_FORMAT_R8G8B8A8_SRGB ⟨500, 500⟩
      VK_PRESENT_MODE_MAILBOX_KHR (by decide) (by decide) (by decide) (by decide),
   present_mode_negotiation report_fixed_extent 7 2 VK_FORMAT_R8G8B8A8_SRGB ⟨500, 500⟩
      VK_PRESENT_MODE_IMMEDIATE_KHR (by decide) (by decide) (by decide) (by decide)⟩

/-- C6 as stated fails. The report lists format R8G8B8A8_SRGB first with the
Display-P3 colour space and then with the sRGB colour space. The pair
(R8G8B8A8_SRGB, sRGB) is in the list, the format R8G8B8A8_SRGB is requested,
and the call returns the pair (R8G8B8A8_SRGB, Display-P3): the scan compares
the format alone and the request has no colour space. -/
theorem requested_pair_present_but_not_returned :
    ¬ (∀ (report : SurfaceReport) (surface image_count format colorSpace : Nat)
        (extent : VkExtent2D) (present_mode : Nat),
        report.supported_surface_formats ≠ [] →
        (⟨format, colorSpace⟩ : VkSurfaceFormatKHR) ∈ report.supported_surface_formats →
        ∀ r, populate_swapchain_create_info report surface image_count format extent
            present_mode = .ok r →
          r.imageFormat = format ∧ r.imageColorSpace = colorSpace) := by
  intro h
  have := h report_two_colour_spaces 7 2 VK_FORMAT_R8G8B8A8_SRGB
    VK_COLOR_SPACE_SRGB_NONLINEAR_KHR ⟨500, 500⟩ VK_PRESENT_MODE_FIFO_KHR
    (by decide) (by decide) _ rfl
  revert this
  decide

/-- C6, amended. For every non-empty list of supported surface formats and
every requested format, on a positive image count inside the reported
bounds, the call returns a create-info whose (imageFormat, imageColorSpace)
is an entry of the list: when some entry has the requested format it is the
first such entry (so `imageFormat` is the request, and the colour space is
that entry's; it is a given colour space whenever all entries of that format
carry it); when no entry has the requested format it is entry 0. -/
theorem format_negotiation (report : SurfaceReport)
    (surface image_count format : Nat) (extent : VkExtent2D) (present_mode : Nat)
    (hc : 0 < image_count)
    (hmin : report.surface_capabilities.minImageCount ≤ image_count)
    (hmax : report.surface_capabilities.maxImageCount = 0 ∨
      image_count ≤ report.surface_capabilities.maxImageCount)
    (hf : report.supported_surface_formats ≠ []) :
    ∃ r, populate_swapchain_create_info report surface image_count format extent
        present_mode = .ok r ∧
      ((∃ e ∈ report.supported_surface_formats, e.format = format) →
        r.imageFormat = format ∧
        (∃ (k : Nat), report.supported_surface_formats[k]?
            = some ⟨r.imageFormat, r.imageColorSpace⟩ ∧
          ∀ (j : Nat) (e : VkSurfaceFormatKHR), j < k →
            report.supported_surface_formats[j]? = some e → e.format ≠ format) ∧
        ∀ colorSpace, (∀ e ∈ report.supported_surface_formats, e.format = format →
            e.colorSpace = colorSpace) → r.imageColorSpace = colorSpace) ∧
      ((∀ e ∈ report.supported_surface_formats, e.format ≠ format) →
        report.supported_surface_formats[0]? = some ⟨r.imageFormat, r.imageColorSpace⟩) := by
  obtain ⟨sf, hsf, hspec⟩ := negotiate_image_format_spec _ format hf
  refine ⟨_, populate_swapchain_create_info_eq _ _ _ _ _ _ _ sf
    (negotiate_image_count_ok _ _ hc hmin hmax) hsf, ?_, ?_⟩
  · rintro ⟨e, he, hef⟩
    rcases hspec with ⟨hfmt, k, hk, hfirst⟩ | ⟨hnone, -⟩
    · refine ⟨hfmt, ⟨k, hk, hfirst⟩, ?_⟩
      intro colorSpace hall
      exact hall sf (List.mem_iff_getElem?.2 ⟨k, hk⟩) hfmt
    · exact absurd hef (hnone e he)
  · intro hnone
    rcases hspec with ⟨hfmt, k, hk, -⟩ | ⟨-, h0⟩
    · exact absurd hfmt (hnone sf (List.mem_iff_getElem?.2 ⟨k, hk⟩))
    · exact h0

/-- C6, amended, at the scenario of the specification: the device lists only
B8G8R8A8_SRGB, R8G8B8A8_SRGB is requested with 2 images, the call returns and
the create-info carries B8G8R8A8_SRGB with the colour space of that entry. -/
theorem format_negotiation_witness :
    (∀ e ∈ report_fixed_extent.supported_surface_formats,
      e.format ≠ VK_FORMAT_R8G8B8A8_SRGB) ∧
    ∃ r, populate_swapchain_create_info report_fixed_extent 7 2 VK_FORMAT_R8G8B8A8_SRGB
        ⟨500, 500⟩ VK_PRESENT_MODE_FIFO_KHR = .ok r ∧
      r.imageFormat = VK_FORMAT_B8G8R8A8_SRGB ∧
      r.imageColorSpace = VK_COLOR_SPACE_SRGB_NONLINEAR_KHR := by
  refine ⟨by decide, ?_⟩
  obtain ⟨r, hr, -, h0⟩ := format_negotiation report_fixed_extent 7 2
    VK_FORMAT_R8G8B8A8_SRGB ⟨500, 500⟩ VK_PRESENT_MODE_FIFO_KHR
    (by decide) (by decide) (by decide) (by decide)
  have h := h0 (by decide)
  simp only [report_fixed_extent, List.getElem?_cons_zero, Option.some.injEq,
    VkSurfaceFormatKHR.mk.injEq] at h
  exact ⟨r, hr, h.1.symm, h.2.symm⟩

/-! ## Memory type resolution -/

/-- The mask test `m & (1 << i)` of line 399 is the test of bit `i` of `m`. -/
theorem mask_test_eq_testBit (m i : Nat) : (m &&& (1 <<< i) != 0) = m.testBit i := by
  rw [Nat.one_shiftLeft, Nat.and_two_pow]
  cases m.testBit i <;> simp

/-- The comparison `(flags & desired) == desired` holds exactly when every
bit of `desired` is a bit of `flags`. -/
theorem flags_superset_iff (flags desired : Nat) :
    flags &&& desired = desired ↔
      ∀ b, desired.testBit b = true → flags.testBit b = true := by
  constructor
  · intro h b hb
    rw [← h, Nat.testBit_and] at hb
    simp only [Bool.and_eq_true] at hb
    exact hb.1
  · intro h
    apply Nat.eq_of_testBit_eq
    intro b
    rw [Nat.testBit_and]
    cases hd : desired.testBit b
    · simp
    · simp [h b hd]

theorem memory_type_matches_iff (memory_type_indices memory_property_flags : Nat)
    (memory_properties : VkPhysicalDeviceMemoryProperties) (i : Fin 32) :
    memory_type_matches memory_type_indices memory_property_flags memory_properties i = true ↔
      memory_type_indices.testBit i.val = true ∧
        (memory_properties.memoryTypes i).propertyFlags &&& memory_property_flags
          = memory_property_flags := by
  unfold memory_type_matches
  rw [mask_test_eq_testBit]
  simp

/-- The loop started at index `i` with `remaining` iterations returns the
lowest matching index of `[i, i + remaining)` when there is one. -/
theorem get_heap_idx_loop_finds (memory_type_indices memory_property_flags : Nat)
    (memory_properties : VkPhysicalDeviceMemoryProperties) (remaining i : Nat)
    (h : ∃ j : Fin 32, i ≤ j.val ∧ j.val < i + remaining ∧
      memory_type_matches memory_type_indices memory_property_flags memory_properties j
        = true) :
    ∃ k : Fin 32,
      get_heap_idx_loop memory_type_indices memory_property_flags memory_properties
        remaining i = .ok k.val ∧
      i ≤ k.val ∧ k.val < i + remaining ∧
      memory_type_matches memory_type_indices memory_property_flags memory_properties k
        = true ∧
      ∀ j : Fin 32, i ≤ j.val → j.val < k.val →
        memory_type_matches memory_type_indices memory_property_flags memory_properties j
          = false := by
  induction remaining generalizing i with
  | zero =>
    obtain ⟨j, h1, h2, -⟩ := h
    omega
  | succ n ih =>
    obtain ⟨j, hij, hjn, hj⟩ := h
    have hi32 : i < 32 := Nat.lt_of_le_of_lt hij j.isLt
    unfold get_heap_idx_loop
    rw [dif_pos hi32]
    by_cases hm : memory_type_matches memory_type_indices memory_property_flags
        memory_properties ⟨i, hi32⟩ = true
    · rw [if_pos hm]
      refine ⟨⟨i, hi32⟩, rfl, Nat.le_refl _, by simp, hm, ?_⟩
      intro j2 h1 h2
      simp only at h2
      omega
    · rw [if_neg hm]
      have hne : j.val ≠ i := by
        intro heq
        have hj2 : j = ⟨i, hi32⟩ := Fin.ext heq
        rw [hj2] at hj
        exact hm hj
      obtain ⟨k, hk, hik, hkn, hkm, hkmin⟩ := ih (i + 1) ⟨j, by omega, by omega, hj⟩
      refine ⟨k, hk, by omega, by omega, hkm, ?_⟩
      intro j2 h1 h2
      by_cases hj2 : j2.val = i
      · have e : j2 = ⟨i, hi32⟩ := Fin.ext hj2
        rw [e]
        simpa using hm
      · exact hkmin j2 (by omega) h2

/-- C4. `get_heap_idx` is a function of its three arguments alone, and
whenever some index below `memoryTypeCount` has its bit set in the type
bitmask and property flags containing every desired flag, the call returns
an index: it is below `memoryTypeCount`, its bit is set in the bitmask, its
property flags contain the desired flags, and no smaller index satisfies
both constraints. -/
theorem get_heap_idx_returns_lowest_match (type_bitmask desired_flags : Nat)
    (memory_properties : VkPhysicalDeviceMemoryProperties)
    (h : ∃ i : Fin 32, i.val < memory_properties.memoryTypeCount ∧
      type_bitmask.testBit i.val = true ∧
      (memory_properties.memoryTypes i).propertyFlags &&& desired_flags = desired_flags) :
    ∃ k : Fin 32, get_heap_idx type_bitmask desired_flags memory_properties = .ok k.val ∧
      k.val < memory_properties.memoryTypeCount ∧
      type_bitmask.testBit k.val = true ∧
      (memory_properties.memoryTypes k).propertyFlags &&& desired_flags = desired_flags ∧
      ∀ j : Fin 32, j.val < k.val →
        ¬ (type_bitmask.testBit j.val = true ∧
          (memory_properties.memoryTypes j).propertyFlags &&& desired_flags
            = desired_flags) := by
  obtain ⟨i, hi, hbit, hflags⟩ := h
  obtain ⟨k, hk, -, hkn, hkm, hkmin⟩ := get_heap_idx_loop_finds type_bitmask desired_flags
    memory_properties memory_properties.memoryTypeCount 0
    ⟨i, Nat.zero_le _, by omega, (memory_type_matches_iff _ _ _ _).2 ⟨hbit, hflags⟩⟩
  have hkm2 := (memory_type_matches_iff _ _ _ _).1 hkm
  refine ⟨k, hk, by omega, hkm2.1, hkm2.2, ?_⟩
  intro j hj hboth
  have hfalse := hkmin j (Nat.zero_le _) hj
  rw [(memory_type_matches_iff _ _ _ _).2 hboth] at hfalse
  cases hfalse

/-- C4 on three memory types (device-local; host-visible and coherent;
device-local and host-visible) with type bits `0b110` and the host-visible
flag requested: types 1 and 2 both qualify and index 1 is returned. -/
theorem get_heap_idx_returns_lowest_match_witness :
    get_heap_idx 6 VK_MEMORY_PROPERTY_HOST_VISIBLE_BIT sample_memory_properties = .ok 1 ∧
    ∃ k : Fin 32, get_heap_idx 6 VK_MEMORY_PROPERTY_HOST_VISIBLE_BIT
        sample_memory_properties = .ok k.val ∧
      k.val < sample_memory_properties.memoryTypeCount ∧
      Nat.testBit 6 k.val = true ∧
      (sample_memory_properties.memoryTypes k).propertyFlags &&&
        VK_MEMORY_PROPERTY_HOST_VISIBLE_BIT = VK_MEMORY_PROPERTY_HOST_VISIBLE_BIT ∧
      ∀ j : Fin 32, j.val < k.val →
        ¬ (Nat.testBit 6 j.val = true ∧
          (sample_memory_properties.memoryTypes j).propertyFlags &&&
            VK_MEMORY_PROPERTY_HOST_VISIBLE_BIT = VK_MEMORY_PROPERTY_HOST_VISIBLE_BIT) :=
  ⟨by decide,
   get_heap_idx_returns_lowest_match 6 VK_MEMORY_PROPERTY_HOST_VISIBLE_BIT
     sample_memory_properties ⟨2, by decide, by decide, by decide⟩⟩

/-! ## Teardown -/

/-- With enough views for the iterations left, the view loop destroys the
views `i, i + 1, ...` in order. -/
theorem destroy_image_views_eq (device : Nat) (swapchain_image_views : List Nat)
    (remaining i : Nat) (h : i + remaining ≤ swapchain_image_views.length) :
    destroy_image_views device swapchain_image_views remaining i =
      .ok (((swapchain_image_views.drop i).take remaining).map
        (VkCall.vkDestroyImageView device)) := by
  induction remaining generalizing i with
  | zero => simp [destroy_image_views]
  | succ n ih =>
    have hi : i < swapchain_image_views.length := by omega
    unfold destroy_image_views
    rw [List.getElem?_eq_getElem hi]
    simp only
    rw [ih (i + 1) (by omega)]
    simp only
    rw [List.drop_eq_getElem_cons hi]
    simp only [List.take_succ_cons, List.map_cons]

/-- The calls of `release` before `vulkan_release`, written out. -/
theorem release_app_calls_eq (g_vk : VulkanManager) (g_vk_app : VulkanApp) :
    release_app_calls g_vk g_vk_app =
      [VkCall.vkFreeMemory g_vk.device (g_vk_app.buffer_memory 0),
       VkCall.vkDestroyBuffer g_vk.device (g_vk_app.buffer 0),
       VkCall.vkFreeMemory g_vk.device (g_vk_app.buffer_memory 1),
       VkCall.vkDestroyBuffer g_vk.device (g_vk_app.buffer 1),
       VkCall.vkFreeMemory g_vk.device (g_vk_app.buffer_memory 2),
       VkCall.vkDestroyBuffer g_vk.device (g_vk_app.buffer 2),
       VkCall.vkDestroyCommandPool g_vk.device (g_vk_app.command_pool 0),
       VkCall.vkDestroyFence g_vk.device (g_vk_app.fence 0),
       VkCall.vkDestroyPipelineLayout g_vk.device (g_vk_app.pipeline_layout 0),
       VkCall.vkDestroyPipeline g_vk.device (g_vk_app.pipeline 0)]
      ++ g_vk_app.framebuffers.map (fun fb => VkCall.vkDestroyFramebuffer g_vk.device fb)
      ++ [VkCall.vkDestroyRenderPass g_vk.device (g_vk_app.renderpass 0)] := by
  have h3 : List.finRange 3 = [0, 1, 2] := by decide
  have h1 : List.finRange 1 = [0] := by decide
  have h0 : List.finRange 0 = [] := by decide
  simp [release_app_calls, h3, h1, h0]

/-- The trace of the whole shutdown when the manager holds one view per
swapchain image. -/
theorem release_eq (g_vk : VulkanManager) (g_vk_app : VulkanApp)
    (hlen : g_vk.swapchain_images.length = g_vk.swapchain_image_views.length) :
    release g_vk g_vk_app = .ok (
      ([VkCall.vkFreeMemory g_vk.device (g_vk_app.buffer_memory 0),
        VkCall.vkDestroyBuffer g_vk.device (g_vk_app.buffer 0),
        VkCall.vkFreeMemory g_vk.device (g_vk_app.buffer_memory 1),
        VkCall.vkDestroyBuffer g_vk.device (g_vk_app.buffer 1),
        VkCall.vkFreeMemory g_vk.device (g_vk_app.buffer_memory 2),
        VkCall.vkDestroyBuffer g_vk.device (g_vk_app.buffer 2)])
      ++ ([VkCall.vkDestroyCommandPool g_vk.device (g_vk_app.command_pool 0),
        VkCall.vkDestroyFence g_vk.device (g_vk_app.fence 0),
        VkCall.vkDestroyPipelineLayout g_vk.device (g_vk_app.pipeline_layout 0),
        VkCall.vkDestroyPipeline g_vk.device (g_vk_app.pipeline 0)]
       ++ g_vk_app.framebuffers.map (fun fb => VkCall.vkDestroyFramebuffer g_vk.device fb)
       ++ [VkCall.vkDestroyRenderPass g_vk.device (g_vk_app.renderpass 0)]
       ++ g_vk.swapchain_image_views.map (fun v => VkCall.vkDestroyImageView g_vk.device v)
       ++ [VkCall.vkDestroySwapchainKHR g_vk.device g_vk.swapchain,
           VkCall.vkDestroyDevice g_vk.device,
           VkCall.vkDestroySurfaceKHR g_vk.«instance» g_vk.surface,
           VkCall.vkDestroyInstance g_vk.«instance»])) := by
  unfold release vulkan_release
  rw [destroy_image_views_eq _ _ _ _ (by omega), hlen]
  simp only [List.drop_zero, List.take_length, release_app_calls_eq]
  simp

/-- In a trace `A ++ B` where no call of `A` is of kind `q` and no call of `B`
is of kind `p`, every call of kind `p` comes before every call of kind `q`. -/
theorem kinds_ordered_of_split (A B : List VkCall) (p q : VkCall → Bool)
    (hA : ∀ x ∈ A, q x = false) (hB : ∀ x ∈ B, p x = false)
    (i j : Nat) (c d : VkCall) (hc : (A ++ B)[i]? = some c) (hd : (A ++ B)[j]? = some d)
    (hp : p c = true) (hq : q d = true) : i < j := by
  have hi : i < A.length := by
    by_contra hge
    rw [List.getElem?_append_right (by omega)] at hc
    have := hB c (List.mem_iff_getElem?.2 ⟨_, hc⟩)
    rw [hp] at this
    cases this
  have hj : A.length ≤ j := by
    by_contra hlt
    rw [List.getElem?_append_left (by omega)] at hd
    have := hA d (List.mem_iff_getElem?.2 ⟨_, hd⟩)
    rw [hq] at this
    cases this
  omega

/-- C8 as stated fails. In the shutdown trace of a context with two swapchain
images, the first call frees the memory of buffer 0, and the first image
view is destroyed at position 13: a memory block is released before the
image views and the swapchain. -/
theorem buffers_released_before_views :
    ¬ (∀ calls, release sample_vulkan_manager sample_vulkan_app = .ok calls →
        ∀ (i j : Nat) (c d : VkCall), calls[i]? = some c → calls[j]? = some d →
          c.releases_buffer_or_memory = true → d.destroys_view_or_swapchain = true →
          j < i) := by
  intro h
  have hlt := h _ (release_eq sample_vulkan_manager sample_vulkan_app rfl) 0 13
    (VkCall.vkFreeMemory 4 80) (VkCall.vkDestroyImageView 4 20) rfl rfl rfl rfl
  omega

/-- C8, amended. When the manager holds one view per swapchain image, the
shutdown sequence (`release`, then `vulkan_release`) makes exactly these
calls in this order: for each of the three buffers its memory is freed and
the buffer destroyed; then the command pool, the fence, the pipeline layout
and pipeline, the framebuffers and the render pass are destroyed; then every
swapchain image view, the swapchain, the logical device, the surface and the
instance. Hence every release of a buffer or memory block comes before every
destruction of an image view, of the swapchain and of the logical device. -/
theorem teardown_order (g_vk : VulkanManager) (g_vk_app : VulkanApp)
    (hlen : g_vk.swapchain_images.length = g_vk.swapchain_image_views.length) :
    release g_vk g_vk_app = .ok (
      ([VkCall.vkFreeMemory g_vk.device (g_vk_app.buffer_memory 0),
        VkCall.vkDestroyBuffer g_vk.device (g_vk_app.buffer 0),
        VkCall.vkFreeMemory g_vk.device (g_vk_app.buffer_memory 1),
        VkCall.vkDestroyBuffer g_vk.device (g_vk_app.buffer 1),
        VkCall.vkFreeMemory g_vk.device (g_vk_app.buffer_memory 2),
        VkCall.vkDestroyBuffer g_vk.device (g_vk_app.buffer 2)])
      ++ ([VkCall.vkDestroyCommandPool g_vk.device (g_vk_app.command_pool 0),
        VkCall.vkDestroyFence g_vk.device (g_vk_app.fence 0),
        VkCall.vkDestroyPipelineLayout g_vk.device (g_vk_app.pipeline_layout 0),
        VkCall.vkDestroyPipeline g_vk.device (g_vk_app.pipeline 0)]
       ++ g_vk_app.framebuffers.map (fun fb => VkCall.vkDestroyFramebuffer g_vk.device fb)
       ++ [VkCall.vkDestroyRenderPass g_vk.device (g_vk_app.renderpass 0)]
       ++ g_vk.swapchain_image_views.map (fun v => VkCall.vkDestroyImageView g_vk.device v)
       ++ [VkCall.vkDestroySwapchainKHR g_vk.device g_vk.swapchain,
           VkCall.vkDestroyDevice g_vk.device,
           VkCall.vkDestroySurfaceKHR g_vk.«instance» g_vk.surface,
           VkCall.vkDestroyInstance g_vk.«instance»])) ∧
    ∀ calls, release g_vk g_vk_app = .ok calls →
      ∀ (i j : Nat) (c d : VkCall), calls[i]? = some c → calls[j]? = some d →
        c.releases_buffer_or_memory = true →
        (d.destroys_view_or_swapchain = true ∨ d.destroys_device = true) → i < j := by
  refine ⟨release_eq g_vk g_vk_app hlen, ?_⟩
  intro calls htrace i j c d hc hd hp hq
  rw [release_eq g_vk g_vk_app hlen] at htrace
  simp only [Except.ok.injEq] at htrace
  subst htrace
  refine kinds_ordered_of_split _ _ VkCall.releases_buffer_or_memory
    (fun x => x.destroys_view_or_swapchain || x.destroys_device) ?_ ?_ i j c d hc hd hp ?_
  · intro x hx
    simp only [List.mem_cons, List.mem_singleton, List.not_mem_nil, or_false] at hx
    casesm* _ ∨ _ <;> subst_vars <;> rfl
  · intro x hx
    simp only [List.mem_append, List.mem_cons, List.mem_singleton, List.mem_map,
      List.not_mem_nil, or_false] at hx
    casesm* _ ∨ _, ∃ _, _, _ ∧ _ <;> subst_vars <;> rfl
  · simpa using hq

/-- C8, amended, on a context with two swapchain images: the nineteen calls of
the shutdown, and the hypothesis on the view count. -/
theorem teardown_order_witness :
    sample_vulkan_manager.swapchain_images.length
        = sample_vulkan_manager.swapchain_image_views.length ∧
    release sample_vulkan_manager sample_vulkan_app = .ok
      [VkCall.vkFreeMemory 4 80, VkCall.vkDestroyBuffer 4 70,
       VkCall.vkFreeMemory 4 81, VkCall.vkDestroyBuffer 4 71,
       VkCall.vkFreeMemory 4 82, VkCall.vkDestroyBuffer 4 72,
       VkCall.vkDestroyCommandPool 4 60, VkCall.vkDestroyFence 4 62,
       VkCall.vkDestroyPipelineLayout 4 51, VkCall.vkDestroyPipeline 4 50,
       VkCall.vkDestroyFramebuffer 4 40, VkCall.vkDestroyFramebuffer 4 41,
       VkCall.vkDestroyRenderPass 4 30,
       VkCall.vkDestroyImageView 4 20, VkCall.vkDestroyImageView 4 21,
       VkCall.vkDestroySwapchainKHR 4 5, VkCall.vkDestroyDevice 4,
       VkCall.vkDestroySurfaceKHR 1 2, VkCall.vkDestroyInstance 1] :=
  ⟨rfl, (teardown_order sample_vulkan_manager sample_vulkan_app rfl).1⟩

/-! ## Fallback search and queue order -/

/-- When neither dedicated loop applies or finds a family, the call is the
last loop alone. -/
theorem get_q_family_idx_of_fallback (q_family_props : List VkQueueFamilyProperties)
    (surface_support : Nat → Bool) (q_flag : Nat) (present : Bool)
    (h1 : q_flag &&& VK_QUEUE_COMPUTE_BIT ≠ 0 →
      first_family (dedicated_compute_test q_flag) 0 q_family_props = none)
    (h2 : q_flag &&& VK_QUEUE_TRANSFER_BIT ≠ 0 →
      first_family (dedicated_transfer_test q_flag) 0 q_family_props = none) :
    get_q_family_idx q_family_props surface_support q_flag present =
      match first_family (general_test surface_support q_flag present) 0 q_family_props with
      | some i => .ok i
      | none => .error Fatal.exit_failure := by
  unfold get_q_family_idx
  by_cases hc : q_flag &&& VK_QUEUE_COMPUTE_BIT ≠ 0 <;>
  by_cases ht : q_flag &&& VK_QUEUE_TRANSFER_BIT ≠ 0
  · simp only [if_pos hc, if_pos ht, h1 hc, h2 ht]
  · simp only [if_pos hc, if_neg ht, h1 hc]
  · simp only [if_neg hc, if_pos ht, h2 ht]
  · simp only [if_neg hc, if_neg ht]

/-- A request of a single entry is answered by `get_q_family_idx` alone. -/
theorem select_q_family_indices_singleton (q_family_props : List VkQueueFamilyProperties)
    (surface_support : Nat → Bool) (q i : Nat)
    (h : get_q_family_idx q_family_props surface_support q (requires_present q) = .ok i) :
    select_q_family_indices q_family_props surface_support [q] = .ok [i] := by
  simp only [select_q_family_indices, h]

/-- C20. Fallback instead of failure. When no reported family has compute
without graphics but some family has the compute bit, the compute request
returns the lowest index of a family with the compute bit; when no family
has transfer without graphics and compute but some family has the transfer
bit, the transfer request returns the lowest index of a family with the
transfer bit. -/
theorem compute_and_transfer_fall_back (q_family_props : List VkQueueFamilyProperties)
    (surface_support : Nat → Bool) :
    ((∀ (i : Nat) (p : VkQueueFamilyProperties), q_family_props[i]? = some p →
          ¬ (p.queueFlags &&& VK_QUEUE_COMPUTE_BIT ≠ 0 ∧
              p.queueFlags &&& VK_QUEUE_GRAPHICS_BIT = 0)) →
      (∃ (i : Nat) (p : VkQueueFamilyProperties), q_family_props[i]? = some p ∧
          p.queueFlags &&& VK_QUEUE_COMPUTE_BIT ≠ 0) →
      ∃ (k : Nat) (p : VkQueueFamilyProperties),
        select_q_family_indices q_family_props surface_support [VK_QUEUE_COMPUTE_BIT]
          = .ok [k] ∧
        q_family_props[k]? = some p ∧ p.queueFlags &&& VK_QUEUE_COMPUTE_BIT ≠ 0 ∧
        ∀ (j : Nat) (q : VkQueueFamilyProperties), j < k → q_family_props[j]? = some q →
          q.queueFlags &&& VK_QUEUE_COMPUTE_BIT = 0) ∧
    ((∀ (i : Nat) (p : VkQueueFamilyProperties), q_family_props[i]? = some p →
          ¬ (p.queueFlags &&& VK_QUEUE_TRANSFER_BIT ≠ 0 ∧
              p.queueFlags &&& VK_QUEUE_GRAPHICS_BIT = 0 ∧
              p.queueFlags &&& VK_QUEUE_COMPUTE_BIT = 0)) →
      (∃ (i : Nat) (p : VkQueueFamilyProperties), q_family_props[i]? = some p ∧
          p.queueFlags &&& VK_QUEUE_TRANSFER_BIT ≠ 0) →
      ∃ (k : Nat) (p : VkQueueFamilyProperties),
        select_q_family_indices q_family_props surface_support [VK_QUEUE_TRANSFER_BIT]
          = .ok [k] ∧
        q_family_props[k]? = some p ∧ p.queueFlags &&& VK_QUEUE_TRANSFER_BIT ≠ 0 ∧
        ∀ (j : Nat) (q : VkQueueFamilyProperties), j < k → q_family_props[j]? = some q →
          q.queueFlags &&& VK_QUEUE_TRANSFER_BIT = 0) := by
  constructor
  · intro hnone ⟨i, p, hp, hbit⟩
    have hded : first_family (dedicated_compute_test VK_QUEUE_COMPUTE_BIT) 0 q_family_props
        = none := by
      rw [first_family_zero_none]
      intro j q hq
      have := hnone j q hq
      rw [← dedicated_compute_test_iff VK_QUEUE_COMPUTE_BIT j q] at this
      simpa using this
    have hgen : general_test surface_support VK_QUEUE_COMPUTE_BIT
        (requires_present VK_QUEUE_COMPUTE_BIT) i p = true :=
      (general_test_iff _ _ _ _ _).2 ⟨hbit, fun h => absurd h (by decide)⟩
    obtain ⟨k, hk⟩ := first_family_zero_exists _ q_family_props i p hp hgen
    obtain ⟨pk, hpk, htest, hmin⟩ := (first_family_zero_some _ _ _).1 hk
    have hget : get_q_family_idx q_family_props surface_support VK_QUEUE_COMPUTE_BIT
        (requires_present VK_QUEUE_COMPUTE_BIT) = .ok k := by
      rw [get_q_family_idx_of_fallback _ _ _ _ (fun _ => hded)
        (fun h => absurd h (by decide)), hk]
    refine ⟨k, pk, select_q_family_indices_singleton _ _ _ _ hget, hpk,
      ((general_test_iff _ _ _ _ _).1 htest).1, ?_⟩
    intro j q hj hq
    have hf := hmin j q hj hq
    by_contra hne
    have : general_test surface_support VK_QUEUE_COMPUTE_BIT
        (requires_present VK_QUEUE_COMPUTE_BIT) j q = true :=
      (general_test_iff _ _ _ _ _).2 ⟨hne, fun h => absurd h (by decide)⟩
    rw [this] at hf
    cases hf
  · intro hnone ⟨i, p, hp, hbit⟩
    have hded : first_family (dedicated_transfer_test VK_QUEUE_TRANSFER_BIT) 0 q_family_props
        = none := by
      rw [first_family_zero_none]
      intro j q hq
      have := hnone j q hq
      rw [← dedicated_transfer_test_iff VK_QUEUE_TRANSFER_BIT j q] at this
      simpa using this
    have hgen : general_test surface_support VK_QUEUE_TRANSFER_BIT
        (requires_present VK_QUEUE_TRANSFER_BIT) i p = true :=
      (general_test_iff _ _ _ _ _).2 ⟨hbit, fun h => absurd h (by decide)⟩
    obtain ⟨k, hk⟩ := first_family_zero_exists _ q_family_props i p hp hgen
    obtain ⟨pk, hpk, htest, hmin⟩ := (first_family_zero_some _ _ _).1 hk
    have hget : get_q_family_idx q_family_props surface_support VK_QUEUE_TRANSFER_BIT
        (requires_present VK_QUEUE_TRANSFER_BIT) = .ok k := by
      rw [get_q_family_idx_of_fallback _ _ _ _ (fun h => absurd h (by decide))
        (fun _ => hded), hk]
    refine ⟨k, pk, select_q_family_indices_singleton _ _ _ _ hget, hpk,
      ((general_test_iff _ _ _ _ _).1 htest).1, ?_⟩
    intro j q hj hq
    have hf := hmin j q hj hq
    by_contra hne
    have : general_test surface_support VK_QUEUE_TRANSFER_BIT
        (requires_present VK_QUEUE_TRANSFER_BIT) j q = true :=
      (general_test_iff _ _ _ _ _).2 ⟨hne, fun h => absurd h (by decide)⟩
    rw [this] at hf
    cases hf

/-- C20 at the scenario of the specification, families graphics with compute
and transfer-only: the transfer request returns index 1, and the compute
request, for want of a compute family without graphics, returns index 0. -/
theorem compute_and_transfer_fall_back_witness :
    select_q_family_indices families_combined_and_transfer present_on_family_zero
        [VK_QUEUE_TRANSFER_BIT] = .ok [1] ∧
    select_q_family_indices families_combined_and_transfer present_on_family_zero
        [VK_QUEUE_COMPUTE_BIT] = .ok [0] ∧
    ∃ (k : Nat) (p : VkQueueFamilyProperties),
      select_q_family_indices families_combined_and_transfer present_on_family_zero
        [VK_QUEUE_COMPUTE_BIT] = .ok [k] ∧
      families_combined_and_transfer[k]? = some p ∧
      p.queueFlags &&& VK_QUEUE_COMPUTE_BIT ≠ 0 ∧
      ∀ (j : Nat) (q : VkQueueFamilyProperties), j < k →
        families_combined_and_transfer[j]? = some q →
        q.queueFlags &&& VK_QUEUE_COMPUTE_BIT = 0 := by
  refine ⟨by decide, by decide, ?_⟩
  refine (compute_and_transfer_fall_back families_combined_and_transfer
    present_on_family_zero).1 ?_ ⟨0, _, rfl, by decide⟩
  intro i p hp
  match i, hp with
  | 0, hp =>
    simp only [families_combined_and_transfer, List.getElem?_cons_zero,
      Option.some.injEq] at hp
    subst hp
    decide
  | 1, hp =>
    simp only [families_combined_and_transfer, List.getElem?_cons_succ,
      List.getElem?_cons_zero, Option.some.injEq] at hp
    subst hp
    decide
  | n + 2, hp =>
    simp [families_combined_and_transfer] at hp

/-- C19. On every request list on which the selection returns, the result has
one entry per request and entry `n` is the family `get_q_family_idx` selects
for request `n` on its own (the same as for the one-entry list of that
request); `get_queues` returns a list of the same length whose entry `n` is
queue 0 of the family at entry `n`. -/
theorem queues_follow_request_order (q_family_props : List VkQueueFamilyProperties)
    (surface_support : Nat → Bool) (device_queue : Nat → Nat → Nat) (q_flags r : List Nat)
    (h : select_q_family_indices q_family_props surface_support q_flags = .ok r) :
    r.length = q_flags.length ∧
    (∀ (n q : Nat), q_flags[n]? = some q → ∃ i, r[n]? = some i ∧
      get_q_family_idx q_family_props surface_support q (requires_present q) = .ok i ∧
      select_q_family_indices q_family_props surface_support [q] = .ok [i]) ∧
    (get_queues device_queue r).length = q_flags.length ∧
    (∀ (n i : Nat), r[n]? = some i →
      (get_queues device_queue r)[n]? = some (device_queue i 0)) := by
  obtain ⟨hlen, hall⟩ := select_q_family_indices_ok _ _ _ _ h
  refine ⟨hlen, ?_, by simp [get_queues, hlen], ?_⟩
  · intro n q hq
    have hn : n < r.length := by
      rw [hlen]
      exact (List.getElem?_eq_some.1 hq).1
    have hr : r[n]? = some r[n] := List.getElem?_eq_getElem hn
    have hget := hall n q _ hq hr
    exact ⟨r[n], hr, hget, select_q_family_indices_singleton _ _ _ _ hget⟩
  · intro n i hi
    simp [get_queues, hi]

/-- C19 on the request graphics, compute, transfer against a universal family
and a compute and transfer family: families 0, 1, 0 and their queues 0. -/
theorem queues_follow_request_order_witness :
    select_q_family_indices families_universal_then_async present_on_family_zero
        [VK_QUEUE_GRAPHICS_BIT, VK_QUEUE_COMPUTE_BIT, VK_QUEUE_TRANSFER_BIT]
      = .ok [0, 1, 0] ∧
    get_queues sample_device_queue [0, 1, 0] = [1000, 1016, 1000] ∧
    (get_queues sample_device_queue [0, 1, 0]).length
      = [VK_QUEUE_GRAPHICS_BIT, VK_QUEUE_COMPUTE_BIT, VK_QUEUE_TRANSFER_BIT].length :=
  ⟨by decide, by decide,
   (queues_follow_request_order families_universal_then_async present_on_family_zero
      sample_device_queue
      [VK_QUEUE_GRAPHICS_BIT, VK_QUEUE_COMPUTE_BIT, VK_QUEUE_TRANSFER_BIT] [0, 1, 0]
      (by decide)).2.2.1⟩

/-! ## Swapchain negotiation: transform, composite alpha, supported values -/

/-- A returned create-info is built from the results of the two fallible
blocks. -/
theorem populate_swapchain_create_info_ok_inv (report : SurfaceReport)
    (surface image_count format : Nat) (extent : VkExtent2D) (present_mode : Nat)
    (r : VkSwapchainCreateInfoKHR)
    (h : populate_swapchain_create_info report surface image_count format extent
      present_mode = .ok r) :
    ∃ (count : Nat) (sf : VkSurfaceFormatKHR),
      negotiate_image_count report.surface_capabilities image_count = .ok count ∧
      negotiate_image_format report.supported_surface_formats format = .ok sf ∧
      r.minImageCount = count ∧ r.imageFormat = sf.format ∧
      r.imageColorSpace = sf.colorSpace ∧
      r.imageExtent = negotiate_extent report.surface_capabilities extent ∧
      r.preTransform = negotiate_pre_transform report.surface_capabilities ∧
      r.compositeAlpha = negotiate_composite_alpha report.surface_capabilities ∧
      r.presentMode = negotiate_present_mode report.supported_present_modes present_mode := by
  cases hc : negotiate_image_count report.surface_capabilities image_count with
  | error e => simp [populate_swapchain_create_info, hc] at h
  | ok count =>
    cases hf : negotiate_image_format report.supported_surface_formats format with
    | error e => simp [populate_swapchain_create_info, hc, hf] at h
    | ok sf =>
      rw [populate_swapchain_create_info_eq _ _ _ _ _ _ count sf hc hf] at h
      simp only [Except.ok.injEq] at h
      subst h
      exact ⟨count, sf, rfl, rfl, rfl, rfl, rfl, rfl, rfl, rfl, rfl⟩

/-- The format the format block returns is an entry of the supported list. -/
theorem negotiate_image_format_mem (supported_surface_formats : List VkSurfaceFormatKHR)
    (format : Nat) (sf : VkSurfaceFormatKHR)
    (h : negotiate_image_format supported_surface_formats format = .ok sf) :
    sf ∈ supported_surface_formats := by
  unfold negotiate_image_format at h
  cases hfind : supported_surface_formats.find? (fun sf => sf.format == format) with
  | some sf2 =>
    rw [hfind] at h
    simp only [Except.ok.injEq] at h
    subst h
    exact List.mem_of_find?_eq_some hfind
  | none =>
    rw [hfind] at h
    cases hl : supported_surface_formats with
    | nil => rw [hl] at h; cases h
    | cons sf0 rest =>
      rw [hl] at h
      simp only [Except.ok.injEq] at h
      subst h
      exact List.mem_cons_self _ _

/-- The composite alpha block as a cascade over the four bits in the order
of the array. -/
theorem negotiate_composite_alpha_spec (caps : VkSurfaceCapabilitiesKHR) :
    (caps.supportedCompositeAlpha &&& VK_COMPOSITE_ALPHA_OPAQUE_BIT_KHR ≠ 0 →
      negotiate_composite_alpha caps = VK_COMPOSITE_ALPHA_OPAQUE_BIT_KHR) ∧
    (caps.supportedCompositeAlpha &&& VK_COMPOSITE_ALPHA_OPAQUE_BIT_KHR = 0 →
      caps.supportedCompositeAlpha &&& VK_COMPOSITE_ALPHA_PRE_MULTIPLIED_BIT_KHR ≠ 0 →
      negotiate_composite_alpha caps = VK_COMPOSITE_ALPHA_PRE_MULTIPLIED_BIT_KHR) ∧
    (caps.supportedCompositeAlpha &&& VK_COMPOSITE_ALPHA_OPAQUE_BIT_KHR = 0 →
      caps.supportedCompositeAlpha &&& VK_COMPOSITE_ALPHA_PRE_MULTIPLIED_BIT_KHR = 0 →
      caps.supportedCompositeAlpha &&& VK_COMPOSITE_ALPHA_POST_MULTIPLIED_BIT_KHR ≠ 0 →
      negotiate_composite_alpha caps = VK_COMPOSITE_ALPHA_POST_MULTIPLIED_BIT_KHR) ∧
    (caps.supportedCompositeAlpha &&& VK_COMPOSITE_ALPHA_OPAQUE_BIT_KHR = 0 →
      caps.supportedCompositeAlpha &&& VK_COMPOSITE_ALPHA_PRE_MULTIPLIED_BIT_KHR = 0 →
      caps.supportedCompositeAlpha &&& VK_COMPOSITE_ALPHA_POST_MULTIPLIED_BIT_KHR = 0 →
      caps.supportedCompositeAlpha &&& VK_COMPOSITE_ALPHA_INHERIT_BIT_KHR ≠ 0 →
      negotiate_composite_alpha caps = VK_COMPOSITE_ALPHA_INHERIT_BIT_KHR) ∧
    (caps.supportedCompositeAlpha &&& VK_COMPOSITE_ALPHA_OPAQUE_BIT_KHR = 0 →
      caps.supportedCompositeAlpha &&& VK_COMPOSITE_ALPHA_PRE_MULTIPLIED_BIT_KHR = 0 →
      caps.supportedCompositeAlpha &&& VK_COMPOSITE_ALPHA_POST_MULTIPLIED_BIT_KHR = 0 →
      caps.supportedCompositeAlpha &&& VK_COMPOSITE_ALPHA_INHERIT_BIT_KHR = 0 →
      negotiate_composite_alpha caps = 0) := by
  have hp : ∀ x : Nat, x ≠ 0 → (x != 0) = true := fun x hx => by simpa using hx
  have hn : ∀ x : Nat, x = 0 → (x != 0) = false := fun x hx => by simp [hx]
  unfold negotiate_composite_alpha composite_alpha_flags
  refine ⟨?_, ?_, ?_, ?_, ?_⟩
  · intro h1
    simp only [List.find?, hp _ h1]
  · intro h1 h2
    simp only [List.find?, hn _ h1, hp _ h2]
  · intro h1 h2 h3
    simp only [List.find?, hn _ h1, hn _ h2, hp _ h3]
  · intro h1 h2 h3 h4
    simp only [List.find?, hn _ h1, hn _ h2, hn _ h3, hp _ h4]
  · intro h1 h2 h3 h4
    simp only [List.find?, hn _ h1, hn _ h2, hn _ h3, hn _ h4]

/-- A successful `find?` returns the entry at the lowest index passing the
test. -/
theorem find?_some_lowest_index {α : Type} (p : α → Bool) (l : List α) (a : α)
    (h : l.find? p = some a) :
    p a = true ∧ ∃ (k : Nat), l[k]? = some a ∧
      ∀ (j : Nat) (e : α), j < k → l[j]? = some e → p e = false := by
  obtain ⟨hp, pre, post, hsplit, hpre⟩ := List.find?_eq_some.1 h
  refine ⟨hp, pre.length, ?_, ?_⟩
  · rw [hsplit, List.getElem?_append_right (Nat.le_refl _)]
    simp
  · intro j e hj he
    rw [hsplit, List.getElem?_append_left hj] at he
    have hmem : e ∈ pre := List.mem_iff_getElem?.2 ⟨j, he⟩
    simpa using hpre e hmem

/-- C13. For every supported composite alpha mask with at least one of the
bits opaque, pre-multiplied, post-multiplied, inherit set, on inputs that
pass the image-count and format blocks, the call returns a create-info whose
`compositeAlpha` is the first value of the priority list opaque,
pre-multiplied, post-multiplied, inherit with a bit in the mask: its bit is
in the mask and no earlier value of the list has one. -/
theorem composite_alpha_priority (report : SurfaceReport)
    (surface image_count format : Nat) (extent : VkExtent2D) (present_mode : Nat)
    (hc : 0 < image_count)
    (hmin : report.surface_capabilities.minImageCount ≤ image_count)
    (hmax : report.surface_capabilities.maxImageCount = 0 ∨
      image_count ≤ report.surface_capabilities.maxImageCount)
    (hf : report.supported_surface_formats ≠ [])
    (hsome : ∃ a ∈ composite_alpha_flags,
      report.surface_capabilities.supportedCompositeAlpha &&& a ≠ 0) :
    composite_alpha_flags =
      [VK_COMPOSITE_ALPHA_OPAQUE_BIT_KHR, VK_COMPOSITE_ALPHA_PRE_MULTIPLIED_BIT_KHR,
       VK_COMPOSITE_ALPHA_POST_MULTIPLIED_BIT_KHR, VK_COMPOSITE_ALPHA_INHERIT_BIT_KHR] ∧
    ∃ r, populate_swapchain_create_info report surface image_count format extent
        present_mode = .ok r ∧
      ∃ (k : Nat), composite_alpha_flags[k]? = some r.compositeAlpha ∧
        report.surface_capabilities.supportedCompositeAlpha &&& r.compositeAlpha ≠ 0 ∧
        ∀ (j a : Nat), j < k → composite_alpha_flags[j]? = some a →
          report.surface_capabilities.supportedCompositeAlpha &&& a = 0 := by
  refine ⟨rfl, ?_⟩
  obtain ⟨sf, hsf, -⟩ := negotiate_image_format_spec _ format hf
  refine ⟨_, populate_swapchain_create_info_eq _ _ _ _ _ _ _ sf
    (negotiate_image_count_ok _ _ hc hmin hmax) hsf, ?_⟩
  simp only [negotiate_composite_alpha]
  cases hfind : composite_alpha_flags.find?
      (fun a => report.surface_capabilities.supportedCompositeAlpha &&& a != 0) with
  | none =>
    obtain ⟨a, ha, hbit⟩ := hsome
    have := List.find?_eq_none.1 hfind a ha
    simp only [bne_iff_ne, ne_eq, Decidable.not_not] at this
    exact absurd this hbit
  | some a =>
    obtain ⟨hp, k, hk, hlow⟩ := find?_some_lowest_index _ _ _ hfind
    refine ⟨k, hk, by simpa using hp, ?_⟩
    intro j e hj he
    simpa using hlow j e hj he

/-- C13 on a mask with the pre-multiplied and inherit bits: pre-multiplied,
the earlier of the two in the priority list, is returned. -/
theorem composite_alpha_priority_witness :
    (∃ a ∈ composite_alpha_flags,
      report_rotated_surface.surface_capabilities.supportedCompositeAlpha &&& a ≠ 0) ∧
    Except.map VkSwapchainCreateInfoKHR.compositeAlpha
      (populate_swapchain_create_info report_rotated_surface 7 2 VK_FORMAT_B8G8R8A8_SRGB
        ⟨500, 500⟩ VK_PRESENT_MODE_FIFO_KHR)
      = .ok VK_COMPOSITE_ALPHA_PRE_MULTIPLIED_BIT_KHR ∧
    ∃ r, populate_swapchain_create_info report_rotated_surface 7 2 VK_FORMAT_B8G8R8A8_SRGB
        ⟨500, 500⟩ VK_PRESENT_MODE_FIFO_KHR = .ok r ∧
      ∃ (k : Nat), composite_alpha_flags[k]? = some r.compositeAlpha ∧
        report_rotated_surface.surface_capabilities.supportedCompositeAlpha
          &&& r.compositeAlpha ≠ 0 ∧
        ∀ (j a : Nat), j < k → composite_alpha_flags[j]? = some a →
          report_rotated_surface.surface_capabilities.supportedCompositeAlpha &&& a = 0 :=
  ⟨by decide, by decide,
   (composite_alpha_priority report_rotated_surface 7 2 VK_FORMAT_B8G8R8A8_SRGB ⟨500, 500⟩
      VK_PRESENT_MODE_FIFO_KHR (by decide) (by decide) (by decide) (by decide)
      (by decide)).2⟩

/-- C14. For every reported surface capability set, on inputs that pass the
image-count and format blocks, the call returns a create-info whose
`preTransform` is the identity transform when the identity bit is in
`supportedTransforms` and the reported `currentTransform` otherwise; the
block itself never ends the call. -/
theorem pre_transform_negotiation (report : SurfaceReport)
    (surface image_count format : Nat) (extent : VkExtent2D) (present_mode : Nat)
    (hc : 0 < image_count)
    (hmin : report.surface_capabilities.minImageCount ≤ image_count)
    (hmax : report.surface_capabilities.maxImageCount = 0 ∨
      image_count ≤ report.surface_capabilities.maxImageCount)
    (hf : report.supported_surface_formats ≠ []) :
    ∃ r, populate_swapchain_create_info report surface image_count format extent
        present_mode = .ok r ∧
      (report.surface_capabilities.supportedTransforms
          &&& VK_SURFACE_TRANSFORM_IDENTITY_BIT_KHR ≠ 0 →
        r.preTransform = VK_SURFACE_TRANSFORM_IDENTITY_BIT_KHR) ∧
      (report.surface_capabilities.supportedTransforms
          &&& VK_SURFACE_TRANSFORM_IDENTITY_BIT_KHR = 0 →
        r.preTransform = report.surface_capabilities.currentTransform) := by
  obtain ⟨sf, hsf, -⟩ := negotiate_image_format_spec _ format hf
  refine ⟨_, populate_swapchain_create_info_eq _ _ _ _ _ _ _ sf
    (negotiate_image_count_ok _ _ hc hmin hmax) hsf, ?_, ?_⟩
  · intro h
    simp only [negotiate_pre_transform, if_pos h]
  · intro h
    have h2 : ¬ (report.surface_capabilities.supportedTransforms
        &&& VK_SURFACE_TRANSFORM_IDENTITY_BIT_KHR ≠ 0) := by simp [h]
    simp only [negotiate_pre_transform, if_neg h2]

/-- C14 on a surface with the identity transform (identity is returned) and
on a rotated surface without it (the current transform, `ROTATE_90`, is
returned). -/
theorem pre_transform_negotiation_witness :
    (∃ r, populate_swapchain_create_info report_fixed_extent 7 2 VK_FORMAT_B8G8R8A8_SRGB
        ⟨500, 500⟩ VK_PRESENT_MODE_FIFO_KHR = .ok r ∧
      (report_fixed_extent.surface_capabilities.supportedTransforms
          &&& VK_SURFACE_TRANSFORM_IDENTITY_BIT_KHR ≠ 0 →
        r.preTransform = VK_SURFACE_TRANSFORM_IDENTITY_BIT_KHR) ∧
      (report_fixed_extent.surface_capabilities.supportedTransforms
          &&& VK_SURFACE_TRANSFORM_IDENTITY_BIT_KHR = 0 →
        r.preTransform = report_fixed_extent.surface_capabilities.currentTransform)) ∧
    (∃ r, populate_swapchain_create_info report_rotated_surface 7 2 VK_FORMAT_B8G8R8A8_SRGB
        ⟨500, 500⟩ VK_PRESENT_MODE_FIFO_KHR = .ok r ∧
      (report_rotated_surface.surface_capabilities.supportedTransforms
          &&& VK_SURFACE_TRANSFORM_IDENTITY_BIT_KHR ≠ 0 →
        r.preTransform = VK_SURFACE_TRANSFORM_IDENTITY_BIT_KHR) ∧
      (report_rotated_surface.surface_capabilities.supportedTransforms
          &&& VK_SURFACE_TRANSFORM_IDENTITY_BIT_KHR = 0 →
        r.preTransform = report_rotated_surface.surface_capabilities.currentTransform)) :=
  ⟨pre_transform_negotiation report_fixed_extent 7 2 VK_FORMAT_B8G8R8A8_SRGB ⟨500, 500⟩
      VK_PRESENT_MODE_FIFO_KHR (by decide) (by decide) (by decide) (by decide),
   pre_transform_negotiation report_rotated_surface 7 2 VK_FORMAT_B8G8R8A8_SRGB ⟨500, 500⟩
      VK_PRESENT_MODE_FIFO_KHR (by decide) (by decide) (by decide) (by decide)⟩

/-- C12 as stated fails. The report lists mailbox as its only present mode
and a composite alpha mask without any of the four bits. The request (2
images, immediate mode) succeeds, and the create-info carries present mode
FIFO, which the report does not list, and composite alpha 0, which is no bit
of the mask. -/
theorem selected_values_outside_report :
    ¬ (∀ (report : SurfaceReport) (surface image_count format : Nat) (extent : VkExtent2D)
        (present_mode : Nat) (r : VkSwapchainCreateInfoKHR),
        populate_swapchain_create_info report surface image_count format extent
          present_mode = .ok r →
        (⟨r.imageFormat, r.imageColorSpace⟩ : VkSurfaceFormatKHR)
            ∈ report.supported_surface_formats ∧
          r.presentMode ∈ report.supported_present_modes ∧
          report.surface_capabilities.supportedCompositeAlpha &&& r.compositeAlpha ≠ 0) := by
  intro h
  have := h report_without_fifo_and_alpha 7 2 VK_FORMAT_B8G8R8A8_SRGB ⟨500, 500⟩
    VK_PRESENT_MODE_IMMEDIATE_KHR _ rfl
  revert this
  decide

/-- C12, amended. For every report whose present-mode list contains FIFO and
whose composite alpha mask has at least one of the four bits, and every
request on which the call returns: the (imageFormat, imageColorSpace) pair
is an entry of the supported surface-format list, `presentMode` is an entry
of the supported present-mode list, and `compositeAlpha` is one of the four
values and has its bit in the mask. Without those two conditions the format
pair is still an entry of the list, and the present mode is still listed
whenever the requested mode is. -/
theorem selected_values_are_supported (report : SurfaceReport)
    (surface image_count format : Nat) (extent : VkExtent2D) (present_mode : Nat)
    (r : VkSwapchainCreateInfoKHR)
    (h : populate_swapchain_create_info report surface image_count format extent
      present_mode = .ok r) :
    (⟨r.imageFormat, r.imageColorSpace⟩ : VkSurfaceFormatKHR)
        ∈ report.supported_surface_formats ∧
    (present_mode ∈ report.supported_present_modes ∨
        VK_PRESENT_MODE_FIFO_KHR ∈ report.supported_present_modes →
      r.presentMode ∈ report.supported_present_modes) ∧
    ((∃ a ∈ composite_alpha_flags,
        report.surface_capabilities.supportedCompositeAlpha &&& a ≠ 0) →
      r.compositeAlpha ∈ composite_alpha_flags ∧
        report.surface_capabilities.supportedCompositeAlpha &&& r.compositeAlpha ≠ 0) := by
  obtain ⟨count, sf, -, hsf, -, hfmt, hcs, -, -, halpha, hmode⟩ :=
    populate_swapchain_create_info_ok_inv _ _ _ _ _ _ _ h
  refine ⟨?_, ?_, ?_⟩
  · rw [hfmt, hcs]
    exact negotiate_image_format_mem _ _ _ hsf
  · intro hfifo
    rw [hmode]
    unfold negotiate_present_mode
    by_cases hany : report.supported_present_modes.any (fun m => m == present_mode) = true
    · rw [if_pos hany]
      obtain ⟨m, hm, heq⟩ := List.any_eq_true.1 hany
      have : m = present_mode := by simpa using heq
      exact this ▸ hm
    · rw [if_neg hany]
      rcases hfifo with hreq | hfifo
      · exact absurd (List.any_eq_true.2 ⟨present_mode, hreq, by simp⟩) hany
      · exact hfifo
  · intro hsome
    rw [halpha]
    simp only [negotiate_composite_alpha]
    cases hfind : composite_alpha_flags.find?
        (fun a => report.surface_capabilities.supportedCompositeAlpha &&& a != 0) with
    | none =>
      obtain ⟨a, ha, hbit⟩ := hsome
      have := List.find?_eq_none.1 hfind a ha
      simp only [bne_iff_ne, ne_eq, Decidable.not_not] at this
      exact absurd this hbit
    | some a =>
      exact ⟨List.mem_of_find?_eq_some hfind, by simpa using List.find?_some hfind⟩

/-- C12, amended, at the request of `main.cpp` on a surface that lists one
format, FIFO and mailbox, and opaque composite alpha. -/
theorem selected_values_are_supported_witness :
    populate_swapchain_create_info report_fixed_extent 7 2 VK_FORMAT_R8G8B8A8_SRGB
        ⟨500, 500⟩ VK_PRESENT_MODE_FIFO_KHR = .ok create_info_on_fixed_extent ∧
    VK_PRESENT_MODE_FIFO_KHR ∈ report_fixed_extent.supported_present_modes ∧
    (∃ a ∈ composite_alpha_flags,
      report_fixed_extent.surface_capabilities.supportedCompositeAlpha &&& a ≠ 0) ∧
    (⟨create_info_on_fixed_extent.imageFormat, create_info_on_fixed_extent.imageColorSpace⟩
        : VkSurfaceFormatKHR) ∈ report_fixed_extent.supported_surface_formats ∧
    create_info_on_fixed_extent.presentMode ∈ report_fixed_extent.supported_present_modes ∧
    create_info_on_fixed_extent.compositeAlpha ∈ composite_alpha_flags ∧
    report_fixed_extent.surface_capabilities.supportedCompositeAlpha
      &&& create_info_on_fixed_extent.compositeAlpha ≠ 0 :=
  ⟨by decide, by decide, by decide,
   (selected_values_are_supported report_fixed_extent 7 2 VK_FORMAT_R8G8B8A8_SRGB
      ⟨500, 500⟩ VK_PRESENT_MODE_FIFO_KHR create_info_on_fixed_extent (by decide)).1,
   (selected_values_are_supported report_fixed_extent 7 2 VK_FORMAT_R8G8B8A8_SRGB
      ⟨500, 500⟩ VK_PRESENT_MODE_FIFO_KHR create_info_on_fixed_extent (by decide)).2.1
      (Or.inl (by decide)),
   (selected_values_are_supported report_fixed_extent 7 2 VK_FORMAT_R8G8B8A8_SRGB
      ⟨500, 500⟩ VK_PRESENT_MODE_FIFO_KHR create_info_on_fixed_extent (by decide)).2.2
      (by decide)⟩

/-! ## Device creation: the extension identifiers -/

/-- The two chain variables are set together: once `p_next_chain` is set,
`next_p_next` points at a `pNext` field. -/
def ExtensionLoopState.chain_consistent (st : ExtensionLoopState) : Prop :=
  st.p_next_chain = none ∨ st.next_p_next = some FeatureBlock.sync_2_features

theorem extension_step_of_known (st : ExtensionLoopState) (ext_id : Nat)
    (hinv : st.chain_consistent)
    (hid : ext_id = DEVICE_EXT_SWAPCHAIN ∨ ext_id = DEVICE_EXT_SYNC_2) :
    ∃ st2, extension_step st ext_id = .ok st2 ∧ st2.chain_consistent ∧
      st2.device_extensions = st.device_extensions ++
        List.replicate ([ext_id].count DEVICE_EXT_SWAPCHAIN)
          VK_KHR_SWAPCHAIN_EXTENSION_NAME := by
  rcases hid with hid | hid
  · subst hid
    exact ⟨{ st with device_extensions :=
              st.device_extensions ++ [VK_KHR_SWAPCHAIN_EXTENSION_NAME] },
      by simp [extension_step], hinv, by simp⟩
  · subst hid
    unfold extension_step
    rw [if_pos rfl]
    cases hp : st.p_next_chain with
    | none =>
      exact ⟨_, rfl, Or.inr rfl, by simp⟩
    | some b =>
      rcases hinv with hnone | hnext
      · rw [hp] at hnone; cases hnone
      · simp only [hnext]
        exact ⟨_, rfl, Or.inr rfl, by simp⟩

theorem extension_step_of_unknown (st : ExtensionLoopState) (ext_id : Nat)
    (h1 : ext_id ≠ DEVICE_EXT_SWAPCHAIN) (h2 : ext_id ≠ DEVICE_EXT_SYNC_2) :
    extension_step st ext_id = .error Fatal.exit_failure := by
  simp [extension_step, h1, h2]

/-- The loop from a consistent state: it runs to its end exactly when every
identifier is one of the two known ones, and then has appended the swapchain
extension name once per occurrence of `DEVICE_EXT_SWAPCHAIN`; otherwise it
leaves through `EXIT`. -/
theorem extension_loop_spec (ids : List Nat) (st : ExtensionLoopState)
    (hinv : st.chain_consistent) :
    ((∀ id ∈ ids, id = DEVICE_EXT_SWAPCHAIN ∨ id = DEVICE_EXT_SYNC_2) →
      ∃ st2, extension_loop st ids = .ok st2 ∧ st2.chain_consistent ∧
        st2.device_extensions = st.device_extensions ++
          List.replicate (ids.count DEVICE_EXT_SWAPCHAIN) VK_KHR_SWAPCHAIN_EXTENSION_NAME) ∧
    ((∃ id ∈ ids, id ≠ DEVICE_EXT_SWAPCHAIN ∧ id ≠ DEVICE_EXT_SYNC_2) →
      extension_loop st ids = .error Fatal.exit_failure) := by
  induction ids generalizing st with
  | nil =>
    refine ⟨fun _ => ⟨st, rfl, hinv, by simp⟩, ?_⟩
    rintro ⟨id, hmem, -⟩
    cases hmem
  | cons id rest ih =>
    by_cases hid : id = DEVICE_EXT_SWAPCHAIN ∨ id = DEVICE_EXT_SYNC_2
    · obtain ⟨st2, hstep, hinv2, hext2⟩ := extension_step_of_known st id hinv hid
      obtain ⟨ihok, ihbad⟩ := ih st2 hinv2
      constructor
      · intro hall
        obtain ⟨st3, hloop, hinv3, hext3⟩ :=
          ihok (fun x hx => hall x (List.mem_cons_of_mem _ hx))
        refine ⟨st3, by simp only [extension_loop, hstep, hloop], hinv3, ?_⟩
        rw [hext3, hext2, List.append_assoc, ← List.replicate_add]
        congr 2
        simp only [List.count_cons, List.count_nil]
        omega
      · rintro ⟨x, hx, hx1, hx2⟩
        simp only [extension_loop, hstep]
        rcases List.mem_cons.1 hx with hxe | hxr
        · subst hxe
          rcases hid with h | h
          · exact absurd h hx1
          · exact absurd h hx2
        · exact ihbad ⟨x, hxr, hx1, hx2⟩
    · have h1 : id ≠ DEVICE_EXT_SWAPCHAIN := fun h => hid (Or.inl h)
      have h2 : id ≠ DEVICE_EXT_SYNC_2 := fun h => hid (Or.inr h)
      constructor
      · intro hall
        exact absurd (hall id (List.mem_cons_self _ _)) hid
      · intro _
        simp only [extension_loop, extension_step_of_unknown st id h1 h2]

/-- C18. `create_device` ends the process, through `EXIT`, if and only if the
list of device extension identifiers contains an identifier other than
`DEVICE_EXT_SWAPCHAIN` and `DEVICE_EXT_SYNC_2`; it fails in no other way;
and for every list drawn from those two identifiers it reaches
`vkCreateDevice` with enabled extension names that are the swapchain
extension name, once per occurrence of `DEVICE_EXT_SWAPCHAIN` in the list. -/
theorem create_device_fatal_iff_unknown_extension (q_family_indices : List Nat)
    (device_extension_ids : List Nat) :
    (create_device q_family_indices device_extension_ids = .error Fatal.exit_failure ↔
      ∃ id ∈ device_extension_ids, id ≠ DEVICE_EXT_SWAPCHAIN ∧ id ≠ DEVICE_EXT_SYNC_2) ∧
    (∀ e, create_device q_family_indices device_extension_ids = .error e →
      e = Fatal.exit_failure) ∧
    ((∀ id ∈ device_extension_ids, id = DEVICE_EXT_SWAPCHAIN ∨ id = DEVICE_EXT_SYNC_2) →
      ∃ create_info, create_device q_family_indices device_extension_ids = .ok create_info ∧
        create_info.enabledExtensionNames =
          List.replicate (device_extension_ids.count DEVICE_EXT_SWAPCHAIN)
            VK_KHR_SWAPCHAIN_EXTENSION_NAME ∧
        create_info.enabledExtensionNames.count VK_KHR_SWAPCHAIN_EXTENSION_NAME =
          device_extension_ids.count DEVICE_EXT_SWAPCHAIN) := by
  obtain ⟨hok, hbad⟩ := extension_loop_spec device_extension_ids
    { device_extensions := [], p_next_chain := none, next_p_next := none,
      sync_2_features_pNext := none } (Or.inl rfl)
  have hsplit : (∀ id ∈ device_extension_ids,
        id = DEVICE_EXT_SWAPCHAIN ∨ id = DEVICE_EXT_SYNC_2) ∨
      (∃ id ∈ device_extension_ids, id ≠ DEVICE_EXT_SWAPCHAIN ∧ id ≠ DEVICE_EXT_SYNC_2) := by
    by_cases hall : ∀ id ∈ device_extension_ids,
        id = DEVICE_EXT_SWAPCHAIN ∨ id = DEVICE_EXT_SYNC_2
    · exact Or.inl hall
    · right
      simp only [not_forall] at hall
      obtain ⟨id, hmem, hne⟩ := hall
      exact ⟨id, hmem, fun h => hne (Or.inl h), fun h => hne (Or.inr h)⟩
  have hfatal : (∃ id ∈ device_extension_ids,
        id ≠ DEVICE_EXT_SWAPCHAIN ∧ id ≠ DEVICE_EXT_SYNC_2) →
      create_device q_family_indices device_extension_ids = .error Fatal.exit_failure := by
    intro h
    simp only [create_device, hbad h]
  have hreturns : (∀ id ∈ device_extension_ids,
        id = DEVICE_EXT_SWAPCHAIN ∨ id = DEVICE_EXT_SYNC_2) →
      ∃ create_info, create_device q_family_indices device_extension_ids = .ok create_info ∧
        create_info.enabledExtensionNames =
          List.replicate (device_extension_ids.count DEVICE_EXT_SWAPCHAIN)
            VK_KHR_SWAPCHAIN_EXTENSION_NAME := by
    intro h
    obtain ⟨st2, hloop, -, hext⟩ := hok h
    have hcd : create_device q_family_indices device_extension_ids =
        .ok { pNext := st2.p_next_chain
              sync_2_features_pNext := st2.sync_2_features_pNext
              queueCreateInfos := q_family_indices.map
                (fun idx => { queueFamilyIndex := idx, queueCount := 1 })
              enabledLayerCount := 0
              enabledExtensionNames := st2.device_extensions } := by
      simp only [create_device, hloop]
    refine ⟨_, hcd, ?_⟩
    simpa using hext
  refine ⟨⟨?_, hfatal⟩, ?_, ?_⟩
  · intro herr
    rcases hsplit with hall | hex
    · obtain ⟨ci, hci, -⟩ := hreturns hall
      rw [hci] at herr
      cases herr
    · exact hex
  · intro e herr
    rcases hsplit with hall | hex
    · obtain ⟨ci, hci, -⟩ := hreturns hall
      rw [hci] at herr
      cases herr
    · rw [hfatal hex] at herr
      simp only [Except.error.injEq] at herr
      exact herr.symm
  · intro hall
    obtain ⟨ci, hci, hnames⟩ := hreturns hall
    refine ⟨ci, hci, hnames, ?_⟩
    rw [hnames, List.count_replicate_self]

/-- C18 at the identifier list of `main.cpp`, swapchain then synchronization2:
one queue entry for family 0, the swapchain extension name once. -/
theorem create_device_fatal_iff_unknown_extension_witness :
    (∀ id ∈ [DEVICE_EXT_SWAPCHAIN, DEVICE_EXT_SYNC_2],
      id = DEVICE_EXT_SWAPCHAIN ∨ id = DEVICE_EXT_SYNC_2) ∧
    create_device [0] [DEVICE_EXT_SWAPCHAIN, DEVICE_EXT_SYNC_2] =
      .ok { pNext := some FeatureBlock.sync_2_features, sync_2_features_pNext := none,
            queueCreateInfos := [⟨0, 1⟩], enabledLayerCount := 0,
            enabledExtensionNames := [VK_KHR_SWAPCHAIN_EXTENSION_NAME] } ∧
    create_device [0] [DEVICE_EXT_SWAPCHAIN, DEVICE_EXT_COUNT] = .error Fatal.exit_failure ∧
    ∃ create_info, create_device [0] [DEVICE_EXT_SWAPCHAIN, DEVICE_EXT_SYNC_2]
        = .ok create_info ∧
      create_info.enabledExtensionNames =
        List.replicate ([DEVICE_EXT_SWAPCHAIN, DEVICE_EXT_SYNC_2].count DEVICE_EXT_SWAPCHAIN)
          VK_KHR_SWAPCHAIN_EXTENSION_NAME ∧
      create_info.enabledExtensionNames.count VK_KHR_SWAPCHAIN_EXTENSION_NAME =
        [DEVICE_EXT_SWAPCHAIN, DEVICE_EXT_SYNC_2].count DEVICE_EXT_SWAPCHAIN :=
  ⟨by decide, by decide, by decide,
   (create_device_fatal_iff_unknown_extension [0]
      [DEVICE_EXT_SWAPCHAIN, DEVICE_EXT_SYNC_2]).2.2 (by decide)⟩

/-! ## Memory type resolution: no match -/

/-- The loop from an index inside the array, when no index of the range
matches: it ends in the assertion if the range stays inside the array, and
reads past the array otherwise. -/
theorem get_heap_idx_loop_no_match (memory_type_indices memory_property_flags : Nat)
    (memory_properties : VkPhysicalDeviceMemoryProperties) (remaining i : Nat)
    (hi : i ≤ 32)
    (h : ∀ j : Fin 32, i ≤ j.val → j.val < i + remaining →
      memory_type_matches memory_type_indices memory_property_flags memory_properties j
        = false) :
    get_heap_idx_loop memory_type_indices memory_property_flags memory_properties
        remaining i =
      .error (if i + remaining ≤ 32 then Fatal.assertion else Fatal.undefined_behaviour) := by
  induction remaining generalizing i with
  | zero =>
    unfold get_heap_idx_loop
    rw [if_pos (by omega)]
  | succ n ih =>
    unfold get_heap_idx_loop
    by_cases hlt : i < 32
    · rw [dif_pos hlt]
      have hm := h ⟨i, hlt⟩ (Nat.le_refl _) (by simp)
      rw [hm]
      simp only [Bool.false_eq_true, if_false]
      rw [ih (i + 1) (by omega) (fun j h1 h2 => h j (by omega) (by omega))]
      have e : i + 1 + n = i + (n + 1) := by omega
      rw [e]
    · rw [dif_neg hlt, if_neg (by omega)]

/-- An index the loop returns lies in its range, inside the array, and
passes the test of line 399. -/
theorem get_heap_idx_loop_ok (memory_type_indices memory_property_flags : Nat)
    (memory_properties : VkPhysicalDeviceMemoryProperties) (remaining i k : Nat)
    (h : get_heap_idx_loop memory_type_indices memory_property_flags memory_properties
      remaining i = .ok k) :
    i ≤ k ∧ k < i + remaining ∧ ∃ hk : k < 32,
      memory_type_matches memory_type_indices memory_property_flags memory_properties
        ⟨k, hk⟩ = true := by
  induction remaining generalizing i with
  | zero =>
    unfold get_heap_idx_loop at h
    cases h
  | succ n ih =>
    unfold get_heap_idx_loop at h
    by_cases hlt : i < 32
    · rw [dif_pos hlt] at h
      by_cases hm : memory_type_matches memory_type_indices memory_property_flags
          memory_properties ⟨i, hlt⟩ = true
      · rw [if_pos hm] at h
        simp only [Except.ok.injEq] at h
        subst h
        exact ⟨Nat.le_refl _, by omega, hlt, hm⟩
      · rw [if_neg hm] at h
        obtain ⟨h1, h2, h3⟩ := ih (i + 1) h
        exact ⟨by omega, by omega, h3⟩
    · rw [dif_neg hlt] at h
      cases h

/-- C11. When no index below `memoryTypeCount` has both its bit set in the
type bitmask and property flags containing the desired flags,
`get_heap_idx` hands no index to its caller: with `memoryTypeCount` inside
the array bound it ends in the failed assertion of line 405 (beyond the
bound it reads past the array first), and `allocate_buffer_memory` then has
made the requirements query and no allocation. Whenever
`allocate_buffer_memory` does call `vkAllocateMemory`, the memory type index
it passes is below `memoryTypeCount`, has its bit in the buffer's
`memoryTypeBits` and has property flags containing the desired flags. -/
theorem get_heap_idx_fatal_without_match (type_bitmask desired_flags : Nat)
    (memory_properties : VkPhysicalDeviceMemoryProperties) :
    ((∀ i : Fin 32, i.val < memory_properties.memoryTypeCount →
          ¬ (type_bitmask.testBit i.val = true ∧
            (memory_properties.memoryTypes i).propertyFlags &&& desired_flags
              = desired_flags)) →
      (get_heap_idx type_bitmask desired_flags memory_properties =
          .error (if memory_properties.memoryTypeCount ≤ VK_MAX_MEMORY_TYPES
            then Fatal.assertion else Fatal.undefined_behaviour)) ∧
      ∀ (memReqs : VkMemoryRequirements) (memory device buffer : Nat),
        memReqs.memoryTypeBits = type_bitmask →
        allocate_buffer_memory memReqs memory device buffer desired_flags memory_properties
          = ([DeviceOp.vkGetBufferMemoryRequirements device buffer],
              .error (if memory_properties.memoryTypeCount ≤ VK_MAX_MEMORY_TYPES
                then Fatal.assertion else Fatal.undefined_behaviour))) ∧
    (∀ (memReqs : VkMemoryRequirements) (memory device buffer : Nat)
        (device2 allocationSize memoryTypeIndex memory2 : Nat),
      memReqs.memoryTypeBits = type_bitmask →
      DeviceOp.vkAllocateMemory device2 allocationSize memoryTypeIndex memory2 ∈
        (allocate_buffer_memory memReqs memory device buffer desired_flags
          memory_properties).1 →
      ∃ k : Fin 32, k.val = memoryTypeIndex ∧
        k.val < memory_properties.memoryTypeCount ∧
        type_bitmask.testBit k.val = true ∧
        (memory_properties.memoryTypes k).propertyFlags &&& desired_flags
          = desired_flags) := by
  constructor
  · intro hno
    have hget : get_heap_idx type_bitmask desired_flags memory_properties =
        .error (if memory_properties.memoryTypeCount ≤ VK_MAX_MEMORY_TYPES
          then Fatal.assertion else Fatal.undefined_behaviour) := by
      unfold get_heap_idx
      rw [get_heap_idx_loop_no_match _ _ _ _ 0 (by omega)]
      · simp [VK_MAX_MEMORY_TYPES]
      · intro j _ hj
        have := hno j (by omega)
        rw [← memory_type_matches_iff] at this
        simpa using this
    refine ⟨hget, ?_⟩
    intro memReqs memory device buffer hbits
    simp only [allocate_buffer_memory, hbits, hget]
  · intro memReqs memory device buffer device2 allocationSize memoryTypeIndex memory2
      hbits hmem
    unfold allocate_buffer_memory at hmem
    rw [hbits] at hmem
    cases hget : get_heap_idx type_bitmask desired_flags memory_properties with
    | error e =>
      rw [hget] at hmem
      simp at hmem
    | ok idx =>
      rw [hget] at hmem
      simp only [List.mem_cons, List.mem_singleton, List.not_mem_nil, or_false,
        DeviceOp.vkAllocateMemory.injEq] at hmem
      rcases hmem with hne | ⟨-, -, hidx, -⟩
      · cases hne
      subst hidx
      obtain ⟨-, hlt, hk32, hm⟩ := get_heap_idx_loop_ok _ _ _ _ _ _ hget
      have hm2 := (memory_type_matches_iff _ _ _ _).1 hm
      exact ⟨⟨memoryTypeIndex, hk32⟩, rfl, by simpa using hlt, hm2.1, hm2.2⟩

/-- C11 on three memory types (device-local; host-visible and coherent;
device-local and host-visible) with type bits `0b110` and the flags
device-local and host-coherent requested: neither type 1 nor type 2 has
both, the assertion fails and no memory is allocated. -/
theorem get_heap_idx_fatal_without_match_witness :
    (∀ i : Fin 32, i.val < sample_memory_properties.memoryTypeCount →
      ¬ (Nat.testBit 6 i.val = true ∧
        (sample_memory_properties.memoryTypes i).propertyFlags &&&
          (VK_MEMORY_PROPERTY_DEVICE_LOCAL_BIT ||| VK_MEMORY_PROPERTY_HOST_COHERENT_BIT)
          = (VK_MEMORY_PROPERTY_DEVICE_LOCAL_BIT ||| VK_MEMORY_PROPERTY_HOST_COHERENT_BIT))) ∧
    get_heap_idx 6
        (VK_MEMORY_PROPERTY_DEVICE_LOCAL_BIT ||| VK_MEMORY_PROPERTY_HOST_COHERENT_BIT)
        sample_memory_properties = .error Fatal.assertion ∧
    allocate_buffer_memory ⟨64, 64, 6⟩ 80 4 70
        (VK_MEMORY_PROPERTY_DEVICE_LOCAL_BIT ||| VK_MEMORY_PROPERTY_HOST_COHERENT_BIT)
        sample_memory_properties
      = ([DeviceOp.vkGetBufferMemoryRequirements 4 70], .error Fatal.assertion) :=
  ⟨by decide,
   ((get_heap_idx_fatal_without_match 6
      (VK_MEMORY_PROPERTY_DEVICE_LOCAL_BIT ||| VK_MEMORY_PROPERTY_HOST_COHERENT_BIT)
      sample_memory_properties).1 (by decide)).1,
   ((get_heap_idx_fatal_without_match 6
      (VK_MEMORY_PROPERTY_DEVICE_LOCAL_BIT ||| VK_MEMORY_PROPERTY_HOST_COHERENT_BIT)
      sample_memory_properties).1 (by decide)).2 ⟨64, 64, 6⟩ 80 4 70 rfl⟩

/-! ## The upload: its calls -/

/-- In a list `A ++ B` where no entry of `A` is of kind `q` and no entry of
`B` is of kind `p`, every entry of kind `p` comes before every entry of kind
`q`. -/
theorem ordered_of_split {α : Type} (A B : List α) (p q : α → Bool)
    (hA : ∀ x ∈ A, q x = false) (hB : ∀ x ∈ B, p x = false)
    (i j : Nat) (c d : α) (hc : (A ++ B)[i]? = some c) (hd : (A ++ B)[j]? = some d)
    (hp : p c = true) (hq : q d = true) : i < j := by
  have hi : i < A.length := by
    by_contra hge
    rw [List.getElem?_append_right (by omega)] at hc
    have := hB c (List.mem_iff_getElem?.2 ⟨_, hc⟩)
    rw [hp] at this
    cases this
  have hj : A.length ≤ j := by
    by_contra hlt
    rw [List.getElem?_append_left (by omega)] at hd
    have := hA d (List.mem_iff_getElem?.2 ⟨_, hd⟩)
    rw [hq] at this
    cases this
  omega

/-- C16. Every call of `upload_data` makes exactly these ten calls in this
order: map the staging memory from offset 0 for its whole size, copy `size`
source bytes into the mapping, flush the one whole mapped range, unmap,
begin the command buffer as one-time-submit, record one buffer copy from the
staging to the destination buffer (one region, source offset 0, destination
offset 0, `size` bytes), end the command buffer, submit that one command
buffer with no wait semaphore, no signal semaphore and no fence, wait for
the queue to be idle, reset the command pool. The wait comes after the
submission and before the pool reset, and there is one copy and one
submission. -/
theorem upload_data_call_sequence (device command_pool queue command_buffer src_buffer
    dst_buffer src_memory dst_memory size : Nat) (data : List Nat) :
    upload_data device command_pool queue command_buffer src_buffer dst_buffer src_memory
        dst_memory size data =
      [DeviceOp.vkMapMemory device src_memory 0 VK_WHOLE_SIZE 0,
       DeviceOp.memcpy data size,
       DeviceOp.vkFlushMappedMemoryRanges device [⟨src_memory, 0, VK_WHOLE_SIZE⟩],
       DeviceOp.vkUnmapMemory device src_memory,
       DeviceOp.vkBeginCommandBuffer command_buffer
         VK_COMMAND_BUFFER_USAGE_ONE_TIME_SUBMIT_BIT,
       DeviceOp.vkCmdCopyBuffer command_buffer src_buffer dst_buffer [⟨0, 0, size⟩],
       DeviceOp.vkEndCommandBuffer command_buffer,
       DeviceOp.vkQueueSubmit queue [⟨[], [command_buffer], []⟩] VK_NULL_HANDLE,
       DeviceOp.vkQueueWaitIdle queue,
       DeviceOp.vkResetCommandPool device command_pool 0] ∧
    (∀ (i j k : Nat) (a b c : DeviceOp),
      (upload_data device command_pool queue command_buffer src_buffer dst_buffer
        src_memory dst_memory size data)[i]? = some a →
      (upload_data device command_pool queue command_buffer src_buffer dst_buffer
        src_memory dst_memory size data)[j]? = some b →
      (upload_data device command_pool queue command_buffer src_buffer dst_buffer
        src_memory dst_memory size data)[k]? = some c →
      a.is_submit = true → b.is_wait_idle = true → c.is_pool_reset = true →
      i < j ∧ j < k) ∧
    (upload_data device command_pool queue command_buffer src_buffer dst_buffer src_memory
        dst_memory size data).filter DeviceOp.is_copy =
      [DeviceOp.vkCmdCopyBuffer command_buffer src_buffer dst_buffer [⟨0, 0, size⟩]] ∧
    (upload_data device command_pool queue command_buffer src_buffer dst_buffer src_memory
        dst_memory size data).filter DeviceOp.is_submit =
      [DeviceOp.vkQueueSubmit queue [⟨[], [command_buffer], []⟩] VK_NULL_HANDLE] := by
  refine ⟨rfl, ?_, rfl, rfl⟩
  intro i j k a b c ha hb hc hsub hwait hreset
  constructor
  · refine ordered_of_split
      [DeviceOp.vkMapMemory device src_memory 0 VK_WHOLE_SIZE 0,
       DeviceOp.memcpy data size,
       DeviceOp.vkFlushMappedMemoryRanges device [⟨src_memory, 0, VK_WHOLE_SIZE⟩],
       DeviceOp.vkUnmapMemory device src_memory,
       DeviceOp.vkBeginCommandBuffer command_buffer
         VK_COMMAND_BUFFER_USAGE_ONE_TIME_SUBMIT_BIT,
       DeviceOp.vkCmdCopyBuffer command_buffer src_buffer dst_buffer [⟨0, 0, size⟩],
       DeviceOp.vkEndCommandBuffer command_buffer,
       DeviceOp.vkQueueSubmit queue [⟨[], [command_buffer], []⟩] VK_NULL_HANDLE]
      [DeviceOp.vkQueueWaitIdle queue, DeviceOp.vkResetCommandPool device command_pool 0]
      DeviceOp.is_submit DeviceOp.is_wait_idle ?_ ?_ i j a b ha hb hsub hwait
    · intro x hx
      simp only [List.mem_cons, List.mem_singleton, List.not_mem_nil, or_false] at hx
      casesm* _ ∨ _ <;> subst_vars <;> rfl
    · intro x hx
      simp only [List.mem_cons, List.mem_singleton, List.not_mem_nil, or_false] at hx
      casesm* _ ∨ _ <;> subst_vars <;> rfl
  · refine ordered_of_split
      [DeviceOp.vkMapMemory device src_memory 0 VK_WHOLE_SIZE 0,
       DeviceOp.memcpy data size,
       DeviceOp.vkFlushMappedMemoryRanges device [⟨src_memory, 0, VK_WHOLE_SIZE⟩],
       DeviceOp.vkUnmapMemory device src_memory,
       DeviceOp.vkBeginCommandBuffer command_buffer
         VK_COMMAND_BUFFER_USAGE_ONE_TIME_SUBMIT_BIT,
       DeviceOp.vkCmdCopyBuffer command_buffer src_buffer dst_buffer [⟨0, 0, size⟩],
       DeviceOp.vkEndCommandBuffer command_buffer,
       DeviceOp.vkQueueSubmit queue [⟨[], [command_buffer], []⟩] VK_NULL_HANDLE,
       DeviceOp.vkQueueWaitIdle queue]
      [DeviceOp.vkResetCommandPool device command_pool 0]
      DeviceOp.is_wait_idle DeviceOp.is_pool_reset ?_ ?_ j k b c hb hc hwait hreset
    · intro x hx
      simp only [List.mem_cons, List.mem_singleton, List.not_mem_nil, or_false] at hx
      casesm* _ ∨ _ <;> subst_vars <;> rfl
    · intro x hx
      simp only [List.mem_cons, List.mem_singleton, List.not_mem_nil, or_false] at hx
      subst hx
      rfl

/-! ## The upload: its effect on buffer contents -/

theorem write_bytes_length (block : List Nat) (offset : Nat) (data : List Nat)
    (h : offset + data.length ≤ block.length) :
    (write_bytes block offset data).length = block.length := by
  simp only [write_bytes, List.length_append, List.length_take, List.length_drop]
  omega

/-- Bytes written at an offset inside a block are read back from it. -/
theorem read_write_bytes (block : List Nat) (offset : Nat) (data : List Nat)
    (h : offset ≤ block.length) :
    read_bytes (write_bytes block offset data) offset data.length = data := by
  unfold read_bytes write_bytes
  have hlen : (block.take offset).length = offset := by
    rw [List.length_take]; omega
  rw [List.append_assoc, List.drop_append_of_le_length (by omega)]
  have : List.drop offset (List.take offset block) = [] := by
    rw [List.drop_eq_nil_iff]; omega
  rw [this, List.nil_append, List.take_left']
  rfl

/-- C17. Round trip of the transfer protocol on the abstract device. Let the
staging buffer be bound at offset 0 to the block passed as `src_memory`, the
destination buffer be bound to a block, both inside their blocks, no
mapping be active and no submitted copy be outstanding. Then for every byte
sequence `data` of length `size`, with `size` at most the size of the
staging buffer and at most the size of the destination buffer, the calls of
`upload_data` all succeed and afterwards the first `size` bytes read from the
destination buffer are `data`; no mapping or outstanding copy is left and
the buffers and their bindings are as before. -/
theorem upload_data_round_trip (dev : AbstractDevice)
    (device command_pool queue command_buffer src_buffer dst_buffer src_memory dst_memory
      size : Nat) (data : List Nat)
    (src_size dst_size dst_block_handle dst_offset : Nat) (src_block dst_block : List Nat)
    (hdata : data.length = size)
    (hmap : dev.mapping = none) (hpend : dev.pending = [])
    (hsrc : dev.buffers src_buffer = some ⟨src_size, some (src_memory, 0)⟩)
    (hdst : dev.buffers dst_buffer = some ⟨dst_size, some (dst_block_handle, dst_offset)⟩)
    (hsm : dev.memories src_memory = some src_block)
    (hdm : dev.memories dst_block_handle = some dst_block)
    (hsfit : src_size ≤ src_block.length)
    (hdfit : dst_offset + dst_size ≤ dst_block.length)
    (hs : size ≤ src_size) (hd : size ≤ dst_size) :
    ∃ dev2, dev.run
        (upload_data device command_pool queue command_buffer src_buffer dst_buffer
          src_memory dst_memory size data) = some dev2 ∧
      dev2.read_buffer dst_buffer size = some data ∧
      dev2.mapping = none ∧ dev2.pending = [] ∧ dev2.buffers = dev.buffers := by
  obtain ⟨buffers, memories, mapping, recorded, pending⟩ := dev
  simp only at hmap hpend hsrc hdst hsm hdm
  subst hmap hpend
  have h1 : size ≤ src_block.length := by omega
  have htake : data.take size = data := by rw [← hdata]; exact List.take_length _
  have hwl : (write_bytes src_block 0 data).length = src_block.length :=
    write_bytes_length _ _ _ (by omega)
  have hrd : read_bytes (write_bytes src_block 0 data) 0 size = data := by
    rw [← hdata]; exact read_write_bytes _ _ _ (Nat.zero_le _)
  by_cases hne : dst_block_handle = src_memory
  · subst hne
    rw [hsm] at hdm
    simp only [Option.some.injEq] at hdm
    subst hdm
    have hwl2 : (write_bytes (write_bytes src_block 0 data) dst_offset data).length
        = src_block.length := by
      rw [write_bytes_length _ _ _ (by omega), hwl]
    have hrd2 : read_bytes (write_bytes (write_bytes src_block 0 data) dst_offset data)
        dst_offset size = data := by
      rw [← hdata]; exact read_write_bytes _ _ _ (by omega)
    simp [upload_data, AbstractDevice.run, AbstractDevice.step, set_entry, hsm, hsrc, hdst,
      hdata, h1, htake, AbstractDevice.commands_of, AbstractDevice.exec_copies,
      AbstractDevice.exec_copy, hs, hd, hwl, hrd, hsfit, hdfit,
      AbstractDevice.read_buffer, hwl2, hrd2]
  · have hwl2 : (write_bytes dst_block dst_offset data).length = dst_block.length :=
      write_bytes_length _ _ _ (by omega)
    have hrd2 : read_bytes (write_bytes dst_block dst_offset data) dst_offset size = data := by
      rw [← hdata]; exact read_write_bytes _ _ _ (by omega)
    simp [upload_data, AbstractDevice.run, AbstractDevice.step, set_entry, hsm, hsrc, hdst,
      hdm, hdata, h1, htake, AbstractDevice.commands_of, AbstractDevice.exec_copies,
      AbstractDevice.exec_copy, hs, hd, hne, hwl, hrd, hsfit, hdfit,
      AbstractDevice.read_buffer, hwl2, hrd2]

/-- C17 on the triangle of `main.cpp`. From the device with the three buffers
bound, the upload of the 36 vertex bytes through the staging buffer reads
back as those bytes from the vertex buffer; and the whole scene block run
from the initial device leaves the 36 vertex bytes in the vertex buffer and
the 12 index bytes, uploaded afterwards through the same staging buffer, in
the index buffer. -/
theorem upload_data_round_trip_witness :
    (triangle_vertices.length = 36 ∧
      sample_device_after_bind.mapping = none ∧ sample_device_after_bind.pending = [] ∧
      sample_device_after_bind.buffers 72 = some ⟨36, some (82, 0)⟩ ∧
      sample_device_after_bind.buffers 70 = some ⟨36, some (80, 0)⟩ ∧
      sample_device_after_bind.memories 82 = some (List.replicate 64 0) ∧
      sample_device_after_bind.memories 80 = some (List.replicate 64 0)) ∧
    (∃ dev2, sample_device_after_bind.run
        (upload_data 4 60 6 61 72 70 82 80 36 triangle_vertices) = some dev2 ∧
      dev2.read_buffer 70 36 = some triangle_vertices ∧
      dev2.mapping = none ∧ dev2.pending = [] ∧
      dev2.buffers = sample_device_after_bind.buffers) ∧
    (AbstractDevice.initial.run
        (init_create_scene sample_vulkan_manager sample_vulkan_app
          sample_memory_requirements).1).bind (fun dev => dev.read_buffer 70 36)
      = some triangle_vertices ∧
    (AbstractDevice.initial.run
        (init_create_scene sample_vulkan_manager sample_vulkan_app
          sample_memory_requirements).1).bind (fun dev => dev.read_buffer 71 12)
      = some triangle_indices :=
  ⟨⟨by decide, rfl, rfl, by decide, by decide, by decide, by decide⟩,
   upload_data_round_trip sample_device_after_bind 4 60 6 61 72 70 82 80 36
     triangle_vertices 36 36 80 0 (List.replicate 64 0) (List.replicate 64 0)
     (by decide) rfl rfl (by decide) (by decide) (by decide) (by decide)
     (by decide) (by decide) (by decide) (by decide),
   by decide, by decide⟩

/-! ## Allocation and binding -/

/-- C15 as stated fails. On the device that holds the vertex buffer (handle
70, unbound), `allocate_buffer_memory` for that buffer with the device-local
flag returns the new block 80, and after its calls the buffer is bound to no
memory block: the function does not call `vkBindBufferMemory`. -/
theorem allocation_returns_with_buffer_unbound :
    ¬ (∀ (memReqs : VkMemoryRequirements) (memory device buffer memory_property_flags : Nat)
        (memory_properties : VkPhysicalDeviceMemoryProperties) (dev : AbstractDevice),
        (∃ b, dev.buffers buffer = some b) →
        (allocate_buffer_memory memReqs memory device buffer memory_property_flags
          memory_properties).2 = .ok memory →
        ∃ dev2, dev.run (allocate_buffer_memory memReqs memory device buffer
            memory_property_flags memory_properties).1 = some dev2 ∧
          ∃ offset, dev2.binding buffer = some (memory, offset)) := by
  intro h
  obtain ⟨dev2, hrun, offset, hbound⟩ := h ⟨64, 64, 7⟩ 80 4 70
    VK_MEMORY_PROPERTY_DEVICE_LOCAL_BIT sample_memory_properties
    sample_device_with_vertex_buffer ⟨_, rfl⟩ (by decide)
  have hnone : (sample_device_with_vertex_buffer.run
      (allocate_buffer_memory ⟨64, 64, 7⟩ 80 4 70 VK_MEMORY_PROPERTY_DEVICE_LOCAL_BIT
        sample_memory_properties).1).bind (fun dev => dev.binding 70) = none := by decide
  rw [hrun] at hnone
  change dev2.binding 70 = none at hnone
  rw [hbound] at hnone
  cases hnone

/-- C15, amended. When `get_heap_idx` resolves a memory type for the buffer's
`memoryTypeBits` and the desired flags, `allocate_buffer_memory` makes two
calls, the requirements query for the buffer and one allocation of exactly
the required size from the resolved type, and returns the new block; on the
abstract device the buffer's binding is what it was before the call, so the
block comes back unbound. The binding is made by `init`: in the scene block,
when the three resolutions succeed, the calls of `vkBindBufferMemory` are
exactly three, one per buffer, each binding the buffer at offset 0 to the
block that was allocated for it. -/
theorem allocate_buffer_memory_leaves_binding_to_init
    (memReqs : VkMemoryRequirements) (memory device buffer memory_property_flags : Nat)
    (memory_properties : VkPhysicalDeviceMemoryProperties) (memoryTypeIndex : Nat)
    (h : get_heap_idx memReqs.memoryTypeBits memory_property_flags memory_properties
      = .ok memoryTypeIndex) :
    allocate_buffer_memory memReqs memory device buffer memory_property_flags
        memory_properties =
      ([DeviceOp.vkGetBufferMemoryRequirements device buffer,
        DeviceOp.vkAllocateMemory device memReqs.size memoryTypeIndex memory], .ok memory) ∧
    (∀ dev : AbstractDevice, (∃ b, dev.buffers buffer = some b) →
      ∃ dev2, dev.run (allocate_buffer_memory memReqs memory device buffer
          memory_property_flags memory_properties).1 = some dev2 ∧
        dev2.binding buffer = dev.binding buffer ∧
        dev2.buffers = dev.buffers ∧
        ∃ block, dev2.memories memory = some block ∧ block.length = memReqs.size) ∧
    (∀ (g_vk : VulkanManager) (g_vk_app : VulkanApp)
        (memReqs3 : Fin BUFFER_COUNT → VkMemoryRequirements) (queue t0 t1 t2 : Nat),
      g_vk.queues[0]? = some queue →
      get_heap_idx (memReqs3 0).memoryTypeBits VK_MEMORY_PROPERTY_DEVICE_LOCAL_BIT
        g_vk.physical_device_memory_properties = .ok t0 →
      get_heap_idx (memReqs3 1).memoryTypeBits VK_MEMORY_PROPERTY_DEVICE_LOCAL_BIT
        g_vk.physical_device_memory_properties = .ok t1 →
      get_heap_idx (memReqs3 2).memoryTypeBits VK_MEMORY_PROPERTY_HOST_VISIBLE_BIT
        g_vk.physical_device_memory_properties = .ok t2 →
      (init_create_scene g_vk g_vk_app memReqs3).2 = .ok () ∧
      (init_create_scene g_vk g_vk_app memReqs3).1.filter DeviceOp.is_bind =
        [DeviceOp.vkBindBufferMemory g_vk.device (g_vk_app.buffer 0)
           (g_vk_app.buffer_memory 0) 0,
         DeviceOp.vkBindBufferMemory g_vk.device (g_vk_app.buffer 1)
           (g_vk_app.buffer_memory 1) 0,
         DeviceOp.vkBindBufferMemory g_vk.device (g_vk_app.buffer 2)
           (g_vk_app.buffer_memory 2) 0] ∧
      (init_create_scene g_vk g_vk_app memReqs3).1.filter DeviceOp.is_allocate =
        [DeviceOp.vkAllocateMemory g_vk.device (memReqs3 0).size t0
           (g_vk_app.buffer_memory 0),
         DeviceOp.vkAllocateMemory g_vk.device (memReqs3 1).size t1
           (g_vk_app.buffer_memory 1),
         DeviceOp.vkAllocateMemory g_vk.device (memReqs3 2).size t2
           (g_vk_app.buffer_memory 2)]) := by
  have halloc : allocate_buffer_memory memReqs memory device buffer memory_property_flags
        memory_properties =
      ([DeviceOp.vkGetBufferMemoryRequirements device buffer,
        DeviceOp.vkAllocateMemory device memReqs.size memoryTypeIndex memory], .ok memory) := by
    simp only [allocate_buffer_memory, h]
  refine ⟨halloc, ?_, ?_⟩
  · rintro dev ⟨b, hb⟩
    rw [halloc]
    simp [AbstractDevice.run, AbstractDevice.step, hb, AbstractDevice.binding, set_entry]
  · intro g_vk g_vk_app memReqs3 queue t0 t1 t2 hq h0 h1 h2
    refine ⟨?_, ?_, ?_⟩ <;>
    simp [init_create_scene, and_then, allocate_buffer_memory, create_buffer, upload_data,
      h0, h1, h2, hq, List.filter, DeviceOp.is_bind, DeviceOp.is_allocate]

/-- C15, amended, on the scene of `main.cpp`: the allocation for the vertex
buffer makes its two calls and returns block 80; the scene block binds the
three buffers once each, and on the abstract device each buffer ends up
bound at offset 0 to the block allocated for it. -/
theorem allocate_buffer_memory_leaves_binding_to_init_witness :
    get_heap_idx 7 VK_MEMORY_PROPERTY_DEVICE_LOCAL_BIT sample_memory_properties = .ok 0 ∧
    allocate_buffer_memory ⟨64, 64, 7⟩ 80 4 70 VK_MEMORY_PROPERTY_DEVICE_LOCAL_BIT
        sample_memory_properties =
      ([DeviceOp.vkGetBufferMemoryRequirements 4 70,
        DeviceOp.vkAllocateMemory 4 64 0 80], .ok 80) ∧
    (init_create_scene sample_vulkan_manager sample_vulkan_app
        sample_memory_requirements).1.filter DeviceOp.is_bind =
      [DeviceOp.vkBindBufferMemory 4 70 80 0, DeviceOp.vkBindBufferMemory 4 71 81 0,
       DeviceOp.vkBindBufferMemory 4 72 82 0] ∧
    (AbstractDevice.initial.run
        (init_create_scene sample_vulkan_manager sample_vulkan_app
          sample_memory_requirements).1).map
        (fun dev => (dev.binding 70, dev.binding 71, dev.binding 72))
      = some (some (80, 0), some (81, 0), some (82, 0)) :=
  ⟨by decide,
   (allocate_buffer_memory_leaves_binding_to_init ⟨64, 64, 7⟩ 80 4 70
      VK_MEMORY_PROPERTY_DEVICE_LOCAL_BIT sample_memory_properties 0 (by decide)).1,
   ((allocate_buffer_memory_leaves_binding_to_init ⟨64, 64, 7⟩ 80 4 70
      VK_MEMORY_PROPERTY_DEVICE_LOCAL_BIT sample_memory_properties 0 (by decide)).2.2
      sample_vulkan_manager sample_vulkan_app sample_memory_requirements 6 0 0 1
      rfl (by decide) (by decide) (by decide)).2.1,
   by decide⟩

/-! ## Selected families are reported families -/

/-- C24. For every request list and family list on which the selection
returns, each returned index is smaller than the number of reported queue
families, and the family at that index has at least one bit of the
requested flag value of the same position in its `queueFlags`. -/
theorem selected_index_in_range_with_requested_bit
    (q_family_props : List VkQueueFamilyProperties) (surface_support : Nat → Bool)
    (q_flags r : List Nat) (n q i : Nat)
    (hsel : select_q_family_indices q_family_props surface_support q_flags = .ok r)
    (hq : q_flags[n]? = some q) (hi : r[n]? = some i) :
    i < q_family_props.length ∧
      ∃ p, q_family_props[i]? = some p ∧ p.queueFlags &&& q ≠ 0 := by
  have hget := (select_q_family_indices_ok _ _ _ _ hsel).2 n q i hq hi
  have hfam : ∃ p, q_family_props[i]? = some p ∧ p.queueFlags &&& q ≠ 0 := by
    rcases get_q_family_idx_ok_cases _ _ _ _ _ hget with ⟨-, hff⟩ | ⟨-, hff⟩ | hff
    · obtain ⟨p, hp, htest, -⟩ := (first_family_zero_some _ _ _).1 hff
      exact ⟨p, hp, ((dedicated_compute_test_iff _ _ _).1 htest).1⟩
    · obtain ⟨p, hp, htest, -⟩ := (first_family_zero_some _ _ _).1 hff
      exact ⟨p, hp, ((dedicated_transfer_test_iff _ _ _).1 htest).1⟩
    · obtain ⟨p, hp, htest, -⟩ := (first_family_zero_some _ _ _).1 hff
      exact ⟨p, hp, ((general_test_iff _ _ _ _ _).1 htest).1⟩
  obtain ⟨p, hp, hbit⟩ := hfam
  exact ⟨(List.getElem?_eq_some.1 hp).1, p, hp, hbit⟩

/-- C24 on the request graphics, compute, transfer against three families:
the transfer entry is index 2, below the family count 3, and family 2 has
the transfer bit. -/
theorem selected_index_in_range_with_requested_bit_witness :
    select_q_family_indices families_with_copy_engine present_on_family_zero
        [VK_QUEUE_GRAPHICS_BIT, VK_QUEUE_COMPUTE_BIT, VK_QUEUE_TRANSFER_BIT]
      = .ok [0, 1, 2] ∧
    2 < families_with_copy_engine.length ∧
    ∃ p, families_with_copy_engine[2]? = some p ∧
      p.queueFlags &&& VK_QUEUE_TRANSFER_BIT ≠ 0 :=
  ⟨by decide,
   selected_index_in_range_with_requested_bit families_with_copy_engine
     present_on_family_zero
     [VK_QUEUE_GRAPHICS_BIT, VK_QUEUE_COMPUTE_BIT, VK_QUEUE_TRANSFER_BIT] [0, 1, 2]
     2 VK_QUEUE_TRANSFER_BIT 2 (by decide) rfl rfl⟩

/-! ## Device creation: queue entries and the feature chain -/

/-- C25. Whenever `create_device` reaches `vkCreateDevice`, the queue-create
entries it passes are one per entry of the family index list, in the same
order, each with that family index and `queueCount` 1; equal indices are
not merged, so an index that occurs twice in the list occurs twice among
the entries. -/
theorem queue_create_infos_follow_family_indices (q_family_indices : List Nat)
    (device_extension_ids : List Nat) (create_info : VkDeviceCreateInfo)
    (h : create_device q_family_indices device_extension_ids = .ok create_info) :
    create_info.queueCreateInfos =
        q_family_indices.map (fun idx => { queueFamilyIndex := idx, queueCount := 1 }) ∧
    create_info.queueCreateInfos.length = q_family_indices.length ∧
    (∀ (n idx : Nat), q_family_indices[n]? = some idx →
      create_info.queueCreateInfos[n]? = some { queueFamilyIndex := idx, queueCount := 1 }) ∧
    (∀ idx, (create_info.queueCreateInfos.filter
        (fun entry => entry.queueFamilyIndex == idx)).length = q_family_indices.count idx) := by
  unfold create_device at h
  cases hloop : extension_loop
      { device_extensions := [], p_next_chain := none, next_p_next := none,
        sync_2_features_pNext := none } device_extension_ids with
  | error e => rw [hloop] at h; cases h
  | ok st =>
    rw [hloop] at h
    simp only [Except.ok.injEq] at h
    subst h
    refine ⟨rfl, by simp, ?_, ?_⟩
    · intro n idx hn
      simp [hn]
    · intro idx
      simp only [List.filter_map, List.length_map, List.count, List.countP_eq_length_filter]
      rfl

/-- C25 at the example of the claim: on the families graphics with compute
and transfer-only, with family 0 able to present, the request graphics,
compute selects family 0 twice, and the device is created with two queue
entries for family 0. -/
theorem queue_create_infos_follow_family_indices_witness :
    select_q_family_indices families_combined_and_transfer present_on_family_zero
        [VK_QUEUE_GRAPHICS_BIT, VK_QUEUE_COMPUTE_BIT] = .ok [0, 0] ∧
    create_device [0, 0] [DEVICE_EXT_SWAPCHAIN, DEVICE_EXT_SYNC_2] =
      .ok { pNext := some FeatureBlock.sync_2_features, sync_2_features_pNext := none,
            queueCreateInfos := [⟨0, 1⟩, ⟨0, 1⟩], enabledLayerCount := 0,
            enabledExtensionNames := [VK_KHR_SWAPCHAIN_EXTENSION_NAME] } ∧
    ([⟨0, 1⟩, ⟨0, 1⟩] : List VkDeviceQueueCreateInfo) =
      [0, 0].map (fun idx => { queueFamilyIndex := idx, queueCount := 1 }) :=
  ⟨by decide, by decide,
   (queue_create_infos_follow_family_indices [0, 0]
      [DEVICE_EXT_SWAPCHAIN, DEVICE_EXT_SYNC_2]
      { pNext := some FeatureBlock.sync_2_features, sync_2_features_pNext := none,
        queueCreateInfos := [⟨0, 1⟩, ⟨0, 1⟩], enabledLayerCount := 0,
        enabledExtensionNames := [VK_KHR_SWAPCHAIN_EXTENSION_NAME] } (by decide)).1⟩

/-! ## Swapchain negotiation: negotiating again -/

/-- The format block returns the same entry when it is asked for the format
it returned. -/
theorem negotiate_image_format_again (supported_surface_formats : List VkSurfaceFormatKHR)
    (format : Nat) (sf : VkSurfaceFormatKHR)
    (h : negotiate_image_format supported_surface_formats format = .ok sf) :
    negotiate_image_format supported_surface_formats sf.format = .ok sf := by
  unfold negotiate_image_format at h
  cases hfind : supported_surface_formats.find? (fun e => e.format == format) with
  | some sf2 =>
    rw [hfind] at h
    simp only [Except.ok.injEq] at h
    subst h
    have hfmt : sf2.format = format := by simpa using List.find?_some hfind
    unfold negotiate_image_format
    rw [hfmt, hfind]
  | none =>
    rw [hfind] at h
    cases hl : supported_surface_formats with
    | nil => rw [hl] at h; cases h
    | cons sf0 rest =>
      rw [hl] at h
      simp only [Except.ok.injEq] at h
      subst h
      simp [negotiate_image_format, List.find?]

/-- The extent block returns the same extent when it is given the extent it
returned. -/
theorem negotiate_extent_again (caps : VkSurfaceCapabilitiesKHR) (extent : VkExtent2D) :
    negotiate_extent caps (negotiate_extent caps extent) = negotiate_extent caps extent := by
  unfold negotiate_extent
  by_cases h : caps.currentExtent.width ≠ UINT32_MAX
  · simp only [if_pos h]
  · simp only [if_neg h]

/-- The present-mode block returns the same mode when it is given the mode it
returned. -/
theorem negotiate_present_mode_again (supported_present_modes : List Nat)
    (present_mode : Nat) :
    negotiate_present_mode supported_present_modes
        (negotiate_present_mode supported_present_modes present_mode)
      = negotiate_present_mode supported_present_modes present_mode := by
  unfold negotiate_present_mode
  by_cases h : supported_present_modes.any (fun m => m == present_mode) = true
  · simp only [if_pos h]
  · simp only [if_neg h]
    by_cases h2 : supported_present_modes.any (fun m => m == VK_PRESENT_MODE_FIFO_KHR) = true
    · simp only [if_pos h2]
    · simp only [if_neg h2]

/-- C22. Negotiation is idempotent. For every report and every request on
which `populate_swapchain_create_info` returns a create-info `r`, the
request made of `r.minImageCount`, `r.imageFormat`, `r.imageExtent` and
`r.presentMode`, against the same report and surface, returns as well, and
its create-info equals `r` in every field, the colour space included. -/
theorem negotiation_idempotent (report : SurfaceReport)
    (surface image_count format : Nat) (extent : VkExtent2D) (present_mode : Nat)
    (r : VkSwapchainCreateInfoKHR)
    (h : populate_swapchain_create_info report surface image_count format extent
      present_mode = .ok r) :
    populate_swapchain_create_info report surface r.minImageCount r.imageFormat
      r.imageExtent r.presentMode = .ok r := by
  cases hc : negotiate_image_count report.surface_capabilities image_count with
  | error e => simp [populate_swapchain_create_info, hc] at h
  | ok count =>
    cases hf : negotiate_image_format report.supported_surface_formats format with
    | error e => simp [populate_swapchain_create_info, hc, hf] at h
    | ok sf =>
      rw [populate_swapchain_create_info_eq _ _ _ _ _ _ count sf hc hf] at h
      simp only [Except.ok.injEq] at h
      subst h
      have hcount : count = image_count := by
        rw [negotiate_image_count_eq] at hc
        by_cases h0 : image_count = 0
        · rw [if_pos h0] at hc; cases hc
        · rw [if_neg h0] at hc
          by_cases hb : report.surface_capabilities.minImageCount ≤ image_count ∧
              (report.surface_capabilities.maxImageCount = 0 ∨
                image_count ≤ report.surface_capabilities.maxImageCount)
          · rw [if_pos hb] at hc
            simp only [Except.ok.injEq] at hc
            exact hc.symm
          · rw [if_neg hb] at hc; cases hc
      have hc2 : negotiate_image_count report.surface_capabilities count = .ok count := by
        rw [hcount]
        rw [hcount] at hc
        exact hc
      rw [populate_swapchain_create_info_eq _ _ _ _ _ _ count sf hc2
        (negotiate_image_format_again _ _ _ hf)]
      simp only [negotiate_extent_again, negotiate_present_mode_again]

/-- C22 at the request of `main.cpp` on a surface that lists only
B8G8R8A8_SRGB: the first negotiation falls back to that format, and
negotiating again with the returned values returns the same create-info. -/
theorem negotiation_idempotent_witness :
    populate_swapchain_create_info report_fixed_extent 7 2 VK_FORMAT_R8G8B8A8_SRGB
        ⟨500, 500⟩ VK_PRESENT_MODE_FIFO_KHR = .ok create_info_on_fixed_extent ∧
    populate_swapchain_create_info report_fixed_extent 7
        create_info_on_fixed_extent.minImageCount create_info_on_fixed_extent.imageFormat
        create_info_on_fixed_extent.imageExtent create_info_on_fixed_extent.presentMode
      = .ok create_info_on_fixed_extent :=
  ⟨by decide,
   negotiation_idempotent report_fixed_extent 7 2 VK_FORMAT_R8G8B8A8_SRGB ⟨500, 500⟩
     VK_PRESENT_MODE_FIFO_KHR create_info_on_fixed_extent (by decide)⟩

/-! ## Memory type resolution: monotonicity -/

/-- When every index that matches one request also matches another, and the
first request has a match below `memoryTypeCount`, both calls return and the
index of the other request is not above that of the first. -/
theorem get_heap_idx_le_of_matches_imp (bitmask1 flags1 bitmask2 flags2 : Nat)
    (memory_properties : VkPhysicalDeviceMemoryProperties)
    (himp : ∀ j : Fin 32,
      memory_type_matches bitmask2 flags2 memory_properties j = true →
      memory_type_matches bitmask1 flags1 memory_properties j = true)
    (hex : ∃ j : Fin 32, j.val < memory_properties.memoryTypeCount ∧
      memory_type_matches bitmask2 flags2 memory_properties j = true) :
    ∃ (k1 k2 : Nat), get_heap_idx bitmask1 flags1 memory_properties = .ok k1 ∧
      get_heap_idx bitmask2 flags2 memory_properties = .ok k2 ∧ k1 ≤ k2 := by
  obtain ⟨j, hj, hm⟩ := hex
  obtain ⟨k2, hk2, -, hk2n, hk2m, -⟩ := get_heap_idx_loop_finds bitmask2 flags2
    memory_properties memory_properties.memoryTypeCount 0 ⟨j, Nat.zero_le _, by omega, hm⟩
  obtain ⟨k1, hk1, -, -, -, hk1min⟩ := get_heap_idx_loop_finds bitmask1 flags1
    memory_properties memory_properties.memoryTypeCount 0
    ⟨j, Nat.zero_le _, by omega, himp j hm⟩
  refine ⟨k1.val, k2.val, hk1, hk2, ?_⟩
  by_contra hlt
  have hfalse := hk1min k2 (Nat.zero_le _) (by omega)
  rw [himp k2 hk2m] at hfalse
  cases hfalse

/-- C23. `get_heap_idx` is monotone. If every bit of `desired_a` is a bit of
`desired_b` and some memory type below `memoryTypeCount` matches the type
bitmask and `desired_b`, then some type matches the bitmask and
`desired_a`, both calls return, and the index for `desired_a` is at most the
index for `desired_b`. Likewise, if every bit of `cleared` is a bit of the
type bitmask and some type matches `cleared` and the desired flags, both
calls return and the index for the full bitmask is at most the index for
`cleared`: clearing bits never lowers the returned index. -/
theorem get_heap_idx_monotone (type_bitmask : Nat)
    (memory_properties : VkPhysicalDeviceMemoryProperties) :
    (∀ (desired_a desired_b : Nat), desired_b &&& desired_a = desired_a →
      (∃ i : Fin 32, i.val < memory_properties.memoryTypeCount ∧
        type_bitmask.testBit i.val = true ∧
        (memory_properties.memoryTypes i).propertyFlags &&& desired_b = desired_b) →
      (∃ i : Fin 32, i.val < memory_properties.memoryTypeCount ∧
        type_bitmask.testBit i.val = true ∧
        (memory_properties.memoryTypes i).propertyFlags &&& desired_a = desired_a) ∧
      ∃ (ka kb : Nat), get_heap_idx type_bitmask desired_a memory_properties = .ok ka ∧
        get_heap_idx type_bitmask desired_b memory_properties = .ok kb ∧ ka ≤ kb) ∧
    (∀ (desired_flags cleared : Nat), type_bitmask &&& cleared = cleared →
      (∃ i : Fin 32, i.val < memory_properties.memoryTypeCount ∧
        cleared.testBit i.val = true ∧
        (memory_properties.memoryTypes i).propertyFlags &&& desired_flags
          = desired_flags) →
      ∃ (k k2 : Nat), get_heap_idx type_bitmask desired_flags memory_properties = .ok k ∧
        get_heap_idx cleared desired_flags memory_properties = .ok k2 ∧ k ≤ k2) := by
  constructor
  · intro desired_a desired_b hsub ⟨i, hi, hbit, hflags⟩
    have hweaker : ∀ flags : Nat, flags &&& desired_b = desired_b →
        flags &&& desired_a = desired_a := by
      intro flags hb
      rw [flags_superset_iff] at hb ⊢
      intro b hab
      exact hb b ((flags_superset_iff desired_b desired_a).1 hsub b hab)
    refine ⟨⟨i, hi, hbit, hweaker _ hflags⟩, ?_⟩
    refine get_heap_idx_le_of_matches_imp type_bitmask desired_a type_bitmask desired_b
      memory_properties ?_ ⟨i, hi, (memory_type_matches_iff _ _ _ _).2 ⟨hbit, hflags⟩⟩
    intro j hj
    obtain ⟨h1, h2⟩ := (memory_type_matches_iff _ _ _ _).1 hj
    exact (memory_type_matches_iff _ _ _ _).2 ⟨h1, hweaker _ h2⟩
  · intro desired_flags cleared hsub ⟨i, hi, hbit, hflags⟩
    refine get_heap_idx_le_of_matches_imp type_bitmask desired_flags cleared desired_flags
      memory_properties ?_ ⟨i, hi, (memory_type_matches_iff _ _ _ _).2 ⟨hbit, hflags⟩⟩
    intro j hj
    obtain ⟨h1, h2⟩ := (memory_type_matches_iff _ _ _ _).1 hj
    exact (memory_type_matches_iff _ _ _ _).2
      ⟨(flags_superset_iff type_bitmask cleared).1 hsub _ h1, h2⟩

/-- C23 on three memory types (device-local; host-visible and coherent;
device-local and host-visible): with every type allowed, device-local alone
resolves to type 0 and device-local with host-visible to type 2; with the
bit of type 0 cleared from the bitmask, device-local resolves to type 2. -/
theorem get_heap_idx_monotone_witness :
    get_heap_idx 7 VK_MEMORY_PROPERTY_DEVICE_LOCAL_BIT sample_memory_properties = .ok 0 ∧
    get_heap_idx 7
        (VK_MEMORY_PROPERTY_DEVICE_LOCAL_BIT ||| VK_MEMORY_PROPERTY_HOST_VISIBLE_BIT)
        sample_memory_properties = .ok 2 ∧
    get_heap_idx 6 VK_MEMORY_PROPERTY_DEVICE_LOCAL_BIT sample_memory_properties = .ok 2 ∧
    (∃ (ka kb : Nat),
      get_heap_idx 7 VK_MEMORY_PROPERTY_DEVICE_LOCAL_BIT sample_memory_properties = .ok ka ∧
      get_heap_idx 7
        (VK_MEMORY_PROPERTY_DEVICE_LOCAL_BIT ||| VK_MEMORY_PROPERTY_HOST_VISIBLE_BIT)
        sample_memory_properties = .ok kb ∧ ka ≤ kb) ∧
    (∃ (k k2 : Nat),
      get_heap_idx 7 VK_MEMORY_PROPERTY_DEVICE_LOCAL_BIT sample_memory_properties = .ok k ∧
      get_heap_idx 6 VK_MEMORY_PROPERTY_DEVICE_LOCAL_BIT sample_memory_properties = .ok k2 ∧
      k ≤ k2) :=
  ⟨by decide, by decide, by decide,
   ((get_heap_idx_monotone 7 sample_memory_properties).1
      VK_MEMORY_PROPERTY_DEVICE_LOCAL_BIT
      (VK_MEMORY_PROPERTY_DEVICE_LOCAL_BIT ||| VK_MEMORY_PROPERTY_HOST_VISIBLE_BIT)
      (by decide) ⟨2, by decide, by decide, by decide⟩).2,
   (get_heap_idx_monotone 7 sample_memory_properties).2
      VK_MEMORY_PROPERTY_DEVICE_LOCAL_BIT 6 (by decide)
      ⟨2, by decide, by decide, by decide⟩⟩

/-! ## Device creation: the feature chain -/

/-- C21. The feature chain at three identifier lists. Without
`DEVICE_EXT_SYNC_2` the chain is empty; with it named once the chain is the
synchronization2 block followed by `nullptr`; with it named twice the second
occurrence stores the address of `sync_2_features` into its own `pNext`
field, so the chain handed to `vkCreateDevice` leads from the block back to
the block and reaches `nullptr` after no number of hops. -/
theorem feature_chain_cycles_on_repeated_sync_2 :
    (∃ create_info, create_device [0] [DEVICE_EXT_SWAPCHAIN] = .ok create_info ∧
      chain_walk create_info 0 = none) ∧
    (∃ create_info, create_device [0] [DEVICE_EXT_SWAPCHAIN, DEVICE_EXT_SYNC_2]
        = .ok create_info ∧
      chain_walk create_info 0 = some FeatureBlock.sync_2_features ∧
      chain_walk create_info 1 = none) ∧
    (∃ create_info, create_device [0] [DEVICE_EXT_SYNC_2, DEVICE_EXT_SYNC_2]
        = .ok create_info ∧
      create_info.pNext = some FeatureBlock.sync_2_features ∧
      create_info.sync_2_features_pNext = some FeatureBlock.sync_2_features ∧
      ∀ hops, chain_walk create_info hops = some FeatureBlock.sync_2_features) := by
  refine ⟨⟨_, rfl, rfl⟩, ⟨_, rfl, rfl, rfl⟩, ⟨_, rfl, rfl, rfl, ?_⟩⟩
  intro hops
  induction hops with
  | zero => rfl
  | succ n ih =>
    unfold chain_walk
    rw [ih]

end VkTemplate
